import Mathlib

/-!
# CLARA Security: the trust engine and the orchestrator

A shallow embedding of `daemon/trust_engine` (`trust_engine.h`, `trust_engine.cpp`); the
embedding of `daemon/orchestrator` follows it, with its own notes.

* The engine object is the structure `TrustEngine`; every member function is a function
  that takes the engine and returns the engine after the call (with the returned value,
  when there is one).
* `int` and `int64_t` values are integers of `Int`.  The two sums of a score, `current_score
  + penalty` and `current_score + bonus`, are taken in 32-bit `int` arithmetic: the stored
  value is the wrapped sum `wrapInt`, and the field `overflowed` of the engine records that
  such a sum left the range of `int`.  The counters (`violation_count`,
  `good_behavior_days`, `Stats`) grow by one per call and are not wrapped: the embedding
  agrees with the source on every run of fewer than 2^31 calls.
* The clock is read as one instant `now` (seconds since the epoch) per public call.
* The shell is reached through `executeCommand`.  The read-only queries (`pm dump`,
  `pm path`) are answered by the environment `Env`; the commands that change the device
  (`pm suspend`, `pm unsuspend`, `am force-stop`, `pm revoke`, `iptables`) are appended to
  the field `commands` of the engine, oldest first.  `executeCommand` returns the output of
  the pipe only; whether a command fails on the device is the field `command_fails` of
  `Env`, which no operation reads.
* The field `violation_log` is the table `violation_log` of the database.
  `saveViolationToDb` returns nothing and drops a row without notice when the build has no
  SQLite or `sqlite3_open`, `sqlite3_prepare_v2` or `sqlite3_step` fails; whether a row
  reaches the table is the field `db_insert_ok` of `Env`.  The callbacks are observers,
  their invocations are appended to the field `callbacks`.
* `saveAppToDb` copies a record of the cache into the table `app_trust`, which no operation
  reads back after `initialize`; that table and the lines written with `syslog` are left
  out.
-/

namespace Clara

/-- Status of an application (`enum class AppStatus`). -/
inductive AppStatus
  | TRUSTED
  | NORMAL
  | SUSPICIOUS
  | QUARANTINED
  | SYSTEM
  deriving DecidableEq, Repr

/-- Where an application was installed from (`enum class InstallSource`). -/
inductive InstallSource
  | PLAY_STORE
  | GALAXY_STORE
  | XIAOMI_STORE
  | HUAWEI_STORE
  | AMAZON_STORE
  | FDROID
  | SIDELOAD
  | ADB
  | SYSTEM
  | UNKNOWN
  deriving DecidableEq, Repr

/-- Kind of a violation (`enum class ViolationType`). -/
inductive ViolationType
  | HIDDEN_CAMERA
  | HIDDEN_MICROPHONE
  | ACCESSIBILITY_ABUSE
  | GALLERY_SCAN
  | FILE_SCAN
  | CONTACT_EXPORT
  | SMS_READ
  | CLIPBOARD_SNOOP
  | NOTIFICATION_READ
  | CALL_LOG_ACCESS
  | BACKGROUND_LOCATION
  | BATTERY_DRAIN
  | DATA_USAGE_HIGH
  | OVERLAY_USAGE
  | BOOT_START
  deriving DecidableEq, Repr

namespace PenaltyMatrix

/-- The penalty of a violation kind (`PenaltyMatrix::getPenalty`). -/
def getPenalty : ViolationType → Int
  | .HIDDEN_CAMERA => -30
  | .HIDDEN_MICROPHONE => -30
  | .ACCESSIBILITY_ABUSE => -30
  | .GALLERY_SCAN => -20
  | .FILE_SCAN => -20
  | .CONTACT_EXPORT => -20
  | .SMS_READ => -20
  | .CLIPBOARD_SNOOP => -15
  | .NOTIFICATION_READ => -15
  | .CALL_LOG_ACCESS => -15
  | .BACKGROUND_LOCATION => -10
  | .BATTERY_DRAIN => -10
  | .DATA_USAGE_HIGH => -10
  | .OVERLAY_USAGE => -5
  | .BOOT_START => -5

end PenaltyMatrix

/-! ## Machine integers -/

/-- The value of a sum in 32-bit two's complement arithmetic (`int`): the sum itself when
it lies between -2147483648 and 2147483647, else the sum wrapped into that range. -/
def wrapInt (x : Int) : Int :=
  (x + 2147483648) % 4294967296 - 2147483648

/-- Whether a value lies in the range of `int`. -/
def fitsInt (x : Int) : Bool :=
  decide (-2147483648 ≤ x) && decide (x ≤ 2147483647)

/-- Trust record of one application (`struct AppTrustInfo`). -/
structure AppTrustInfo where
  package_name : String
  app_name : String
  install_source : InstallSource
  current_score : Int
  max_achievable_score : Int
  status : AppStatus
  first_seen : Int
  last_violation : Int
  violation_count : Int
  last_good_behavior : Int
  good_behavior_days : Int
  is_whitelisted : Bool
  is_quarantined : Bool
  is_suspended : Bool
  network_blocked : Bool
  deriving DecidableEq, Repr

/-- A row of the table `violation_log`, as `saveViolationToDb` inserts it (the column `id`
is assigned by the database). -/
structure ViolationRecord where
  package_name : String
  violation_type : ViolationType
  penalty : Int
  timestamp : Int
  context : String
  was_blocked : Bool
  deriving DecidableEq, Repr

/-- The device-changing command lines handed to `executeCommand`. -/
inductive Command
  /-- The line `pm suspend <package> 2>/dev/null`. -/
  | pm_suspend (package_name : String)
  /-- The line `pm unsuspend <package> 2>/dev/null`. -/
  | pm_unsuspend (package_name : String)
  /-- The line `am force-stop <package> 2>/dev/null`. -/
  | am_force_stop (package_name : String)
  /-- The line `pm revoke <package> <permission> 2>/dev/null`. -/
  | pm_revoke (package_name : String) (permission : String)
  /-- The line `iptables -A OUTPUT -m owner --uid-owner <uid> -j DROP 2>/dev/null`. -/
  | iptables_append_drop (uid : Int)
  /-- The line `iptables -D OUTPUT -m owner --uid-owner <uid> -j DROP 2>/dev/null`. -/
  | iptables_delete_drop (uid : Int)
  deriving DecidableEq, Repr

/-- One invocation of a callback of the engine, with its arguments. -/
inductive CallbackCall
  /-- A call `violation_callback_(package, type, new score)`. -/
  | violation (package_name : String) (vtype : ViolationType) (new_score : Int)
  /-- A call `quarantine_callback_(package, quarantined)`. -/
  | quarantine (package_name : String) (quarantined : Bool)
  /-- A call `score_change_callback_(package, old score, new score)`. -/
  | score_change (package_name : String) (old_score : Int) (new_score : Int)
  deriving DecidableEq, Repr

/-- The counters of the engine (`TrustEngine::Stats`). -/
structure Stats where
  total_apps : Int
  trusted_apps : Int
  suspicious_apps : Int
  quarantined_apps : Int
  total_violations : Int
  blocked_violations : Int
  last_scan_time : Int
  deriving DecidableEq, Repr

/-- What the package manager answers to the read-only queries of the engine: for each
package, the standard output that `executeCommand` returns. -/
structure Env where
  /-- Output of `pm dump <package> 2>/dev/null | grep 'installerPackageName=' | head -1`. -/
  pm_dump_installer : String → String
  /-- Output of `pm path <package> 2>/dev/null`. -/
  pm_path : String → String
  /-- Output of `pm dump <package> 2>/dev/null | grep 'userId=' | head -1`. -/
  pm_dump_userId : String → String
  /-- Whether a device-changing command ends with a failure status on this device.
  `executeCommand` reads the output of the pipe and drops the status that `pclose`
  returns, so no operation of the engine takes this field as an input. -/
  command_fails : Command → Bool
  /-- Whether `saveViolationToDb` gets a row into the table `violation_log`: the build has
  SQLite, the database opens, the statement is prepared and the step inserts the row.  The
  function returns nothing, so the engine never learns of a row that was dropped. -/
  db_insert_ok : ViolationRecord → Bool

/-- The engine (`class TrustEngine`): the application cache in insertion order, the
counters, which callbacks are set, the three traces of its effects and the overflow
mark. -/
structure TrustEngine where
  app_cache_ : List (String × AppTrustInfo)
  stats_ : Stats
  violation_callback_ : Bool
  quarantine_callback_ : Bool
  score_change_callback_ : Bool
  violation_log : List ViolationRecord
  commands : List Command
  callbacks : List CallbackCall
  /-- Whether a sum of a score has left the range of `int` in some call (signed overflow;
  the value stored is the wrapped one). -/
  overflowed : Bool
  deriving DecidableEq, Repr

/-! ## The application cache (`std::unordered_map<std::string, AppTrustInfo>`) -/

/-- A value-initialised record, what `operator[]` creates for a missing key. -/
def defaultApp : AppTrustInfo where
  package_name := ""
  app_name := ""
  install_source := InstallSource.PLAY_STORE
  current_score := 0
  max_achievable_score := 0
  status := AppStatus.TRUSTED
  first_seen := 0
  last_violation := 0
  violation_count := 0
  last_good_behavior := 0
  good_behavior_days := 0
  is_whitelisted := false
  is_quarantined := false
  is_suspended := false
  network_blocked := false

/-- The record stored under a key, if any (`find`). -/
def cacheFind : List (String × AppTrustInfo) → String → Option AppTrustInfo
  | [], _ => none
  | (k, v) :: rest, key => if k = key then some v else cacheFind rest key

/-- The number of records under a key, 0 or 1 (`count`). -/
def cacheCount (c : List (String × AppTrustInfo)) (key : String) : Nat :=
  match cacheFind c key with
  | some _ => 1
  | none => 0

/-- The record read through `operator[]`. -/
def cacheAt (c : List (String × AppTrustInfo)) (key : String) : AppTrustInfo :=
  (cacheFind c key).getD defaultApp

/-- The assignment `cache[key] = v`: overwrite the record of the key, or add it. -/
def cacheSet : List (String × AppTrustInfo) → String → AppTrustInfo →
    List (String × AppTrustInfo)
  | [], key, v => [(key, v)]
  | (k, w) :: rest, key, v =>
    if k = key then (k, v) :: rest else (k, w) :: cacheSet rest key v

/-- An update in place through the reference `cache[key]`. -/
def cacheModify (c : List (String × AppTrustInfo)) (key : String)
    (f : AppTrustInfo → AppTrustInfo) : List (String × AppTrustInfo) :=
  cacheSet c key (f (cacheAt c key))

/-! ## Reading the output of the package manager -/

/-- The class `\s` of `std::regex`: the white-space characters. -/
def isSpaceChar (c : Char) : Bool :=
  c = ' ' || c = '\t' || c = '\n' || c = '\x0b' || c = '\x0c' || c = '\r'

/-- The class `\d` of `std::regex`: the decimal digits. -/
def isDigitChar (c : Char) : Bool :=
  decide ('0' ≤ c) && decide (c ≤ '9')

/-- The search `std::regex_search` for a pattern `key(C+)`, where `key` is literal text and
`C` a character class: the first group of the leftmost match, taken greedily. -/
def regexCapture (key : List Char) (cls : Char → Bool) : List Char → Option (List Char)
  | [] => none
  | c :: cs =>
    if key.isPrefixOf (c :: cs) ∧ ((c :: cs).drop key.length).takeWhile cls ≠ [] then
      some (((c :: cs).drop key.length).takeWhile cls)
    else regexCapture key cls cs

/-- Whether text occurs in a string (`std::string::find(...) != npos`). -/
def containsText (pat : List Char) : List Char → Bool
  | [] => pat.isPrefixOf []
  | c :: cs => pat.isPrefixOf (c :: cs) || containsText pat cs

/-- The value of a run of decimal digits (`std::stoi`). -/
def stoi (digits : List Char) : Int :=
  Int.ofNat (digits.foldl (fun n c => 10 * n + (c.toNat - 48)) 0)

/-- The table `STORE_PACKAGES`: the installers that are known stores. -/
def STORE_PACKAGES (installer : String) : Option InstallSource :=
  if installer = "com.android.vending" then some InstallSource.PLAY_STORE
  else if installer = "com.google.android.packageinstaller" then some InstallSource.SIDELOAD
  else if installer = "com.sec.android.app.samsungapps" then some InstallSource.GALAXY_STORE
  else if installer = "com.xiaomi.mipicks" then some InstallSource.XIAOMI_STORE
  else if installer = "com.xiaomi.market" then some InstallSource.XIAOMI_STORE
  else if installer = "com.huawei.appmarket" then some InstallSource.HUAWEI_STORE
  else if installer = "com.amazon.venezia" then some InstallSource.AMAZON_STORE
  else if installer = "org.fdroid.fdroid" then some InstallSource.FDROID
  else none

/-- The table `INITIAL_SCORES`. -/
def INITIAL_SCORES : InstallSource → Option Int
  | .PLAY_STORE => some 80
  | .GALAXY_STORE => some 75
  | .XIAOMI_STORE => some 75
  | .HUAWEI_STORE => some 75
  | .AMAZON_STORE => some 70
  | .FDROID => some 85
  | .SIDELOAD => some 20
  | .ADB => some 30
  | .SYSTEM => some 100
  | .UNKNOWN => some 20

/-- The table `MAX_SCORES`. -/
def MAX_SCORES : InstallSource → Option Int
  | .PLAY_STORE => some 95
  | .GALAXY_STORE => some 90
  | .XIAOMI_STORE => some 90
  | .HUAWEI_STORE => some 90
  | .AMAZON_STORE => some 85
  | .FDROID => some 95
  | .SIDELOAD => some 70
  | .ADB => some 75
  | .SYSTEM => some 100
  | .UNKNOWN => some 60

namespace TrustEngine

/-- The part of `TrustEngine::detectInstallSource` that follows a match of the installer
line: a known store, or a sideload for the installer `null` (or an empty one). -/
def classifyInstaller (installer : String) : Option InstallSource :=
  match STORE_PACKAGES installer with
  | some src => some src
  | none => if installer = "null" ∨ installer = "" then some InstallSource.SIDELOAD else none

/-- The install source of a package (`TrustEngine::detectInstallSource`). -/
def detectInstallSource (env : Env) (package_name : String) : InstallSource :=
  let result := env.pm_dump_installer package_name
  let matched : Option InstallSource :=
    match regexCapture "installerPackageName=".toList (fun c => !isSpaceChar c)
        result.toList with
    | some installer => classifyInstaller (String.mk installer)
    | none => none
  match matched with
  | some src => src
  | none =>
    let sys_check := (env.pm_path package_name).toList
    if containsText "/system/".toList sys_check ∨ containsText "/product/".toList sys_check ∨
        containsText "/vendor/".toList sys_check then InstallSource.SYSTEM
    else InstallSource.UNKNOWN

/-- The initial score of an install source (`TrustEngine::getInitialScore`). -/
def getInitialScore (source : InstallSource) : Int :=
  match INITIAL_SCORES source with
  | some s => s
  | none => 20

/-- The ceiling of an install source (`TrustEngine::getMaxScore`). -/
def getMaxScore (source : InstallSource) : Int :=
  match MAX_SCORES source with
  | some s => s
  | none => 60

/-- The status of a score (`TrustEngine::calculateStatus`). -/
def calculateStatus (score : Int) : AppStatus :=
  if score ≥ 80 then AppStatus.TRUSTED
  else if score ≥ 50 then AppStatus.NORMAL
  else if score ≥ 20 then AppStatus.SUSPICIOUS
  else AppStatus.QUARANTINED

/-- The uid of a package, -1 when the dump shows none (`TrustEngine::getAppUid`). -/
def getAppUid (env : Env) (package_name : String) : Int :=
  match regexCapture "userId=".toList isDigitChar (env.pm_dump_userId package_name).toList with
  | some digits => stoi digits
  | none => -1

/-! ## Enforcement -/

/-- Suspend a package with `pm suspend` (`TrustEngine::suspendApp`). -/
def suspendApp (package_name : String) (e : TrustEngine) : Bool × TrustEngine :=
  let e1 := { e with commands := e.commands ++ [Command.pm_suspend package_name] }
  let e2 :=
    if cacheCount e1.app_cache_ package_name > 0 then
      { e1 with app_cache_ :=
          cacheModify e1.app_cache_ package_name (fun a => { a with is_suspended := true }) }
    else e1
  (true, e2)

/-- Lift the suspension with `pm unsuspend` (`TrustEngine::unsuspendApp`). -/
def unsuspendApp (package_name : String) (e : TrustEngine) : Bool × TrustEngine :=
  let e1 := { e with commands := e.commands ++ [Command.pm_unsuspend package_name] }
  let e2 :=
    if cacheCount e1.app_cache_ package_name > 0 then
      { e1 with app_cache_ :=
          cacheModify e1.app_cache_ package_name (fun a => { a with is_suspended := false }) }
    else e1
  (true, e2)

/-- Stop a package with `am force-stop` (`TrustEngine::forceStopApp`). -/
def forceStopApp (package_name : String) (e : TrustEngine) : Bool × TrustEngine :=
  (true, { e with commands := e.commands ++ [Command.am_force_stop package_name] })

/-- Take a permission back with `pm revoke` (`TrustEngine::revokePermission`). -/
def revokePermission (package_name : String) (permission : String) (e : TrustEngine) :
    Bool × TrustEngine :=
  (true, { e with commands := e.commands ++ [Command.pm_revoke package_name permission] })

/-- Drop the traffic of a package with `iptables -A` (`TrustEngine::blockNetwork`). -/
def blockNetwork (env : Env) (package_name : String) (e : TrustEngine) : Bool × TrustEngine :=
  let uid := getAppUid env package_name
  if uid < 0 then (false, e)
  else
    let e1 := { e with commands := e.commands ++ [Command.iptables_append_drop uid] }
    let e2 :=
      if cacheCount e1.app_cache_ package_name > 0 then
        { e1 with app_cache_ :=
            cacheModify e1.app_cache_ package_name (fun a => { a with network_blocked := true }) }
      else e1
    (true, e2)

/-- Remove the drop rule with `iptables -D` (`TrustEngine::unblockNetwork`). -/
def unblockNetwork (env : Env) (package_name : String) (e : TrustEngine) :
    Bool × TrustEngine :=
  let uid := getAppUid env package_name
  if uid < 0 then (false, e)
  else
    let e1 := { e with commands := e.commands ++ [Command.iptables_delete_drop uid] }
    let e2 :=
      if cacheCount e1.app_cache_ package_name > 0 then
        { e1 with app_cache_ :=
            cacheModify e1.app_cache_ package_name (fun a => { a with network_blocked := false }) }
      else e1
    (true, e2)

/-- The fuzzy location (`TrustEngine::sendFuzzyLocation`): it only writes a line to the
system log, the engine is not changed. -/
def sendFuzzyLocation (_package_name : String) (e : TrustEngine) : TrustEngine := e

/-! ## Application management -/

/-- The record that `TrustEngine::registerApp` builds for a package it has not seen. -/
def newAppInfo (env : Env) (now : Int) (package_name : String) : AppTrustInfo :=
  let install_source := detectInstallSource env package_name
  let current_score := getInitialScore install_source
  let status := calculateStatus current_score
  let app : AppTrustInfo :=
    { package_name := package_name
      app_name := package_name
      install_source := install_source
      current_score := current_score
      max_achievable_score := getMaxScore install_source
      status := status
      first_seen := now
      last_violation := 0
      violation_count := 0
      last_good_behavior := now
      good_behavior_days := 0
      is_whitelisted := false
      is_quarantined := decide (status = AppStatus.QUARANTINED)
      is_suspended := false
      network_blocked := false }
  if app.install_source = InstallSource.SYSTEM then
    { app with status := AppStatus.SYSTEM, current_score := 100 }
  else app

/-- Register a package on first sight (`TrustEngine::registerApp`). -/
def registerApp (env : Env) (now : Int) (package_name : String) (e : TrustEngine) :
    AppTrustInfo × TrustEngine :=
  if cacheCount e.app_cache_ package_name > 0 then (cacheAt e.app_cache_ package_name, e)
  else
    let app := newAppInfo env now package_name
    (app, { e with app_cache_ := cacheSet e.app_cache_ package_name app })

/-- Put a package into quarantine (`TrustEngine::quarantineApp`). -/
def quarantineApp (env : Env) (now : Int) (package_name : String) (e : TrustEngine) :
    Bool × TrustEngine :=
  let e0 :=
    if cacheCount e.app_cache_ package_name = 0 then (registerApp env now package_name e).2
    else e
  if (cacheAt e0.app_cache_ package_name).is_quarantined then (true, e0)
  else if (cacheAt e0.app_cache_ package_name).is_whitelisted then (false, e0)
  else
    let e1 := (suspendApp package_name e0).2
    let e2 := (blockNetwork env package_name e1).2
    let e3 := { e2 with
      app_cache_ := cacheModify e2.app_cache_ package_name (fun a =>
        { a with is_quarantined := true, status := AppStatus.QUARANTINED, current_score := 0 })
      stats_ := { e2.stats_ with quarantined_apps := e2.stats_.quarantined_apps + 1 } }
    (true, e3)

/-- Take a package out of quarantine (`TrustEngine::releaseFromQuarantine`). -/
def releaseFromQuarantine (env : Env) (package_name : String) (e : TrustEngine) :
    Bool × TrustEngine :=
  if cacheCount e.app_cache_ package_name = 0 then (false, e)
  else if !(cacheAt e.app_cache_ package_name).is_quarantined then (true, e)
  else
    let e1 := (unsuspendApp package_name e).2
    let e2 := (unblockNetwork env package_name e1).2
    let e3 := { e2 with
      app_cache_ := cacheModify e2.app_cache_ package_name (fun a =>
        { a with is_quarantined := false, status := calculateStatus a.current_score })
      stats_ := { e2.stats_ with quarantined_apps := e2.stats_.quarantined_apps - 1 } }
    let e4 :=
      if e3.quarantine_callback_ then
        { e3 with callbacks := e3.callbacks ++ [CallbackCall.quarantine package_name false] }
      else e3
    (true, e4)

/-- Whitelist a package (`TrustEngine::whitelistApp`). -/
def whitelistApp (env : Env) (now : Int) (package_name : String) (e : TrustEngine) :
    TrustEngine :=
  let e0 :=
    if cacheCount e.app_cache_ package_name = 0 then (registerApp env now package_name e).2
    else e
  let e1 := { e0 with
    app_cache_ := cacheModify e0.app_cache_ package_name (fun a =>
      { a with is_whitelisted := true }) }
  if (cacheAt e1.app_cache_ package_name).is_quarantined then
    (releaseFromQuarantine env package_name e1).2
  else e1

/-- Take a package off the whitelist (`TrustEngine::unwhitelistApp`). -/
def unwhitelistApp (package_name : String) (e : TrustEngine) : TrustEngine :=
  if cacheCount e.app_cache_ package_name > 0 then
    { e with
      app_cache_ := cacheModify e.app_cache_ package_name (fun a =>
        { a with is_whitelisted := false }) }
  else e

/-- Enforce the policy of the score band of a package (`TrustEngine::enforceByScore`). -/
def enforceByScore (env : Env) (now : Int) (package_name : String) (e : TrustEngine) :
    TrustEngine :=
  if cacheCount e.app_cache_ package_name = 0 then e
  else
    let app := cacheAt e.app_cache_ package_name
    let score := app.current_score
    if app.is_whitelisted then e
    else if score ≥ 80 then e
    else if score ≥ 50 then
      let e1 := sendFuzzyLocation package_name e
      (revokePermission package_name "android.permission.ACCESS_FINE_LOCATION" e1).2
    else if score ≥ 20 then
      let e1 := (revokePermission package_name "android.permission.CAMERA" e).2
      let e2 := (revokePermission package_name "android.permission.RECORD_AUDIO" e1).2
      (revokePermission package_name "android.permission.READ_CONTACTS" e2).2
    else
      let e1 := (quarantineApp env now package_name e).2
      (forceStopApp package_name e1).2

/-! ## Scoring -/

/-- Record a violation and lower the score (`TrustEngine::recordViolation`). -/
def recordViolation (env : Env) (now : Int) (package_name : String) (vtype : ViolationType)
    (context : String) (e : TrustEngine) : TrustEngine :=
  let e0 :=
    if cacheCount e.app_cache_ package_name = 0 then (registerApp env now package_name e).2
    else e
  let app := cacheAt e0.app_cache_ package_name
  if app.is_whitelisted then e0
  else if app.status = AppStatus.SYSTEM then e0
  else
    let penalty := PenaltyMatrix.getPenalty vtype
    let old_score := app.current_score
    let new_score := max 0 (wrapInt (app.current_score + penalty))
    let record : ViolationRecord :=
      { package_name := package_name
        violation_type := vtype
        penalty := penalty
        timestamp := now
        context := context
        was_blocked := false }
    let e1 := { e0 with
      app_cache_ := cacheModify e0.app_cache_ package_name (fun a =>
        { a with
          current_score := new_score
          last_violation := now
          violation_count := a.violation_count + 1
          good_behavior_days := 0
          status := calculateStatus new_score })
      violation_log :=
        if env.db_insert_ok record then e0.violation_log ++ [record] else e0.violation_log
      stats_ := { e0.stats_ with total_violations := e0.stats_.total_violations + 1 }
      overflowed := e0.overflowed || !fitsInt (app.current_score + penalty) }
    let e2 :=
      if e1.violation_callback_ then
        { e1 with
          callbacks := e1.callbacks ++ [CallbackCall.violation package_name vtype new_score] }
      else e1
    let e3 :=
      if e2.score_change_callback_ then
        { e2 with
          callbacks :=
            e2.callbacks ++ [CallbackCall.score_change package_name old_score new_score] }
      else e2
    enforceByScore env now package_name e3

/-- Reward good behaviour and raise the score (`TrustEngine::rewardGoodBehavior`). -/
def rewardGoodBehavior (env : Env) (now : Int) (package_name : String) (bonus : Int)
    (e : TrustEngine) : TrustEngine :=
  if cacheCount e.app_cache_ package_name = 0 then e
  else
    let app := cacheAt e.app_cache_ package_name
    if app.status = AppStatus.SYSTEM then e
    else
      let old_score := app.current_score
      let new_score := min app.max_achievable_score (wrapInt (app.current_score + bonus))
      let old_status := app.status
      let new_status := calculateStatus new_score
      let e1 := { e with
        app_cache_ := cacheModify e.app_cache_ package_name (fun a =>
          { a with
            current_score := new_score
            last_good_behavior := now
            good_behavior_days := a.good_behavior_days + 1
            status := new_status })
        overflowed := e.overflowed || !fitsInt (app.current_score + bonus) }
      let e2 :=
        if old_status = AppStatus.QUARANTINED ∧ new_status ≠ AppStatus.QUARANTINED then
          (releaseFromQuarantine env package_name e1).2
        else e1
      if e2.score_change_callback_ ∧ old_score ≠ new_score then
        { e2 with
          callbacks :=
            e2.callbacks ++ [CallbackCall.score_change package_name old_score new_score] }
      else e2

/-- The loop of `TrustEngine::dailyBehaviorCheck` over the keys of the cache. -/
def dailyBehaviorLoop (env : Env) (now : Int) : List String → TrustEngine → TrustEngine
  | [], e => e
  | key :: keys, e =>
    let app := cacheAt e.app_cache_ key
    let e1 :=
      if now - app.last_violation > 24 * 60 * 60 then
        rewardGoodBehavior env now app.package_name 2 e
      else e
    dailyBehaviorLoop env now keys e1

/-- The daily check of all applications (`TrustEngine::dailyBehaviorCheck`); the records
are visited in the order of the cache. -/
def dailyBehaviorCheck (env : Env) (now : Int) (e : TrustEngine) : TrustEngine :=
  dailyBehaviorLoop env now (e.app_cache_.map Prod.fst) e

/-! ## Install guard -/

/-- The reaction to a newly installed package (`TrustEngine::onPackageAdded`). -/
def onPackageAdded (env : Env) (now : Int) (package_name : String) (e : TrustEngine) :
    Bool × TrustEngine :=
  let r := registerApp env now package_name e
  let app := r.1
  if app.install_source = InstallSource.SIDELOAD ∨ app.install_source = InstallSource.UNKNOWN ∨
      app.install_source = InstallSource.ADB then
    let e1 := (quarantineApp env now package_name r.2).2
    let e2 :=
      if e1.quarantine_callback_ then
        { e1 with callbacks := e1.callbacks ++ [CallbackCall.quarantine package_name true] }
      else e1
    (true, e2)
  else (false, r.2)

end TrustEngine

/-! ## Sequences of calls -/

/-- A call of a public operation of the engine, with its arguments. -/
inductive Op
  | registerApp (package_name : String)
  | onPackageAdded (package_name : String)
  | recordViolation (package_name : String) (vtype : ViolationType) (context : String)
  | rewardGoodBehavior (package_name : String) (bonus : Int)
  | dailyBehaviorCheck
  | whitelistApp (package_name : String)
  | unwhitelistApp (package_name : String)
  | quarantineApp (package_name : String)
  | releaseFromQuarantine (package_name : String)
  | enforceByScore (package_name : String)
  deriving DecidableEq, Repr

/-- The engine after one call, made at the instant `now` in the environment `env`. -/
def step (env : Env) (now : Int) : Op → TrustEngine → TrustEngine
  | .registerApp p, e => (TrustEngine.registerApp env now p e).2
  | .onPackageAdded p, e => (TrustEngine.onPackageAdded env now p e).2
  | .recordViolation p t c, e => TrustEngine.recordViolation env now p t c e
  | .rewardGoodBehavior p b, e => TrustEngine.rewardGoodBehavior env now p b e
  | .dailyBehaviorCheck, e => TrustEngine.dailyBehaviorCheck env now e
  | .whitelistApp p, e => TrustEngine.whitelistApp env now p e
  | .unwhitelistApp p, e => TrustEngine.unwhitelistApp p e
  | .quarantineApp p, e => (TrustEngine.quarantineApp env now p e).2
  | .releaseFromQuarantine p, e => (TrustEngine.releaseFromQuarantine env p e).2
  | .enforceByScore p, e => TrustEngine.enforceByScore env now p e

/-- The engine after a sequence of calls, each with its own environment and instant. -/
def run : List (Env × Int × Op) → TrustEngine → TrustEngine
  | [], e => e
  | (env, now, op) :: rest, e => run rest (step env now op e)

/-- The bonus of a call is not negative (a condition on `rewardGoodBehavior` only). -/
def Op.bonusNonneg : Op → Prop
  | .rewardGoodBehavior _ b => 0 ≤ b
  | _ => True

/-- The mapping `derive` of the specification: score >= 80 is trusted, 50..79 normal,
20..49 suspicious, below 20 quarantined. -/
def derive (score : Int) : AppStatus :=
  if score < 20 then AppStatus.QUARANTINED
  else if score ≤ 49 then AppStatus.SUSPICIOUS
  else if score ≤ 79 then AppStatus.NORMAL
  else AppStatus.TRUSTED

/-! ## Sample data -/

/-- A sample device: `com.shop.app` comes from the Play Store, `com.evil.app` and
`com.tool.app` are sideloaded (installer `null`), `com.android.phone` lies under `/system/`;
the uid of `com.evil.app` is 10123, the dump of the other packages shows no uid; every
command succeeds and every row reaches the database. -/
def sampleEnv : Env where
  pm_dump_installer := fun p =>
    if p = "com.shop.app" then "    installerPackageName=com.android.vending\n"
    else if p = "com.evil.app" then "    installerPackageName=null\n"
    else if p = "com.tool.app" then "    installerPackageName=null\n"
    else ""
  pm_path := fun p =>
    if p = "com.android.phone" then "package:/system/priv-app/Phone/Phone.apk\n"
    else "package:/data/app/base.apk\n"
  pm_dump_userId := fun p => if p = "com.evil.app" then "    userId=10123\n" else ""
  command_fails := fun _ => false
  db_insert_ok := fun _ => true

/-- An engine with an empty cache, all three callbacks set. -/
def emptyEngine : TrustEngine where
  app_cache_ := []
  stats_ := ⟨0, 0, 0, 0, 0, 0, 0⟩
  violation_callback_ := true
  quarantine_callback_ := true
  score_change_callback_ := true
  violation_log := []
  commands := []
  callbacks := []
  overflowed := false

/-- Two sample calls: the install of `com.evil.app`, then a reward of 5 for it. -/
def sampleCalls : List (Env × Int × Op) :=
  [(sampleEnv, 1000, Op.onPackageAdded "com.evil.app"),
    (sampleEnv, 2000, Op.rewardGoodBehavior "com.evil.app" 5)]

/-- A sample engine: `com.shop.app` is registered with the Play Store score 80 and has two
violations on record (-30 and -20), which leave it at score 30. -/
def shopEngine : TrustEngine :=
  run [(sampleEnv, 10, Op.registerApp "com.shop.app"),
    (sampleEnv, 20, Op.recordViolation "com.shop.app" ViolationType.HIDDEN_CAMERA ""),
    (sampleEnv, 30, Op.recordViolation "com.shop.app" ViolationType.GALLERY_SCAN "")]
    emptyEngine

/-! ## The score ledger of one package -/

/-- The function `clamp` of the specification: `x` brought into the interval `lo..hi`. -/
def clamp (x lo hi : Int) : Int := max lo (min x hi)

/-- The ledger of a package is its score with its quarantine flag.  A violation lowers the
score by the penalty, not below 0; when the result is below 20 and the package is not
quarantined yet, the package is quarantined and the score becomes 0. -/
def ledgerViolation (penalty : Int) (s : Int × Bool) : Int × Bool :=
  if 20 ≤ max 0 (s.1 + penalty) ∨ s.2 = true then (max 0 (s.1 + penalty), s.2) else (0, true)

/-- A reward raises the score by the bonus, not above the ceiling; a score that leaves the
band below 20 ends the quarantine. -/
def ledgerReward (ceiling bonus : Int) (s : Int × Bool) : Int × Bool :=
  (min ceiling (s.1 + bonus),
    if s.1 < 20 ∧ 20 ≤ min ceiling (s.1 + bonus) then false else s.2)

/-- The ledger of the package `pkg` after one call; `none` while the package is not
registered.  The first `registerApp` or `recordViolation` of the package opens the ledger
at the initial score; calls on other packages leave it alone. -/
def ledgerStep (initial ceiling : Int) (pkg : String) :
    Op → Option (Int × Bool) → Option (Int × Bool)
  | .registerApp p, none => if p = pkg then some (initial, false) else none
  | .recordViolation p t _, s =>
    if p = pkg then
      some (ledgerViolation (PenaltyMatrix.getPenalty t) (s.getD (initial, false)))
    else s
  | .rewardGoodBehavior p b, some s =>
    if p = pkg then some (ledgerReward ceiling b s) else some s
  | _, s => s

/-- The ledger of the package `pkg` after a sequence of calls. -/
def ledger (initial ceiling : Int) (pkg : String) :
    List Op → Option (Int × Bool) → Option (Int × Bool)
  | [], s => s
  | op :: rest, s => ledger initial ceiling pkg rest (ledgerStep initial ceiling pkg op s)

/-- The calls of property P1 for the package `pkg`: `registerApp`, `recordViolation` and
`rewardGoodBehavior` of any package, `whitelistApp` of another package. -/
def Op.isLedgerCall (pkg : String) : Op → Prop
  | .registerApp _ => True
  | .recordViolation _ _ _ => True
  | .rewardGoodBehavior _ _ => True
  | .whitelistApp p => p ≠ pkg
  | _ => False

/-- The cache agrees with a ledger state of the package `pkg`: no record while the ledger
is closed; else a record with the score and the flag of the ledger, not whitelisted, with
the derived status and the given ceiling. -/
def LedgerSim (ceiling : Int) (pkg : String) (e : TrustEngine) : Option (Int × Bool) → Prop
  | none => cacheFind e.app_cache_ pkg = none
  | some s => ∃ a, cacheFind e.app_cache_ pkg = some a ∧ a.current_score = s.1 ∧
      a.is_quarantined = s.2 ∧ a.is_whitelisted = false ∧
      a.status = TrustEngine.calculateStatus s.1 ∧ a.max_achievable_score = ceiling

/-- Three sample calls on `com.shop.app`: registration at the Play Store score 80, a reward
of 20 and a violation of penalty -10. -/
def shopCalls : List (Int × Op) :=
  [(10, Op.registerApp "com.shop.app"),
    (20, Op.rewardGoodBehavior "com.shop.app" 20),
    (30, Op.recordViolation "com.shop.app" ViolationType.BACKGROUND_LOCATION "")]

/-- Five sample calls on `com.shop.app`: registration at 80, penalties of -30, -30 and
-10, then a reward of 30. -/
def shopRecoveryCalls : List (Int × Op) :=
  [(10, Op.registerApp "com.shop.app"),
    (20, Op.recordViolation "com.shop.app" ViolationType.HIDDEN_CAMERA ""),
    (30, Op.recordViolation "com.shop.app" ViolationType.HIDDEN_MICROPHONE ""),
    (40, Op.recordViolation "com.shop.app" ViolationType.BATTERY_DRAIN ""),
    (50, Op.rewardGoodBehavior "com.shop.app" 30)]

/-- A sample engine: the sideloaded `com.tool.app`, whose uid does not resolve, was
quarantined at its install and released by hand; its record has score 0 and is free. -/
def toolEngine : TrustEngine :=
  run [(sampleEnv, 10, Op.onPackageAdded "com.tool.app"),
    (sampleEnv, 20, Op.releaseFromQuarantine "com.tool.app")] emptyEngine

/-- A sample engine: the sideloaded `com.evil.app` (uid 10123) in quarantine after its
install. -/
def evilEngine : TrustEngine :=
  run [(sampleEnv, 1000, Op.onPackageAdded "com.evil.app")] emptyEngine

/-! ## The operations as functions of one record

The normal forms of the operations: what a call does to the record of its package, as a
function of that record.  The theorems `step_cache` and `step_unknown` tie them to the
operations of the engine. -/

/-- The record of a package after `quarantineApp`. -/
def recQuarantine (env : Env) (pkg : String) (r : AppTrustInfo) : AppTrustInfo :=
  if r.is_quarantined then r
  else if r.is_whitelisted then r
  else
    { r with
      is_suspended := true
      network_blocked := if TrustEngine.getAppUid env pkg < 0 then r.network_blocked else true
      is_quarantined := true
      status := AppStatus.QUARANTINED
      current_score := 0 }

/-- The record of a package after `releaseFromQuarantine`. -/
def recRelease (env : Env) (pkg : String) (r : AppTrustInfo) : AppTrustInfo :=
  if r.is_quarantined then
    { r with
      is_suspended := false
      network_blocked := if TrustEngine.getAppUid env pkg < 0 then r.network_blocked else false
      is_quarantined := false
      status := TrustEngine.calculateStatus r.current_score }
  else r

/-- The record of a package after `whitelistApp`. -/
def recWhitelist (env : Env) (pkg : String) (r : AppTrustInfo) : AppTrustInfo :=
  recRelease env pkg { r with is_whitelisted := true }

/-- The record of a package after `unwhitelistApp`. -/
def recUnwhitelist (r : AppTrustInfo) : AppTrustInfo :=
  { r with is_whitelisted := false }

/-- The record of a package after `enforceByScore`. -/
def recEnforce (env : Env) (pkg : String) (r : AppTrustInfo) : AppTrustInfo :=
  if r.is_whitelisted then r
  else if r.current_score ≥ 20 then r
  else recQuarantine env pkg r

/-- The record of a package after `recordViolation`. -/
def recViolation (env : Env) (now : Int) (pkg : String) (vtype : ViolationType)
    (r : AppTrustInfo) : AppTrustInfo :=
  if r.is_whitelisted then r
  else if r.status = AppStatus.SYSTEM then r
  else
    recEnforce env pkg
      { r with
        current_score := max 0 (wrapInt (r.current_score + PenaltyMatrix.getPenalty vtype))
        last_violation := now
        violation_count := r.violation_count + 1
        good_behavior_days := 0
        status :=
          TrustEngine.calculateStatus
            (max 0 (wrapInt (r.current_score + PenaltyMatrix.getPenalty vtype))) }

/-- The record of a package after `rewardGoodBehavior`. -/
def recReward (env : Env) (now : Int) (pkg : String) (bonus : Int) (r : AppTrustInfo) :
    AppTrustInfo :=
  if r.status = AppStatus.SYSTEM then r
  else if r.status = AppStatus.QUARANTINED ∧
      TrustEngine.calculateStatus (min r.max_achievable_score (wrapInt (r.current_score + bonus)))
        ≠ AppStatus.QUARANTINED then
    recRelease env pkg
      { r with
        current_score := min r.max_achievable_score (wrapInt (r.current_score + bonus))
        last_good_behavior := now
        good_behavior_days := r.good_behavior_days + 1
        status :=
          TrustEngine.calculateStatus
            (min r.max_achievable_score (wrapInt (r.current_score + bonus))) }
  else
    { r with
      current_score := min r.max_achievable_score (wrapInt (r.current_score + bonus))
      last_good_behavior := now
      good_behavior_days := r.good_behavior_days + 1
      status :=
        TrustEngine.calculateStatus
          (min r.max_achievable_score (wrapInt (r.current_score + bonus))) }

/-- The record of a package after `onPackageAdded`. -/
def recInstall (env : Env) (pkg : String) (r : AppTrustInfo) : AppTrustInfo :=
  if r.install_source = InstallSource.SIDELOAD ∨ r.install_source = InstallSource.UNKNOWN ∨
      r.install_source = InstallSource.ADB then recQuarantine env pkg r
  else r

/-- The package that a call names; `dailyBehaviorCheck` names none. -/
def Op.target : Op → Option String
  | .registerApp p => some p
  | .onPackageAdded p => some p
  | .recordViolation p _ _ => some p
  | .rewardGoodBehavior p _ => some p
  | .dailyBehaviorCheck => none
  | .whitelistApp p => some p
  | .unwhitelistApp p => some p
  | .quarantineApp p => some p
  | .releaseFromQuarantine p => some p
  | .enforceByScore p => some p

/-- The calls that register a package they do not find in the cache; the other calls do
nothing for an unknown package. -/
def Op.registers : Op → Bool
  | .registerApp _ => true
  | .onPackageAdded _ => true
  | .recordViolation _ _ _ => true
  | .whitelistApp _ => true
  | .quarantineApp _ => true
  | _ => false

/-- The record of the package of a call after the call. -/
def recStep (env : Env) (now : Int) : Op → AppTrustInfo → AppTrustInfo
  | .registerApp _, r => r
  | .onPackageAdded p, r => recInstall env p r
  | .recordViolation p t _, r => recViolation env now p t r
  | .rewardGoodBehavior p b, r => recReward env now p b r
  | .dailyBehaviorCheck, r => r
  | .whitelistApp p, r => recWhitelist env p r
  | .unwhitelistApp _, r => recUnwhitelist r
  | .quarantineApp p, r => recQuarantine env p r
  | .releaseFromQuarantine p, r => recRelease env p r
  | .enforceByScore p, r => recEnforce env p r

/-- Whether the sum of a call leaves the range of `int`, for the record of the package of
the call: the sum `current_score + penalty` of a `recordViolation` that is not skipped, the
sum `current_score + bonus` of a `rewardGoodBehavior` that is not skipped. -/
def recOverflow : Op → AppTrustInfo → Bool
  | .recordViolation _ t _, r =>
    !r.is_whitelisted && decide (r.status ≠ AppStatus.SYSTEM) &&
      !fitsInt (r.current_score + PenaltyMatrix.getPenalty t)
  | .rewardGoodBehavior _ b, r =>
    decide (r.status ≠ AppStatus.SYSTEM) && !fitsInt (r.current_score + b)
  | _, _ => false

/-! ## Sets of calls -/

/-- The calls of invariant I2: `registerApp`, `onPackageAdded`, `recordViolation`,
`rewardGoodBehavior`, `dailyBehaviorCheck`, `whitelistApp` and `unwhitelistApp`. -/
def Op.isLifecycleCall : Op → Prop
  | .quarantineApp _ => False
  | .releaseFromQuarantine _ => False
  | .enforceByScore _ => False
  | _ => True

/-- A call that is no `unwhitelistApp` and gives no negative bonus. -/
def Op.isPlainCall : Op → Prop
  | .unwhitelistApp _ => False
  | .rewardGoodBehavior _ b => 0 ≤ b
  | _ => True

/-- Three sample calls: the install of `com.evil.app`, which quarantines it, then its
whitelisting and the end of its whitelisting. -/
def whitelistRoundTrip : List (Env × Int × Op) :=
  [(sampleEnv, 1000, Op.onPackageAdded "com.evil.app"),
    (sampleEnv, 2000, Op.whitelistApp "com.evil.app"),
    (sampleEnv, 3000, Op.unwhitelistApp "com.evil.app")]

/-! ## The daily check, record by record -/

/-- The records of a cache that are due for the daily reward at the instant `now`: those
whose last violation lies more than 24 hours (86400 seconds) back. -/
def dueRecords (now : Int) (c : List (String × AppTrustInfo)) : List AppTrustInfo :=
  (c.map Prod.snd).filter (fun a => decide (now - a.last_violation > 86400))

/-- The call `rewardGoodBehavior(package, 2)` for each record of a list, in order. -/
def rewardEach (env : Env) (now : Int) : List AppTrustInfo → TrustEngine → TrustEngine
  | [], e => e
  | a :: rest, e =>
    rewardEach env now rest (TrustEngine.rewardGoodBehavior env now a.package_name 2 e)

/-! ## Counting violations -/

/-- The number of rows of the violation log that name a package. -/
def logCount (pkg : String) (log : List ViolationRecord) : Nat :=
  (log.filter (fun v => decide (v.package_name = pkg))).length

/-- Whether a `recordViolation` call for a package is not skipped: the record of the
package, the one of the cache or else the one that the call registers, is neither
whitelisted nor of status SYSTEM. -/
def violationCounts (env : Env) (now : Int) (pkg : String) (e : TrustEngine) : Bool :=
  match cacheFind e.app_cache_ pkg with
  | some r => !r.is_whitelisted && decide (r.status ≠ AppStatus.SYSTEM)
  | none =>
    !(TrustEngine.newAppInfo env now pkg).is_whitelisted &&
      decide ((TrustEngine.newAppInfo env now pkg).status ≠ AppStatus.SYSTEM)

/-- The rows that a call hands to `saveViolationToDb` when it is not skipped: one row for
`recordViolation`, none for the other calls. -/
def violationRows (env : Env) (now : Int) (e : TrustEngine) : Op → List ViolationRecord
  | .recordViolation p t c =>
    if violationCounts env now p e then
      [{ package_name := p
         violation_type := t
         penalty := PenaltyMatrix.getPenalty t
         timestamp := now
         context := c
         was_blocked := false }]
    else []
  | _ => []

/-- The rows of a call that reach the table: those that the database accepts. -/
def storedRows (env : Env) (now : Int) (e : TrustEngine) (op : Op) : List ViolationRecord :=
  (violationRows env now e op).filter env.db_insert_ok

/-- The number of `recordViolation` calls for a package in a sequence of calls that are
not skipped, each judged in the state in which it is made. -/
def countedViolations (pkg : String) : List (Env × Int × Op) → TrustEngine → Nat
  | [], _ => 0
  | (env, now, op) :: rest, e =>
    logCount pkg (violationRows env now e op) + countedViolations pkg rest (step env now op e)

/-- The number of `recordViolation` calls for a package in a sequence of calls that are
not skipped and whose row the database accepts. -/
def storedViolations (pkg : String) : List (Env × Int × Op) → TrustEngine → Nat
  | [], _ => 0
  | (env, now, op) :: rest, e =>
    logCount pkg (storedRows env now e op) + storedViolations pkg rest (step env now op e)

/-- The counter `violation_count` of the record of a package, 0 while the package has no
record. -/
def countOnRecord (pkg : String) (e : TrustEngine) : Int :=
  match cacheFind e.app_cache_ pkg with
  | some a => a.violation_count
  | none => 0

/-- Seven sample calls: two violations of `com.shop.app` (registered by the first) and one
of `com.evil.app`, then the whitelisting of `com.shop.app`, a violation of it that is
skipped, the end of the whitelisting and a last violation. -/
def shopViolationCalls : List (Env × Int × Op) :=
  [(sampleEnv, 10, Op.recordViolation "com.shop.app" ViolationType.BOOT_START "boot"),
    (sampleEnv, 20, Op.recordViolation "com.shop.app" ViolationType.SMS_READ "inbox"),
    (sampleEnv, 30, Op.recordViolation "com.evil.app" ViolationType.SMS_READ "inbox"),
    (sampleEnv, 40, Op.whitelistApp "com.shop.app"),
    (sampleEnv, 50, Op.recordViolation "com.shop.app" ViolationType.FILE_SCAN "sdcard"),
    (sampleEnv, 60, Op.unwhitelistApp "com.shop.app"),
    (sampleEnv, 70, Op.recordViolation "com.shop.app" ViolationType.BATTERY_DRAIN "")]

/-! ## More sample data -/

/-- The sample device with every device-changing command failing. -/
def failingEnv : Env :=
  { sampleEnv with command_fails := fun _ => true }

/-- The sample device with a database that takes no row: a build without SQLite, or a
database file that does not open. -/
def noDbEnv : Env :=
  { sampleEnv with db_insert_ok := fun _ => false }

/-- Two sample calls: `com.shop.app` is registered at score 80 and rewarded with the
bonus 2147483647, the largest `int`. -/
def overflowCalls : List (Env × Int × Op) :=
  [(sampleEnv, 10, Op.registerApp "com.shop.app"),
    (sampleEnv, 20, Op.rewardGoodBehavior "com.shop.app" 2147483647)]

/-- Three sample calls: the install of the sideloaded `com.evil.app`, which quarantines it
at score 0, a reward with the bonus -2147483638 and a violation of penalty -30, whose sum
lies below the smallest `int`. -/
def underflowCalls : List (Env × Int × Op) :=
  [(sampleEnv, 1000, Op.onPackageAdded "com.evil.app"),
    (sampleEnv, 2000, Op.rewardGoodBehavior "com.evil.app" (-2147483638)),
    (sampleEnv, 3000, Op.recordViolation "com.evil.app" ViolationType.HIDDEN_CAMERA "")]

/-- Two sample calls: `com.shop.app` is registered at score 80 and given the bonus -65,
which leaves it at score 15. -/
def negativeBonusCalls : List (Env × Int × Op) :=
  [(sampleEnv, 10, Op.registerApp "com.shop.app"),
    (sampleEnv, 20, Op.rewardGoodBehavior "com.shop.app" (-65))]

/-- A device whose dump shows an empty installer for every package, installed under
`/data/app`. -/
def emptyInstallerEnv : Env where
  pm_dump_installer := fun _ => "    installerPackageName=\n"
  pm_path := fun _ => "package:/data/app/base.apk\n"
  pm_dump_userId := fun _ => "    userId=10200\n"
  command_fails := fun _ => false
  db_insert_ok := fun _ => true

/-- A sample engine: `com.evil.app` registered, with no enforcement yet. -/
def evilRegistered : TrustEngine :=
  run [(sampleEnv, 5, Op.registerApp "com.evil.app")] emptyEngine

/-- A sample engine: `com.evil.app` in quarantine, suspended and cut off the network, at
score 10 after a reward of 10. -/
def evilEngineTen : TrustEngine :=
  run [(sampleEnv, 1000, Op.onPackageAdded "com.evil.app"),
    (sampleEnv, 2000, Op.rewardGoodBehavior "com.evil.app" 10)] emptyEngine

/-- A sample engine: the system application `com.android.phone` registered. -/
def phoneEngine : TrustEngine :=
  run [(sampleEnv, 5, Op.registerApp "com.android.phone")] emptyEngine

/-- A call of any public operation but `quarantineApp`. -/
def Op.notQuarantineApp : Op → Prop
  | .quarantineApp _ => False
  | _ => True

/-- A record of a system application as `registerApp` makes it: status SYSTEM, install
source SYSTEM, score 100, not in quarantine. -/
def SystemRecord (r : AppTrustInfo) : Prop :=
  r.status = AppStatus.SYSTEM ∧ r.install_source = InstallSource.SYSTEM ∧
    r.current_score = 100 ∧ r.is_quarantined = false

/-! ## Queries of the trust engine -/

namespace TrustEngine

/-- The cached records of a given status, in cache order (`TrustEngine::getAppsByStatus`). -/
def getAppsByStatus (status : AppStatus) (e : TrustEngine) : List AppTrustInfo :=
  (e.app_cache_.map Prod.snd).filter (fun a => decide (a.status = status))

/-- The records in quarantine (`TrustEngine::getQuarantinedApps`). -/
def getQuarantinedApps (e : TrustEngine) : List AppTrustInfo :=
  getAppsByStatus AppStatus.QUARANTINED e

end TrustEngine

/-- Three sample calls: `com.shop.app` is registered at score 80, put into quarantine by
hand and released. -/
def quarantineRoundTrip : List (Env × Int × Op) :=
  [(sampleEnv, 5, Op.registerApp "com.shop.app"),
    (sampleEnv, 10, Op.quarantineApp "com.shop.app"),
    (sampleEnv, 20, Op.releaseFromQuarantine "com.shop.app")]

/-! ## The orchestrator: data model

A shallow embedding of `daemon/orchestrator` (`orchestrator.h`, `orchestrator.cpp`).

* The object is the structure `Orchestrator`; every member function takes the object and
  returns the object after the call (with the returned value, when there is one).  The
  three threads of the daemon are interleaved at the grain of one member function call or
  one iteration of a loop, as the mutexes of the source make them.
* The operating system is the record `OsEnv`: what `fork`, `waitpid`, `connect` and `write`
  return during one call, and how the subscribers end.  Signals sent to children, the
  events pushed on the queue, the events handed to `processEvent`, the subscriber calls and
  the spawns are appended to trace fields of the object, oldest first.
* `std::unordered_map` is an association list in insertion order (the iteration order of
  the source is unspecified); `operator[]` on a missing key inserts the value-initialised
  value.
* The time stamps `start_time` and `last_heartbeat` of a service are written and never
  read; they are left out, as are the configuration file and the lines written with
  `syslog`.  The sleeps of the source take no part in the state.
* A subscriber is an observer: it returns or throws, and does not call the orchestrator.
  An exception that leaves the thread function `eventLoop` ends the process
  (`std::terminate`); the model has no state after it.
-/

/-- Status of a service (`enum class ServiceStatus`). -/
inductive ServiceStatus
  | UNKNOWN
  | STARTING
  | RUNNING
  | STOPPING
  | STOPPED
  | ERROR
  deriving DecidableEq, Repr

/-- The number of a status (`static_cast<int>`). -/
def ServiceStatus.toInt : ServiceStatus → Int
  | .UNKNOWN => 0
  | .STARTING => 1
  | .RUNNING => 2
  | .STOPPING => 3
  | .STOPPED => 4
  | .ERROR => 5

/-- What the orchestrator knows of a service (`struct ServiceInfo`). -/
structure ServiceInfo where
  name : String
  socket_path : String
  pid : Int
  status : ServiceStatus
  restart_count : Int
  error_message : String
  deriving DecidableEq, Repr

/-- The value-initialised `ServiceInfo` that `operator[]` inserts. -/
def defaultService : ServiceInfo :=
  { name := "", socket_path := "", pid := 0, status := ServiceStatus.UNKNOWN,
    restart_count := 0, error_message := "" }

/-- Kind of an event (`enum class EventType`). -/
inductive EventType
  | SMS_THREAT
  | FILE_THREAT
  | NETWORK_THREAT
  | MESSENGER_THREAT
  | KEYLOGGER_DETECTED
  | PERMISSION_ACCESS
  | TRACKER_BLOCKED
  | APP_LOCK_TRIGGERED
  | ROOT_DETECTION_ATTEMPT
  | SERVICE_STARTED
  | SERVICE_STOPPED
  | SERVICE_ERROR
  | CONFIG_CHANGED
  deriving DecidableEq, Repr

/-- An event of the bus (`struct Event`). -/
structure Event where
  id : Int
  timestamp : Int
  type : EventType
  source_service : String
  target : String
  message : String
  data : String
  severity : Int
  deriving DecidableEq, Repr

/-- The static description of a service (`struct ServiceDef`). -/
structure ServiceDef where
  name : String
  binary_path : String
  socket_path : String
  auto_start : Bool
  auto_restart : Bool
  restart_delay_ms : Int
  max_restarts : Int
  deriving DecidableEq, Repr

/-- The counters of the orchestrator (`struct Orchestrator::Stats`). -/
structure Orchestrator.Stats where
  uptime_seconds : Int
  total_events_processed : Int
  services_running : Int
  services_failed : Int
  threats_detected_today : Int
  trackers_blocked_today : Int
  deriving DecidableEq, Repr

/-- How a call of a subscriber ends: it returns, it throws an exception of a class derived
from `std::exception`, or it throws something else. -/
inductive CallbackResult
  | returns
  | throws_exception
  | throws_other
  deriving DecidableEq, Repr

/-- A signal sent to a child with `kill`. -/
inductive Signal
  | SIGTERM (pid : Int)
  | SIGKILL (pid : Int)
  deriving DecidableEq, Repr

/-- What the operating system and the subscribers answer during one call. -/
structure OsEnv where
  /-- What `fork` returns to the orchestrator when it spawns the binary of the named
  service: the pid of the child, or -1. -/
  fork : String → Int
  /-- The result of `waitpid(pid, &status, WNOHANG)` in `startService`, 500 ms after the
  spawn: 0 while the child runs, the pid when it has exited, -1 on error. -/
  waitpid_settle : Int → Int
  /-- The result of `waitpid(pid, &status, WNOHANG)` in `checkServiceHealth`. -/
  waitpid_health : Int → Int
  /-- The result of `waitpid(pid, &status, WNOHANG)` in `stopService`, 500 ms after
  `SIGTERM`. -/
  waitpid_stop : Int → Int
  /-- The descriptor of a socket connected to the given path, or -1 when `socket` or
  `connect` fails. -/
  connect : String → Int
  /-- The number of bytes `write` sends on a descriptor. -/
  write : Int → String → Int
  /-- How the subscriber with the given identity ends when called with an event. -/
  callback_result : Nat → Event → CallbackResult
  /-- Whether the application callback throws when called with an event. -/
  app_callback_throws : Event → Bool

/-- The orchestrator (`class Orchestrator`): its members, then the traces of its effects.
A subscriber is known by its identity, a natural number. -/
structure Orchestrator where
  running_ : Bool
  services_ : List (String × ServiceInfo)
  service_sockets_ : List (String × Int)
  event_queue_ : List Event
  subscribers_ : List (EventType × List Nat)
  app_callback_ : Option Nat
  stats_ : Orchestrator.Stats
  service_definitions_ : List ServiceDef
  /-- Every event pushed on the queue, oldest first. -/
  posted : List Event
  /-- Every event handed to `processEvent`, oldest first. -/
  processed : List Event
  /-- Every call of a subscriber, with the event it was given, oldest first. -/
  deliveries : List (Nat × Event)
  /-- Every call of the application callback, oldest first. -/
  app_deliveries : List Event
  /-- Every `fork` of `spawnService`, by service name, oldest first. -/
  spawned : List String
  /-- Every `startService` that `handleServiceFailure` calls, by service name. -/
  auto_restarts : List String
  /-- Every signal sent to a child, oldest first. -/
  signals : List Signal

/-! ## Association lists -/

/-- The value of a key (`find`). -/
def mapFind {κ α : Type} [DecidableEq κ] : List (κ × α) → κ → Option α
  | [], _ => none
  | (k, v) :: rest, key => if k = key then some v else mapFind rest key

/-- The member `count` of a map: 1 if the key is present, 0 otherwise. -/
def mapCount {κ α : Type} [DecidableEq κ] (c : List (κ × α)) (key : κ) : Nat :=
  match mapFind c key with
  | some _ => 1
  | none => 0

/-- The value read through `operator[]`, with the value-initialised value for a missing
key. -/
def mapAt {κ α : Type} [DecidableEq κ] (dflt : α) (c : List (κ × α)) (key : κ) : α :=
  (mapFind c key).getD dflt

/-- The assignment `map[key] = v`: overwrite the value of the key, or add the key. -/
def mapSet {κ α : Type} [DecidableEq κ] : List (κ × α) → κ → α → List (κ × α)
  | [], key, v => [(key, v)]
  | (k, w) :: rest, key, v =>
    if k = key then (k, v) :: rest else (k, w) :: mapSet rest key v

/-- The member `erase` of a map. -/
def mapErase {κ α : Type} [DecidableEq κ] (c : List (κ × α)) (key : κ) : List (κ × α) :=
  c.filter (fun p => decide (p.1 ≠ key))

/-- The characters that `handleIpcMessage` trims from the end of a service name. -/
def isTrimChar (c : Char) : Bool :=
  c = ' ' || c = '\n' || c = '\r' || c = '\t'

/-- The call `s.erase(s.find_last_not_of(" \n\r\t") + 1)`: drop the trailing white
space. -/
def trimRight (s : List Char) : List Char :=
  (s.reverse.dropWhile isTrimChar).reverse

namespace Orchestrator

/-- The definition of a service (`std::find_if` over `service_definitions_`). -/
def findDef (defs : List ServiceDef) (name : String) : Option ServiceDef :=
  defs.find? (fun d => decide (d.name = name))

/-- Push an event on the queue (`Orchestrator::postEvent`). -/
def postEvent (event : Event) (o : Orchestrator) : Orchestrator :=
  { o with
    event_queue_ := o.event_queue_ ++ [event]
    posted := o.posted ++ [event] }

/-- Add a subscriber for a kind (`Orchestrator::subscribeToEvents`). -/
def subscribeToEvents (type : EventType) (callback : Nat) (o : Orchestrator) :
    Orchestrator :=
  { o with
    subscribers_ := mapSet o.subscribers_ type (mapAt [] o.subscribers_ type ++ [callback]) }

/-- Drop the subscribers of a kind (`Orchestrator::unsubscribeFromEvents`). -/
def unsubscribeFromEvents (type : EventType) (o : Orchestrator) : Orchestrator :=
  { o with subscribers_ := mapErase o.subscribers_ type }

/-- Set the application callback (`Orchestrator::setAppCallback`). -/
def setAppCallback (callback : Nat) (o : Orchestrator) : Orchestrator :=
  { o with app_callback_ := some callback }

/-- The loop of `routeEvent` over the subscribers of a kind: each is called inside
`try`, and `catch (const std::exception &)` lets the loop go on.  An exception of another
class leaves the loop: the result is `false` and the rest is not called. -/
def routeLoop (os : OsEnv) (event : Event) :
    List Nat → List (Nat × Event) → Bool × List (Nat × Event)
  | [], trace => (true, trace)
  | callback :: rest, trace =>
    match os.callback_result callback event with
    | .returns => routeLoop os event rest (trace ++ [(callback, event)])
    | .throws_exception => routeLoop os event rest (trace ++ [(callback, event)])
    | .throws_other => (false, trace ++ [(callback, event)])

/-- Hand an event to the subscribers of its kind (`Orchestrator::routeEvent`).  The first
component is `true` when the function returns and `false` when an exception leaves it. -/
def routeEvent (os : OsEnv) (event : Event) (o : Orchestrator) : Bool × Orchestrator :=
  if mapCount o.subscribers_ event.type > 0 then
    let r := routeLoop os event (mapAt [] o.subscribers_ event.type) o.deliveries
    (r.1, { o with deliveries := r.2 })
  else (true, o)

/-- Process one event (`Orchestrator::processEvent`): `none` when an exception leaves the
function. -/
def processEvent (os : OsEnv) (event : Event) (o : Orchestrator) : Option Orchestrator :=
  let o0 := { o with processed := o.processed ++ [event] }
  let r := routeEvent os event o0
  if !r.1 then none
  else
    let o1 := r.2
    let o2 : Option Orchestrator :=
      match o1.app_callback_ with
      | some _ =>
        if os.app_callback_throws event then none
        else some { o1 with app_deliveries := o1.app_deliveries ++ [event] }
      | none => some o1
    match o2 with
    | none => none
    | some o3 =>
      match event.type with
      | .SMS_THREAT | .FILE_THREAT | .NETWORK_THREAT | .MESSENGER_THREAT
      | .KEYLOGGER_DETECTED =>
        some { o3 with
          stats_ := { o3.stats_ with
            threats_detected_today := o3.stats_.threats_detected_today + 1 } }
      | .TRACKER_BLOCKED =>
        some { o3 with
          stats_ := { o3.stats_ with
            trackers_blocked_today := o3.stats_.trackers_blocked_today + 1 } }
      | _ => some o3

/-- One iteration of the loop of `Orchestrator::eventLoop`: `none` when an exception
leaves the thread function, which ends the process (`std::terminate`). -/
def eventLoop (os : OsEnv) (o : Orchestrator) : Option Orchestrator :=
  match o.event_queue_ with
  | [] => some o
  | event :: rest =>
    match processEvent os event { o with event_queue_ := rest } with
    | none => none
    | some o1 =>
      some { o1 with
        stats_ := { o1.stats_ with
          total_events_processed := o1.stats_.total_events_processed + 1 } }

/-- Register a service (`Orchestrator::registerService`). -/
def registerService (name : String) (socket_path : String) (o : Orchestrator) :
    Bool × Orchestrator :=
  (true, { o with
    services_ := mapSet o.services_ name
      { name := name, socket_path := socket_path, pid := 0,
        status := ServiceStatus.UNKNOWN, restart_count := 0, error_message := "" } })

/-- Fork the binary of a service (`Orchestrator::spawnService`), as the parent sees it. -/
def spawnService (os : OsEnv) (name : String) (o : Orchestrator) : Int × Orchestrator :=
  match findDef o.service_definitions_ name with
  | none => (-1, o)
  | some _ => (os.fork name, { o with spawned := o.spawned ++ [name] })

/-- Start a service (`Orchestrator::startService`). -/
def startService (os : OsEnv) (now : Int) (name : String) (o : Orchestrator) :
    Bool × Orchestrator :=
  match findDef o.service_definitions_ name with
  | none => (false, o)
  | some d =>
    if mapCount o.services_ name > 0 ∧
        (mapAt defaultService o.services_ name).status = ServiceStatus.RUNNING then (true, o)
    else
      let r := spawnService os name o
      let pid := r.1
      if pid > 0 then
        let info : ServiceInfo :=
          { name := name, socket_path := d.socket_path, pid := pid,
            status := ServiceStatus.STARTING, restart_count := 0, error_message := "" }
        let o1 := { r.2 with services_ := mapSet r.2.services_ name info }
        if os.waitpid_settle pid = 0 then
          let o2 := { o1 with
            services_ := mapSet o1.services_ name
              { mapAt defaultService o1.services_ name with status := ServiceStatus.RUNNING } }
          (true, postEvent
            { id := now, timestamp := now, type := EventType.SERVICE_STARTED,
              source_service := "orchestrator", target := name, message := "", data := "",
              severity := 2 } o2)
        else
          (false, { o1 with
            services_ := mapSet o1.services_ name
              { mapAt defaultService o1.services_ name with status := ServiceStatus.ERROR } })
      else (false, r.2)

/-- React to the exit of a service (`Orchestrator::handleServiceFailure`). -/
def handleServiceFailure (os : OsEnv) (now : Int) (name : String) (o : Orchestrator) :
    Orchestrator :=
  match findDef o.service_definitions_ name with
  | none => o
  | some d =>
    let o0 :=
      if mapCount o.services_ name = 0 then
        { o with services_ := mapSet o.services_ name defaultService }
      else o
    let info := mapAt defaultService o0.services_ name
    if d.auto_restart = true ∧ info.restart_count < d.max_restarts then
      let o1 := { o0 with
        services_ := mapSet o0.services_ name
          { info with restart_count := info.restart_count + 1 }
        auto_restarts := o0.auto_restarts ++ [name] }
      (startService os now name o1).2
    else
      let o1 := { o0 with
        services_ := mapSet o0.services_ name
          { info with
            status := ServiceStatus.ERROR
            error_message := "Max restart sayısına ulaşıldı" } }
      postEvent
        { id := now, timestamp := now, type := EventType.SERVICE_ERROR,
          source_service := "orchestrator", target := name,
          message := "Servis başlatılamadı", data := "", severity := 8 } o1

/-- Probe one service (`Orchestrator::checkServiceHealth`). -/
def checkServiceHealth (os : OsEnv) (now : Int) (name : String) (o : Orchestrator) :
    Orchestrator :=
  match mapFind o.services_ name with
  | none => o
  | some info =>
    if info.pid > 0 then
      let result := os.waitpid_health info.pid
      if result = info.pid then
        handleServiceFailure os now name
          { o with
            services_ := mapSet o.services_ name
              { info with status := ServiceStatus.STOPPED } }
      else if result = 0 then
        { o with
          services_ := mapSet o.services_ name
            { info with status := ServiceStatus.RUNNING } }
      else o
    else o

/-- The probes of one health tick, service by service. -/
def healthChecks (os : OsEnv) (now : Int) : List String → Orchestrator → Orchestrator
  | [], o => o
  | name :: rest, o => healthChecks os now rest (checkServiceHealth os now name o)

/-- The number of services with a given status. -/
def countStatus (status : ServiceStatus) (services : List (String × ServiceInfo)) : Int :=
  ((services.filter (fun p => decide (p.2.status = status))).length : Int)

/-- One iteration of the loop of `Orchestrator::healthCheckLoop`: probe every service, then
count the running and the failed ones. -/
def healthCheckLoop (os : OsEnv) (now : Int) (o : Orchestrator) : Orchestrator :=
  let o1 := healthChecks os now (o.services_.map Prod.fst) o
  { o1 with
    stats_ := { o1.stats_ with
      services_running := countStatus ServiceStatus.RUNNING o1.services_
      services_failed := countStatus ServiceStatus.ERROR o1.services_ } }

/-- Stop a service (`Orchestrator::stopService`). -/
def stopService (os : OsEnv) (now : Int) (name : String) (o : Orchestrator) :
    Bool × Orchestrator :=
  if mapCount o.services_ name = 0 then (false, o)
  else
    let info := mapAt defaultService o.services_ name
    if info.pid > 0 then
      let sent :=
        if os.waitpid_stop info.pid = 0 then
          [Signal.SIGTERM info.pid, Signal.SIGKILL info.pid]
        else [Signal.SIGTERM info.pid]
      let o1 := { o with
        services_ := mapSet o.services_ name
          { info with status := ServiceStatus.STOPPED, pid := 0 }
        signals := o.signals ++ sent }
      (true, postEvent
        { id := now, timestamp := now, type := EventType.SERVICE_STOPPED,
          source_service := "orchestrator", target := name, message := "", data := "",
          severity := 3 } o1)
    else (false, o)

/-- Stop, then start a service (`Orchestrator::restartService`). -/
def restartService (os : OsEnv) (now : Int) (name : String) (o : Orchestrator) :
    Bool × Orchestrator :=
  startService os now name (stopService os now name o).2

/-- Open the socket of a service (`Orchestrator::connectToService`). -/
def connectToService (os : OsEnv) (name : String) (o : Orchestrator) : Bool × Orchestrator :=
  if mapCount o.services_ name = 0 then (false, o)
  else
    let fd := os.connect (mapAt defaultService o.services_ name).socket_path
    if fd < 0 then (false, o)
    else (true, { o with service_sockets_ := mapSet o.service_sockets_ name fd })

/-- Send a message to a service (`Orchestrator::sendToService`). -/
def sendToService (os : OsEnv) (service_name : String) (message : String)
    (o : Orchestrator) : Bool × Orchestrator :=
  let r :=
    if mapCount o.service_sockets_ service_name = 0 then connectToService os service_name o
    else (true, o)
  if !r.1 then (false, r.2)
  else
    let fd := mapAt 0 r.2.service_sockets_ service_name
    (decide (os.write fd message = (message.utf8ByteSize : Int)), r.2)

/-- One line of the answer to `services`. -/
def serviceLine (p : String × ServiceInfo) : String :=
  "  \x7b\"name\": \"" ++ p.1 ++ "\", \"status\": " ++ toString p.2.status.toInt ++
    ", \"pid\": " ++ toString p.2.pid ++ "\x7d"

/-- Answer a request of the control socket (`Orchestrator::handleIpcMessage`). -/
def handleIpcMessage (os : OsEnv) (now : Int) (message : String) (o : Orchestrator) :
    String × Orchestrator :=
  if "status".toList.isPrefixOf message.toList then
    ("\x7b\n" ++
      "  \"running\": " ++ (if o.running_ then "true" else "false") ++ ",\n" ++
      "  \"services\": " ++ toString o.services_.length ++ ",\n" ++
      "  \"events_processed\": " ++ toString o.stats_.total_events_processed ++ ",\n" ++
      "  \"threats_today\": " ++ toString o.stats_.threats_detected_today ++ ",\n" ++
      "  \"trackers_blocked\": " ++ toString o.stats_.trackers_blocked_today ++ "\n" ++
      "\x7d\n", o)
  else if "services".toList.isPrefixOf message.toList then
    ("[\n" ++ ",\n".intercalate (o.services_.map serviceLine) ++ "\n]\n", o)
  else if "scan".toList.isPrefixOf message.toList then
    let r := sendToService os "security_core" "SCAN_ALL" o
    if r.1 then ("\x7b\"success\": true, \"message\": \"Tarama başlatıldı\"\x7d\n", r.2)
    else
      ("\x7b\"success\": false, \"error\": \"Security Core servisine ulaşılamadı\"\x7d\n", r.2)
  else if "restart ".toList.isPrefixOf message.toList then
    let service_name := String.mk (trimRight (message.toList.drop 8))
    let r := restartService os now service_name o
    if r.1 then ("\x7b\"success\": true\x7d\n", r.2)
    else ("\x7b\"success\": false, \"error\": \"Service not found\"\x7d\n", r.2)
  else ("\x7b\"error\": \"Unknown command\"\x7d\n", o)

end Orchestrator

/-! ## Sequences of orchestrator calls -/

/-- A call of an operation of the orchestrator, with its arguments; `eventLoop` and
`healthCheckLoop` stand for one iteration of the loop of that name. -/
inductive OrchOp
  | registerService (name : String) (socket_path : String)
  | startService (name : String)
  | stopService (name : String)
  | restartService (name : String)
  | checkServiceHealth (name : String)
  | healthCheckLoop
  | handleServiceFailure (name : String)
  | postEvent (event : Event)
  | subscribeToEvents (type : EventType) (callback : Nat)
  | unsubscribeFromEvents (type : EventType)
  | setAppCallback (callback : Nat)
  | eventLoop
  | handleIpcMessage (message : String)
  deriving DecidableEq, Repr

/-- The orchestrator after one call that the operating system answers with `os` at the
instant `now`; `none` when the call ends the process. -/
def orchStep (os : OsEnv) (now : Int) : OrchOp → Orchestrator → Option Orchestrator
  | .registerService n s, o => some (Orchestrator.registerService n s o).2
  | .startService n, o => some (Orchestrator.startService os now n o).2
  | .stopService n, o => some (Orchestrator.stopService os now n o).2
  | .restartService n, o => some (Orchestrator.restartService os now n o).2
  | .checkServiceHealth n, o => some (Orchestrator.checkServiceHealth os now n o)
  | .healthCheckLoop, o => some (Orchestrator.healthCheckLoop os now o)
  | .handleServiceFailure n, o => some (Orchestrator.handleServiceFailure os now n o)
  | .postEvent ev, o => some (Orchestrator.postEvent ev o)
  | .subscribeToEvents t cb, o => some (Orchestrator.subscribeToEvents t cb o)
  | .unsubscribeFromEvents t, o => some (Orchestrator.unsubscribeFromEvents t o)
  | .setAppCallback cb, o => some (Orchestrator.setAppCallback cb o)
  | .eventLoop, o => Orchestrator.eventLoop os o
  | .handleIpcMessage m, o => some (Orchestrator.handleIpcMessage os now m o).2

/-- The orchestrator after a sequence of calls, each with its own answers of the operating
system and its own instant; `none` when a call ends the process. -/
def orchRun : List (OsEnv × Int × OrchOp) → Orchestrator → Option Orchestrator
  | [], o => some o
  | (os, now, op) :: rest, o =>
    match orchStep os now op o with
    | none => none
    | some o1 => orchRun rest o1

/-- The calls of the supervisor: `registerService`, `startService`, `stopService`,
`restartService`, the probe of one service and the health tick. -/
def OrchOp.isSupervisorCall : OrchOp → Prop
  | .registerService _ _ => True
  | .startService _ => True
  | .stopService _ => True
  | .restartService _ => True
  | .checkServiceHealth _ => True
  | .healthCheckLoop => True
  | _ => False

/-- No subscriber throws anything but a `std::exception`, and the application callback
does not throw: no exception leaves `processEvent`. -/
def OsEnv.contained (os : OsEnv) : Prop :=
  (∀ callback event, os.callback_result callback event ≠ CallbackResult.throws_other) ∧
    ∀ event, os.app_callback_throws event = false

/-- The subscribers that `routeEvent` calls, of the subscribers of a kind: all of them up
to and with the first one that throws something that is no `std::exception`. -/
def calledSubscribers (os : OsEnv) (event : Event) : List Nat → List Nat
  | [] => []
  | callback :: rest =>
    if os.callback_result callback event = CallbackResult.throws_other then [callback]
    else callback :: calledSubscribers os event rest

/-! ## Sample data of the orchestrator -/

/-- The three services of `service_definitions_` in the header. -/
def defaultDefinitions : List ServiceDef :=
  [ { name := "security_core",
      binary_path := "/data/adb/modules/clara_security/system/bin/clara_security_core",
      socket_path := "/data/clara/security_core.sock",
      auto_start := true, auto_restart := true, restart_delay_ms := 5000, max_restarts := 5 },
    { name := "privacy_core",
      binary_path := "/data/adb/modules/clara_security/system/bin/clara_privacy_core",
      socket_path := "/data/clara/privacy_core.sock",
      auto_start := true, auto_restart := true, restart_delay_ms := 5000, max_restarts := 5 },
    { name := "app_manager",
      binary_path := "/data/adb/modules/clara_security/system/bin/clara_app_manager",
      socket_path := "/data/clara/app_manager.sock",
      auto_start := true, auto_restart := true, restart_delay_ms := 5000, max_restarts := 5 } ]

/-- The orchestrator after `initialize`, with given service definitions: no service, no
event, no subscriber, every counter 0. -/
def newOrchestrator (defs : List ServiceDef) : Orchestrator :=
  { running_ := true
    services_ := []
    service_sockets_ := []
    event_queue_ := []
    subscribers_ := []
    app_callback_ := none
    stats_ :=
      { uptime_seconds := 0, total_events_processed := 0, services_running := 0,
        services_failed := 0, threats_detected_today := 0, trackers_blocked_today := 0 }
    service_definitions_ := defs
    posted := []
    processed := []
    deliveries := []
    app_deliveries := []
    spawned := []
    auto_restarts := []
    signals := [] }

/-- The orchestrator after `initialize`, as the header defines its services. -/
def freshOrchestrator : Orchestrator :=
  newOrchestrator defaultDefinitions

/-- A sample definition: one service `detector` with `max_restarts = 3` and
`restart_delay_ms = 10`. -/
def detectorDefinitions : List ServiceDef :=
  [ { name := "detector", binary_path := "/data/clara/bin/detector",
      socket_path := "/data/clara/detector.sock",
      auto_start := true, auto_restart := true, restart_delay_ms := 10, max_restarts := 3 } ]

/-- A sample system: `fork` gives the child `pid`, the child is alive after the settle time
and at every later probe; every subscriber returns. -/
def aliveOs (pid : Int) : OsEnv where
  fork := fun _ => pid
  waitpid_settle := fun _ => 0
  waitpid_health := fun _ => 0
  waitpid_stop := fun p => p
  connect := fun _ => -1
  write := fun _ _ => -1
  callback_result := fun _ _ => CallbackResult.returns
  app_callback_throws := fun _ => false

/-- A sample system of a crash loop: the child of the last start is found exited by the
health probe; `fork` gives the new child `pid`, which is alive after the settle time. -/
def crashOs (pid : Int) : OsEnv where
  fork := fun _ => pid
  waitpid_settle := fun _ => 0
  waitpid_health := fun p => p
  waitpid_stop := fun p => p
  connect := fun _ => -1
  write := fun _ _ => -1
  callback_result := fun _ _ => CallbackResult.returns
  app_callback_throws := fun _ => false

/-- A sample system whose binaries exit at once: `fork` gives the child `pid`, which has
exited after the settle time; a later probe of the reaped child gives -1. -/
def exitOs (pid : Int) : OsEnv where
  fork := fun _ => pid
  waitpid_settle := fun p => p
  waitpid_health := fun _ => -1
  waitpid_stop := fun _ => -1
  connect := fun _ => -1
  write := fun _ _ => -1
  callback_result := fun _ _ => CallbackResult.returns
  app_callback_throws := fun _ => false

/-- A sample system for the event bus: subscriber 2 throws a `std::runtime_error`,
subscriber 5 throws an `int`, every other subscriber returns. -/
def busOs : OsEnv where
  fork := fun _ => -1
  waitpid_settle := fun _ => -1
  waitpid_health := fun _ => -1
  waitpid_stop := fun _ => -1
  connect := fun _ => -1
  write := fun _ _ => -1
  callback_result := fun callback _ =>
    if callback = 2 then CallbackResult.throws_exception
    else if callback = 5 then CallbackResult.throws_other
    else CallbackResult.returns
  app_callback_throws := fun _ => false

/-- A sample event of a given kind and number. -/
def sampleEvent (type : EventType) (n : Int) : Event :=
  { id := n, timestamp := n, type := type, source_service := "security_core",
    target := "com.evil.app", message := "", data := "", severity := 5 }

/-- A crash loop of `security_core`: it is started, and each of seven health ticks finds
the child of the last start exited. -/
def crashLoopCalls : List (OsEnv × Int × OrchOp) :=
  [ (crashOs 101, 0, OrchOp.startService "security_core"),
    (crashOs 102, 10, OrchOp.healthCheckLoop),
    (crashOs 103, 20, OrchOp.healthCheckLoop),
    (crashOs 104, 30, OrchOp.healthCheckLoop),
    (crashOs 105, 40, OrchOp.healthCheckLoop),
    (crashOs 106, 50, OrchOp.healthCheckLoop),
    (crashOs 107, 60, OrchOp.healthCheckLoop),
    (crashOs 108, 70, OrchOp.healthCheckLoop) ]

/-- The service `detector` is started and exits at once; three health ticks follow. -/
def immediateExitCalls : List (OsEnv × Int × OrchOp) :=
  [ (exitOs 201, 0, OrchOp.startService "detector"),
    (exitOs 202, 10, OrchOp.healthCheckLoop),
    (exitOs 203, 20, OrchOp.healthCheckLoop),
    (exitOs 204, 30, OrchOp.healthCheckLoop) ]

/-- Calls of the event bus: three subscribers of `SMS_THREAT` (1, 2, 3), one of
`FILE_THREAT` (4), three events posted, two of them dispatched. -/
def busCalls : List (OsEnv × Int × OrchOp) :=
  [ (busOs, 0, OrchOp.subscribeToEvents EventType.SMS_THREAT 1),
    (busOs, 1, OrchOp.subscribeToEvents EventType.SMS_THREAT 2),
    (busOs, 2, OrchOp.subscribeToEvents EventType.FILE_THREAT 4),
    (busOs, 3, OrchOp.subscribeToEvents EventType.SMS_THREAT 3),
    (busOs, 4, OrchOp.postEvent (sampleEvent EventType.SMS_THREAT 1)),
    (busOs, 5, OrchOp.postEvent (sampleEvent EventType.FILE_THREAT 2)),
    (busOs, 6, OrchOp.eventLoop),
    (busOs, 7, OrchOp.postEvent (sampleEvent EventType.TRACKER_BLOCKED 3)),
    (busOs, 8, OrchOp.eventLoop) ]

/-! ## Relations between two states of the orchestrator -/

/-- From the first state to the second only events were pushed on the queue: the events
handed to `processEvent` and their count are the same. -/
def PostsOnly (o o2 : Orchestrator) : Prop :=
  ∃ evs, o2.posted = o.posted ++ evs ∧ o2.event_queue_ = o.event_queue_ ++ evs ∧
    o2.processed = o.processed ∧
    o2.stats_.total_events_processed = o.stats_.total_events_processed

/-- Every service record of the second state is the record of that service in the first
state, or has a positive pid. -/
def PidKept (o o2 : Orchestrator) : Prop :=
  ∀ k info, mapFind o2.services_ k = some info →
    mapFind o.services_ k = some info ∨ 0 < info.pid

/-- A property holds of every record of a cache. -/
def CacheAll (P : AppTrustInfo → Prop) (c : List (String × AppTrustInfo)) : Prop :=
  ∀ p ∈ c, P p.2

/-- A property of records is kept by every update the engine makes to a record: the
record of a new package has it, and each field update of the operations keeps it
(`B` is the set of the bonuses that are considered). -/
structure Stable (B : Int → Prop) (P : AppTrustInfo → Prop) : Prop where
  daily : B 2
  fresh : ∀ env now package_name, P (TrustEngine.newAppInfo env now package_name)
  suspended : ∀ (a : AppTrustInfo) (b : Bool), P a → P { a with is_suspended := b }
  blocked : ∀ (a : AppTrustInfo) (b : Bool), P a → P { a with network_blocked := b }
  whitelisted : ∀ (a : AppTrustInfo) (b : Bool), P a → P { a with is_whitelisted := b }
  quarantine : ∀ a : AppTrustInfo, P a →
    P { a with is_quarantined := true, status := AppStatus.QUARANTINED, current_score := 0 }
  release : ∀ a : AppTrustInfo, P a →
    P { a with
        is_quarantined := false, status := TrustEngine.calculateStatus a.current_score }
  violation : ∀ (a : AppTrustInfo) (now : Int) (vtype : ViolationType), P a →
    P { a with
        current_score := max 0 (wrapInt (a.current_score + PenaltyMatrix.getPenalty vtype))
        last_violation := now
        violation_count := a.violation_count + 1
        good_behavior_days := 0
        status :=
          TrustEngine.calculateStatus
            (max 0 (wrapInt (a.current_score + PenaltyMatrix.getPenalty vtype))) }
  reward : ∀ (a : AppTrustInfo) (now bonus : Int), B bonus → P a →
    P { a with
        current_score := min a.max_achievable_score (wrapInt (a.current_score + bonus))
        last_good_behavior := now
        good_behavior_days := a.good_behavior_days + 1
        status :=
          TrustEngine.calculateStatus
            (min a.max_achievable_score (wrapInt (a.current_score + bonus))) }

open TrustEngine

/-! ## Lemmas on the cache -/

theorem cacheFind_cacheSet (c : List (String × AppTrustInfo)) (k k2 : String)
    (v : AppTrustInfo) :
    cacheFind (cacheSet c k v) k2 = if k = k2 then some v else cacheFind c k2 := by
  induction c with
  | nil => simp [cacheSet, cacheFind]
  | cons hd tl ih =>
    obtain ⟨k1, w⟩ := hd
    by_cases h1 : k1 = k
    · subst h1
      by_cases h2 : k1 = k2 <;> simp [cacheSet, cacheFind, h2]
    · by_cases h2 : k = k2
      · subst h2
        simp [cacheSet, cacheFind, h1, ih]
      · simp [cacheSet, cacheFind, h1, h2, ih]

theorem cacheCount_eq_zero_iff (c : List (String × AppTrustInfo)) (k : String) :
    cacheCount c k = 0 ↔ cacheFind c k = none := by
  unfold cacheCount
  cases cacheFind c k <;> simp

theorem cacheCount_pos_iff (c : List (String × AppTrustInfo)) (k : String) :
    cacheCount c k > 0 ↔ ∃ v, cacheFind c k = some v := by
  unfold cacheCount
  cases cacheFind c k <;> simp

theorem cacheCount_of_find {c : List (String × AppTrustInfo)} {k : String} {v : AppTrustInfo}
    (h : cacheFind c k = some v) : cacheCount c k = 1 := by
  simp [cacheCount, h]

theorem cacheAt_of_find {c : List (String × AppTrustInfo)} {k : String} {v : AppTrustInfo}
    (h : cacheFind c k = some v) : cacheAt c k = v := by
  simp [cacheAt, h]

theorem cacheCount_of_none {c : List (String × AppTrustInfo)} {k : String}
    (h : cacheFind c k = none) : cacheCount c k = 0 := by
  simp [cacheCount, h]

theorem cacheAt_cacheSet (c : List (String × AppTrustInfo)) (k : String) (v : AppTrustInfo) :
    cacheAt (cacheSet c k v) k = v := by
  simp [cacheAt, cacheFind_cacheSet]

theorem cacheCount_cacheSet (c : List (String × AppTrustInfo)) (k : String)
    (v : AppTrustInfo) : cacheCount (cacheSet c k v) k = 1 := by
  simp [cacheCount, cacheFind_cacheSet]

theorem cacheSet_cacheSet (c : List (String × AppTrustInfo)) (k : String)
    (v w : AppTrustInfo) : cacheSet (cacheSet c k v) k w = cacheSet c k w := by
  induction c with
  | nil => simp [cacheSet]
  | cons hd tl ih =>
    obtain ⟨k1, u⟩ := hd
    by_cases h1 : k1 = k <;> simp [cacheSet, h1, ih]

theorem mem_of_cacheFind {c : List (String × AppTrustInfo)} {k : String} {v : AppTrustInfo}
    (h : cacheFind c k = some v) : (k, v) ∈ c := by
  induction c with
  | nil => simp [cacheFind] at h
  | cons hd tl ih =>
    obtain ⟨k1, u⟩ := hd
    by_cases h1 : k1 = k
    · simp [cacheFind, h1] at h
      simp [h1, h]
    · simp [cacheFind, h1] at h
      exact List.mem_cons_of_mem _ (ih h)

theorem mem_cacheSet {c : List (String × AppTrustInfo)} {k : String} {v : AppTrustInfo}
    {p : String × AppTrustInfo} (h : p ∈ cacheSet c k v) : p ∈ c ∨ p = (k, v) := by
  induction c with
  | nil => simpa [cacheSet] using h
  | cons hd tl ih =>
    obtain ⟨k1, u⟩ := hd
    by_cases h1 : k1 = k
    · simp [cacheSet, h1] at h
      rcases h with h | h
      · exact Or.inr h
      · exact Or.inl (List.mem_cons_of_mem _ h)
    · simp [cacheSet, h1] at h
      rcases h with h | h
      · exact Or.inl (by simp [h])
      · rcases ih h with h2 | h2
        · exact Or.inl (List.mem_cons_of_mem _ h2)
        · exact Or.inr h2

theorem CacheAll.set {P : AppTrustInfo → Prop} {c : List (String × AppTrustInfo)}
    (hc : CacheAll P c) (k : String) {v : AppTrustInfo} (hv : P v) :
    CacheAll P (cacheSet c k v) := by
  intro p hp
  rcases mem_cacheSet hp with h | h
  · exact hc p h
  · subst h
    exact hv

theorem CacheAll.at {P : AppTrustInfo → Prop} {c : List (String × AppTrustInfo)}
    (hc : CacheAll P c) {k : String} (hk : cacheCount c k > 0) : P (cacheAt c k) := by
  obtain ⟨v, hv⟩ := (cacheCount_pos_iff c k).1 hk
  rw [cacheAt_of_find hv]
  exact hc _ (mem_of_cacheFind hv)

theorem CacheAll.modify {P : AppTrustInfo → Prop} {c : List (String × AppTrustInfo)}
    (hc : CacheAll P c) {k : String} (hk : cacheCount c k > 0) {f : AppTrustInfo → AppTrustInfo}
    (hf : ∀ a, P a → P (f a)) : CacheAll P (cacheModify c k f) :=
  hc.set k (hf _ (hc.at hk))

theorem cacheCount_cacheModify (c : List (String × AppTrustInfo)) (k : String)
    (f : AppTrustInfo → AppTrustInfo) : cacheCount (cacheModify c k f) k = 1 :=
  cacheCount_cacheSet _ _ _

theorem cacheCount_cacheSet_pos {c : List (String × AppTrustInfo)} {k2 : String}
    (h : cacheCount c k2 > 0) (k : String) (v : AppTrustInfo) :
    cacheCount (cacheSet c k v) k2 > 0 := by
  rw [cacheCount_pos_iff] at h ⊢
  obtain ⟨w, hw⟩ := h
  by_cases hk : k = k2
  · exact ⟨v, by simp [cacheFind_cacheSet, hk]⟩
  · exact ⟨w, by simp [cacheFind_cacheSet, hk, hw]⟩

theorem suspendApp_count (pkg : String) {e : TrustEngine} {k : String}
    (hk : cacheCount e.app_cache_ k > 0) : cacheCount (suspendApp pkg e).2.app_cache_ k > 0 := by
  unfold suspendApp
  dsimp only
  split
  · exact cacheCount_cacheSet_pos hk _ _
  · exact hk

theorem unsuspendApp_count (pkg : String) {e : TrustEngine} {k : String}
    (hk : cacheCount e.app_cache_ k > 0) :
    cacheCount (unsuspendApp pkg e).2.app_cache_ k > 0 := by
  unfold unsuspendApp
  dsimp only
  split
  · exact cacheCount_cacheSet_pos hk _ _
  · exact hk

theorem blockNetwork_count (env : Env) (pkg : String) {e : TrustEngine} {k : String}
    (hk : cacheCount e.app_cache_ k > 0) :
    cacheCount (blockNetwork env pkg e).2.app_cache_ k > 0 := by
  unfold blockNetwork
  dsimp only
  split
  · exact hk
  · split
    · exact cacheCount_cacheSet_pos hk _ _
    · exact hk

theorem unblockNetwork_count (env : Env) (pkg : String) {e : TrustEngine} {k : String}
    (hk : cacheCount e.app_cache_ k > 0) :
    cacheCount (unblockNetwork env pkg e).2.app_cache_ k > 0 := by
  unfold unblockNetwork
  dsimp only
  split
  · exact hk
  · split
    · exact cacheCount_cacheSet_pos hk _ _
    · exact hk

/-- After the guard `if (count == 0) registerApp(...)` the package is in the cache. -/
theorem ensured_count (env : Env) (now : Int) (pkg : String) (e : TrustEngine) :
    cacheCount (if cacheCount e.app_cache_ pkg = 0 then (registerApp env now pkg e).2
      else e).app_cache_ pkg > 0 := by
  split
  · next h0 =>
    have : ¬ cacheCount e.app_cache_ pkg > 0 := by omega
    simp [registerApp, this, cacheCount_cacheSet]
  · next h0 => omega

section
variable {B : Int → Prop} {P : AppTrustInfo → Prop}

theorem suspendApp_all (h : Stable B P) (pkg : String) {e : TrustEngine}
    (hc : CacheAll P e.app_cache_) : CacheAll P (suspendApp pkg e).2.app_cache_ := by
  unfold suspendApp
  dsimp only
  split
  · next hk => exact hc.modify hk (fun a ha => h.suspended a true ha)
  · exact hc

theorem unsuspendApp_all (h : Stable B P) (pkg : String) {e : TrustEngine}
    (hc : CacheAll P e.app_cache_) : CacheAll P (unsuspendApp pkg e).2.app_cache_ := by
  unfold unsuspendApp
  dsimp only
  split
  · next hk => exact hc.modify hk (fun a ha => h.suspended a false ha)
  · exact hc

theorem blockNetwork_all (h : Stable B P) (env : Env) (pkg : String) {e : TrustEngine}
    (hc : CacheAll P e.app_cache_) : CacheAll P (blockNetwork env pkg e).2.app_cache_ := by
  unfold blockNetwork
  dsimp only
  split
  · exact hc
  · split
    · next hk => exact hc.modify hk (fun a ha => h.blocked a true ha)
    · exact hc

theorem unblockNetwork_all (h : Stable B P) (env : Env) (pkg : String) {e : TrustEngine}
    (hc : CacheAll P e.app_cache_) : CacheAll P (unblockNetwork env pkg e).2.app_cache_ := by
  unfold unblockNetwork
  dsimp only
  split
  · exact hc
  · split
    · next hk => exact hc.modify hk (fun a ha => h.blocked a false ha)
    · exact hc

theorem registerApp_all (h : Stable B P) (env : Env) (now : Int) (pkg : String)
    {e : TrustEngine} (hc : CacheAll P e.app_cache_) :
    CacheAll P (registerApp env now pkg e).2.app_cache_ := by
  unfold registerApp
  split
  · exact hc
  · exact hc.set pkg (h.fresh env now pkg)

theorem ensured_all (h : Stable B P) (env : Env) (now : Int) (pkg : String)
    {e : TrustEngine} (hc : CacheAll P e.app_cache_) :
    CacheAll P (if cacheCount e.app_cache_ pkg = 0 then (registerApp env now pkg e).2
      else e).app_cache_ := by
  split
  · exact registerApp_all h env now pkg hc
  · exact hc

theorem quarantineApp_all (h : Stable B P) (env : Env) (now : Int) (pkg : String)
    {e : TrustEngine} (hc : CacheAll P e.app_cache_) :
    CacheAll P (quarantineApp env now pkg e).2.app_cache_ := by
  unfold quarantineApp
  have h0 := ensured_all h env now pkg hc
  have k0 := ensured_count env now pkg e
  generalize (if cacheCount e.app_cache_ pkg = 0 then (registerApp env now pkg e).2
      else e) = e0 at h0 k0 ⊢
  dsimp only
  split
  · exact h0
  · split
    · exact h0
    · have h2 := blockNetwork_all h env pkg (suspendApp_all h pkg h0)
      have k2 := blockNetwork_count env pkg (suspendApp_count pkg k0)
      exact h2.modify k2 (fun a ha => h.quarantine a ha)

theorem releaseFromQuarantine_all (h : Stable B P) (env : Env) (pkg : String)
    {e : TrustEngine} (hc : CacheAll P e.app_cache_) :
    CacheAll P (releaseFromQuarantine env pkg e).2.app_cache_ := by
  unfold releaseFromQuarantine
  split
  · exact hc
  · next hk =>
    have k0 : cacheCount e.app_cache_ pkg > 0 := by omega
    split
    · exact hc
    · have h2 := unblockNetwork_all h env pkg (unsuspendApp_all h pkg hc)
      have k2 := unblockNetwork_count env pkg (unsuspendApp_count pkg k0)
      dsimp only
      split
      · exact h2.modify k2 (fun a ha => h.release a ha)
      · exact h2.modify k2 (fun a ha => h.release a ha)

theorem whitelistApp_all (h : Stable B P) (env : Env) (now : Int) (pkg : String)
    {e : TrustEngine} (hc : CacheAll P e.app_cache_) :
    CacheAll P (whitelistApp env now pkg e).app_cache_ := by
  unfold whitelistApp
  have h0 := ensured_all h env now pkg hc
  have k0 := ensured_count env now pkg e
  generalize (if cacheCount e.app_cache_ pkg = 0 then (registerApp env now pkg e).2
      else e) = e0 at h0 k0 ⊢
  dsimp only
  have h1 : CacheAll P (cacheModify e0.app_cache_ pkg (fun a =>
      { a with is_whitelisted := true })) :=
    h0.modify k0 (fun a ha => h.whitelisted a true ha)
  split
  · exact releaseFromQuarantine_all h env pkg h1
  · exact h1

theorem unwhitelistApp_all (h : Stable B P) (pkg : String)
    {e : TrustEngine} (hc : CacheAll P e.app_cache_) :
    CacheAll P (unwhitelistApp pkg e).app_cache_ := by
  unfold unwhitelistApp
  split
  · next hk => exact hc.modify hk (fun a ha => h.whitelisted a false ha)
  · exact hc

theorem enforceByScore_all (h : Stable B P) (env : Env) (now : Int) (pkg : String)
    {e : TrustEngine} (hc : CacheAll P e.app_cache_) :
    CacheAll P (enforceByScore env now pkg e).app_cache_ := by
  unfold enforceByScore
  dsimp only
  split
  · exact hc
  · split
    · exact hc
    · split
      · exact hc
      · split
        · exact hc
        · split
          · exact hc
          · exact quarantineApp_all h env now pkg hc

end

section
variable {B : Int → Prop} {P : AppTrustInfo → Prop}

theorem recordViolation_all (h : Stable B P) (env : Env) (now : Int) (pkg : String)
    (vtype : ViolationType) (context : String)
    {e : TrustEngine} (hc : CacheAll P e.app_cache_) :
    CacheAll P (recordViolation env now pkg vtype context e).app_cache_ := by
  unfold recordViolation
  have h0 := ensured_all h env now pkg hc
  have k0 := ensured_count env now pkg e
  generalize (if cacheCount e.app_cache_ pkg = 0 then (registerApp env now pkg e).2
      else e) = e0 at h0 k0 ⊢
  dsimp only
  split
  · exact h0
  · split
    · exact h0
    · apply enforceByScore_all h
      have h1 : CacheAll P (cacheModify e0.app_cache_ pkg (fun a =>
          { a with
            current_score :=
              max 0 (wrapInt ((cacheAt e0.app_cache_ pkg).current_score
                + PenaltyMatrix.getPenalty vtype))
            last_violation := now
            violation_count := a.violation_count + 1
            good_behavior_days := 0
            status := calculateStatus
              (max 0 (wrapInt ((cacheAt e0.app_cache_ pkg).current_score
                + PenaltyMatrix.getPenalty vtype))) })) :=
        h0.set pkg (h.violation _ now vtype (h0.at k0))
      split_ifs <;> exact h1

theorem rewardGoodBehavior_all (h : Stable B P) (env : Env) (now : Int) (pkg : String)
    (bonus : Int) (hb : B bonus)
    {e : TrustEngine} (hc : CacheAll P e.app_cache_) :
    CacheAll P (rewardGoodBehavior env now pkg bonus e).app_cache_ := by
  unfold rewardGoodBehavior
  dsimp only
  split
  · exact hc
  · next hk =>
    have k0 : cacheCount e.app_cache_ pkg > 0 := by omega
    split
    · exact hc
    · have h1 : CacheAll P (cacheModify e.app_cache_ pkg (fun a =>
          { a with
            current_score :=
              min (cacheAt e.app_cache_ pkg).max_achievable_score
                (wrapInt ((cacheAt e.app_cache_ pkg).current_score + bonus))
            last_good_behavior := now
            good_behavior_days := a.good_behavior_days + 1
            status := calculateStatus
              (min (cacheAt e.app_cache_ pkg).max_achievable_score
                (wrapInt ((cacheAt e.app_cache_ pkg).current_score + bonus))) })) :=
        hc.set pkg (h.reward _ now bonus hb (hc.at k0))
      split <;> split <;>
        first
        | exact h1
        | (apply releaseFromQuarantine_all h env pkg; exact h1)

theorem dailyBehaviorLoop_all (h : Stable B P) (env : Env) (now : Int) (keys : List String)
    {e : TrustEngine} (hc : CacheAll P e.app_cache_) :
    CacheAll P (dailyBehaviorLoop env now keys e).app_cache_ := by
  induction keys generalizing e with
  | nil => exact hc
  | cons key keys ih =>
    unfold dailyBehaviorLoop
    dsimp only
    apply ih
    split
    · exact rewardGoodBehavior_all h env now _ 2 h.daily hc
    · exact hc

theorem onPackageAdded_all (h : Stable B P) (env : Env) (now : Int) (pkg : String)
    {e : TrustEngine} (hc : CacheAll P e.app_cache_) :
    CacheAll P (onPackageAdded env now pkg e).2.app_cache_ := by
  unfold onPackageAdded
  dsimp only
  have h1 := registerApp_all h env now pkg hc
  split
  · have h2 := quarantineApp_all h env now pkg h1
    split
    · exact h2
    · exact h2
  · exact h1

theorem step_all (h : Stable B P) (env : Env) (now : Int) (op : Op)
    (hop : ∀ p b, op = Op.rewardGoodBehavior p b → B b)
    {e : TrustEngine} (hc : CacheAll P e.app_cache_) :
    CacheAll P (step env now op e).app_cache_ := by
  cases op with
  | registerApp p => exact registerApp_all h env now p hc
  | onPackageAdded p => exact onPackageAdded_all h env now p hc
  | recordViolation p t c => exact recordViolation_all h env now p t c hc
  | rewardGoodBehavior p b => exact rewardGoodBehavior_all h env now p b (hop p b rfl) hc
  | dailyBehaviorCheck => exact dailyBehaviorLoop_all h env now _ hc
  | whitelistApp p => exact whitelistApp_all h env now p hc
  | unwhitelistApp p => exact unwhitelistApp_all h p hc
  | quarantineApp p => exact quarantineApp_all h env now p hc
  | releaseFromQuarantine p => exact releaseFromQuarantine_all h env p hc
  | enforceByScore p => exact enforceByScore_all h env now p hc

theorem run_all (h : Stable B P) (calls : List (Env × Int × Op))
    (hops : ∀ c ∈ calls, ∀ p b, c.2.2 = Op.rewardGoodBehavior p b → B b)
    {e : TrustEngine} (hc : CacheAll P e.app_cache_) :
    CacheAll P (run calls e).app_cache_ := by
  induction calls generalizing e with
  | nil => exact hc
  | cons c rest ih =>
    obtain ⟨env, now, op⟩ := c
    unfold run
    apply ih
    · intro c hcm
      exact hops c (List.mem_cons_of_mem _ hcm)
    · exact step_all h env now op (hops (env, now, op) (List.mem_cons_self _ _)) hc

end

theorem derive_eq_calculateStatus (score : Int) : derive score = calculateStatus score := by
  unfold derive calculateStatus
  split_ifs <;> first | rfl | omega

theorem getPenalty_nonpos (vtype : ViolationType) : PenaltyMatrix.getPenalty vtype ≤ 0 := by
  cases vtype <;> simp [PenaltyMatrix.getPenalty]

theorem getPenalty_ge (vtype : ViolationType) : -30 ≤ PenaltyMatrix.getPenalty vtype := by
  cases vtype <;> simp [PenaltyMatrix.getPenalty]

/-- A sum that fits in `int` is stored as it is. -/
theorem wrapInt_of_fits {x : Int} (h : fitsInt x = true) : wrapInt x = x := by
  simp only [fitsInt, Bool.and_eq_true, decide_eq_true_eq] at h
  unfold wrapInt
  omega

theorem stable_status_derived :
    Stable (fun _ => True)
      (fun a => a.status ≠ AppStatus.SYSTEM → a.status = calculateStatus a.current_score) where
  daily := trivial
  fresh := by
    intro env now pkg
    unfold newAppInfo
    generalize detectInstallSource env pkg = src
    cases src <;> simp [getInitialScore, INITIAL_SCORES]
  suspended := fun a b h => h
  blocked := fun a b h => h
  whitelisted := fun a b h => h
  quarantine := by
    intro a h _
    simp [calculateStatus]
  release := fun a h _ => rfl
  violation := fun a now vtype h _ => rfl
  reward := fun a now bonus _ h _ => rfl

/-- C2: in every state reached from an empty cache by calls of the public operations,
every cached record whose status is not SYSTEM has the status that `derive` gives for its
score. -/
theorem C2_status_is_derived (e0 : TrustEngine) (calls : List (Env × Int × Op))
    (hempty : e0.app_cache_ = [])
    (p : String × AppTrustInfo) (hp : p ∈ (run calls e0).app_cache_)
    (hstatus : p.2.status ≠ AppStatus.SYSTEM) :
    p.2.status = derive p.2.current_score := by
  have h0 : CacheAll
      (fun a => a.status ≠ AppStatus.SYSTEM → a.status = calculateStatus a.current_score)
      e0.app_cache_ := by
    intro q hq
    simp [hempty] at hq
  rw [derive_eq_calculateStatus]
  exact run_all stable_status_derived calls (fun _ _ _ _ _ => trivial) h0 p hp hstatus

/-- Witness of C2: after the install of the sideloaded `com.evil.app` and a reward of 5 its
record has score 5 and the status quarantined, which is `derive 5`. -/
theorem C2_witness :
    emptyEngine.app_cache_ = [] ∧
    (cacheAt (run sampleCalls emptyEngine).app_cache_ "com.evil.app").status
      ≠ AppStatus.SYSTEM ∧
    (cacheAt (run sampleCalls emptyEngine).app_cache_ "com.evil.app").status = derive 5 :=
  ⟨rfl, by decide,
    C2_status_is_derived emptyEngine sampleCalls rfl
      ("com.evil.app", cacheAt (run sampleCalls emptyEngine).app_cache_ "com.evil.app")
      (by decide) (by decide)⟩

/-! ## The operations on a cached record -/

/-- The engine that `quarantineApp` leaves for a cached record that is neither quarantined
nor whitelisted. -/
theorem quarantineApp_eq (env : Env) (now : Int) (pkg : String) (e : TrustEngine)
    (r : AppTrustInfo) (hr : cacheFind e.app_cache_ pkg = some r)
    (hq : r.is_quarantined = false) (hw : r.is_whitelisted = false) :
    quarantineApp env now pkg e =
      (true, { e with
        app_cache_ := cacheSet e.app_cache_ pkg
          { r with
            is_suspended := true
            network_blocked := if getAppUid env pkg < 0 then r.network_blocked else true
            is_quarantined := true
            status := AppStatus.QUARANTINED
            current_score := 0 }
        commands := e.commands ++ [Command.pm_suspend pkg] ++
          (if getAppUid env pkg < 0 then []
            else [Command.iptables_append_drop (getAppUid env pkg)])
        stats_ := { e.stats_ with quarantined_apps := e.stats_.quarantined_apps + 1 } }) := by
  by_cases hu : getAppUid env pkg < 0 <;>
    simp [quarantineApp, suspendApp, blockNetwork, cacheModify, cacheCount_of_find hr,
      cacheAt_of_find hr, hq, hw, hu, cacheCount_cacheSet, cacheAt_cacheSet, cacheSet_cacheSet]

/-- For a cached record that is already quarantined `quarantineApp` does nothing. -/
theorem quarantineApp_quarantined (env : Env) (now : Int) (pkg : String) (e : TrustEngine)
    (r : AppTrustInfo) (hr : cacheFind e.app_cache_ pkg = some r)
    (hq : r.is_quarantined = true) : quarantineApp env now pkg e = (true, e) := by
  simp [quarantineApp, cacheCount_of_find hr, cacheAt_of_find hr, hq]

/-- For a cached record that is whitelisted and not quarantined `quarantineApp` does
nothing and returns false. -/
theorem quarantineApp_whitelisted (env : Env) (now : Int) (pkg : String) (e : TrustEngine)
    (r : AppTrustInfo) (hr : cacheFind e.app_cache_ pkg = some r)
    (hq : r.is_quarantined = false) (hw : r.is_whitelisted = true) :
    quarantineApp env now pkg e = (false, e) := by
  simp [quarantineApp, cacheCount_of_find hr, cacheAt_of_find hr, hq, hw]

/-- The engine that `releaseFromQuarantine` leaves for a cached, quarantined record. -/
theorem releaseFromQuarantine_eq (env : Env) (pkg : String) (e : TrustEngine)
    (r : AppTrustInfo) (hr : cacheFind e.app_cache_ pkg = some r)
    (hq : r.is_quarantined = true) :
    releaseFromQuarantine env pkg e =
      (true, { e with
        app_cache_ := cacheSet e.app_cache_ pkg
          { r with
            is_suspended := false
            network_blocked := if getAppUid env pkg < 0 then r.network_blocked else false
            is_quarantined := false
            status := calculateStatus r.current_score }
        commands := e.commands ++ [Command.pm_unsuspend pkg] ++
          (if getAppUid env pkg < 0 then []
            else [Command.iptables_delete_drop (getAppUid env pkg)])
        stats_ := { e.stats_ with quarantined_apps := e.stats_.quarantined_apps - 1 }
        callbacks := e.callbacks ++
          (if e.quarantine_callback_ then [CallbackCall.quarantine pkg false] else []) }) := by
  rcases e with ⟨cache, stats, cb1, cb2, cb3, vlog, cmds, cbs, ovf⟩
  simp only at hr
  by_cases hu : getAppUid env pkg < 0 <;> cases cb2 <;>
    simp [releaseFromQuarantine, unsuspendApp, unblockNetwork, cacheModify,
      cacheCount_of_find hr, cacheAt_of_find hr, hq, hu, cacheCount_cacheSet,
      cacheAt_cacheSet, cacheSet_cacheSet]

/-- For a cached record that is not quarantined `releaseFromQuarantine` does nothing. -/
theorem releaseFromQuarantine_free (env : Env) (pkg : String) (e : TrustEngine)
    (r : AppTrustInfo) (hr : cacheFind e.app_cache_ pkg = some r)
    (hq : r.is_quarantined = false) : releaseFromQuarantine env pkg e = (true, e) := by
  simp [releaseFromQuarantine, cacheCount_of_find hr, cacheAt_of_find hr, hq]

/-- The four bands of `enforceByScore` for a cached record. -/
theorem enforceByScore_eq (env : Env) (now : Int) (pkg : String) (e : TrustEngine)
    (r : AppTrustInfo) (hr : cacheFind e.app_cache_ pkg = some r) :
    enforceByScore env now pkg e =
      if r.is_whitelisted then e
      else if r.current_score ≥ 80 then e
      else if r.current_score ≥ 50 then
        { e with commands := e.commands ++
            [Command.pm_revoke pkg "android.permission.ACCESS_FINE_LOCATION"] }
      else if r.current_score ≥ 20 then
        { e with commands := e.commands ++
            [Command.pm_revoke pkg "android.permission.CAMERA",
              Command.pm_revoke pkg "android.permission.RECORD_AUDIO",
              Command.pm_revoke pkg "android.permission.READ_CONTACTS"] }
      else
        { (quarantineApp env now pkg e).2 with
          commands := (quarantineApp env now pkg e).2.commands ++ [Command.am_force_stop pkg] } := by
  simp [enforceByScore, cacheCount_of_find hr, cacheAt_of_find hr, sendFuzzyLocation,
    revokePermission, forceStopApp]

/-- The first half of `recordViolation` for a cached record that is neither whitelisted nor
a system application: the ledger is written, then `enforceByScore` runs. -/
theorem recordViolation_eq (env : Env) (now : Int) (pkg : String) (vtype : ViolationType)
    (context : String) (e : TrustEngine) (r : AppTrustInfo)
    (hr : cacheFind e.app_cache_ pkg = some r)
    (hw : r.is_whitelisted = false) (hs : r.status ≠ AppStatus.SYSTEM) :
    recordViolation env now pkg vtype context e =
      enforceByScore env now pkg
        { e with
          app_cache_ := cacheSet e.app_cache_ pkg
            { r with
              current_score := max 0 (wrapInt (r.current_score + PenaltyMatrix.getPenalty vtype))
              last_violation := now
              violation_count := r.violation_count + 1
              good_behavior_days := 0
              status :=
                calculateStatus
                  (max 0 (wrapInt (r.current_score + PenaltyMatrix.getPenalty vtype))) }
          violation_log :=
            if env.db_insert_ok
                { package_name := pkg
                  violation_type := vtype
                  penalty := PenaltyMatrix.getPenalty vtype
                  timestamp := now
                  context := context
                  was_blocked := false } then
              e.violation_log ++
                [{ package_name := pkg
                   violation_type := vtype
                   penalty := PenaltyMatrix.getPenalty vtype
                   timestamp := now
                   context := context
                   was_blocked := false }]
            else e.violation_log
          stats_ := { e.stats_ with total_violations := e.stats_.total_violations + 1 }
          callbacks := e.callbacks ++
            (if e.violation_callback_ then
              [CallbackCall.violation pkg vtype
                (max 0 (wrapInt (r.current_score + PenaltyMatrix.getPenalty vtype)))]
             else []) ++
            (if e.score_change_callback_ then
              [CallbackCall.score_change pkg r.current_score
                (max 0 (wrapInt (r.current_score + PenaltyMatrix.getPenalty vtype)))]
             else [])
          overflowed :=
            e.overflowed || !fitsInt (r.current_score + PenaltyMatrix.getPenalty vtype) } := by
  rcases e with ⟨cache, stats, cb1, cb2, cb3, vlog, cmds, cbs, ovf⟩
  simp only at hr
  cases cb1 <;> cases cb3 <;>
    simp [recordViolation, cacheModify, cacheCount_of_find hr, cacheAt_of_find hr, hw, hs]

/-- What `enforceByScore` does to a cached record that is not whitelisted: nothing, unless
the score is below 20 and the record is not quarantined yet; then it is quarantined, which
zeroes the score and leaves the ledger fields alone. -/
theorem enforceByScore_record (env : Env) (now : Int) (pkg : String) (e : TrustEngine)
    (r : AppTrustInfo) (hr : cacheFind e.app_cache_ pkg = some r)
    (hw : r.is_whitelisted = false) :
    ∃ r2, cacheFind (enforceByScore env now pkg e).app_cache_ pkg = some r2 ∧
      r2.current_score =
        (if 20 ≤ r.current_score ∨ r.is_quarantined = true then r.current_score else 0) ∧
      r2.violation_count = r.violation_count ∧
      r2.good_behavior_days = r.good_behavior_days ∧
      r2.last_violation = r.last_violation ∧
      (r.status = calculateStatus r.current_score →
        r2.status = calculateStatus r2.current_score) := by
  rw [enforceByScore_eq env now pkg e r hr]
  simp only [hw, Bool.false_eq_true, if_false]
  by_cases h80 : r.current_score ≥ 80
  · refine ⟨r, by simpa [h80] using hr, ?_, rfl, rfl, rfl, id⟩
    have : 20 ≤ r.current_score := by omega
    simp [this]
  by_cases h50 : r.current_score ≥ 50
  · refine ⟨r, by simpa [h80, h50] using hr, ?_, rfl, rfl, rfl, id⟩
    have : 20 ≤ r.current_score := by omega
    simp [this]
  by_cases h20 : r.current_score ≥ 20
  · refine ⟨r, by simpa [h80, h50, h20] using hr, ?_, rfl, rfl, rfl, id⟩
    simp [h20]
  simp only [h80, h50, h20, if_false]
  have hlt : ¬ (20 ≤ r.current_score) := by omega
  by_cases hq : r.is_quarantined = true
  · rw [quarantineApp_quarantined env now pkg e r hr hq]
    exact ⟨r, hr, by simp [hq], rfl, rfl, rfl, id⟩
  · rw [quarantineApp_eq env now pkg e r hr (by simpa using hq) hw]
    refine ⟨{ r with
        is_suspended := true
        network_blocked := if getAppUid env pkg < 0 then r.network_blocked else true
        is_quarantined := true
        status := AppStatus.QUARANTINED
        current_score := 0 }, by simp only [cacheFind_cacheSet, if_true], ?_, rfl, rfl, rfl, ?_⟩
    · simp [hq, hlt]
    · intro _
      simp [calculateStatus]

/-- C3, as amended: for a cached record that is neither whitelisted nor a system
application and whose sum `old + penalty` lies in the range of `int`, `recordViolation`
leaves the record with `violation_count` one higher, `good_behavior_days = 0`,
`last_violation = now` and `status = derive current_score`; the score is
`max 0 (old + penalty)` when that is at least 20 or the record was quarantined already, and
0 otherwise (the enforcement step quarantines the package). -/
theorem C3_recordViolation_ledger (env : Env) (now : Int) (pkg : String)
    (vtype : ViolationType) (context : String) (e : TrustEngine) (r : AppTrustInfo)
    (hr : cacheFind e.app_cache_ pkg = some r)
    (hw : r.is_whitelisted = false) (hs : r.status ≠ AppStatus.SYSTEM)
    (hfit : fitsInt (r.current_score + PenaltyMatrix.getPenalty vtype) = true) :
    ∃ r2, cacheFind (recordViolation env now pkg vtype context e).app_cache_ pkg = some r2 ∧
      r2.current_score =
        (if 20 ≤ max 0 (r.current_score + PenaltyMatrix.getPenalty vtype) ∨
            r.is_quarantined = true
          then max 0 (r.current_score + PenaltyMatrix.getPenalty vtype) else 0) ∧
      r2.violation_count = r.violation_count + 1 ∧
      r2.good_behavior_days = 0 ∧
      r2.last_violation = now ∧
      r2.status = derive r2.current_score := by
  rw [recordViolation_eq env now pkg vtype context e r hr hw hs]
  simp only [wrapInt_of_fits hfit]
  obtain ⟨r2, h1, h2, h3, h4, h5, h6⟩ := enforceByScore_record env now pkg
    { e with
      app_cache_ := cacheSet e.app_cache_ pkg
        { r with
          current_score := max 0 (r.current_score + PenaltyMatrix.getPenalty vtype)
          last_violation := now
          violation_count := r.violation_count + 1
          good_behavior_days := 0
          status :=
            calculateStatus (max 0 (r.current_score + PenaltyMatrix.getPenalty vtype)) }
      violation_log :=
        if env.db_insert_ok
            { package_name := pkg
              violation_type := vtype
              penalty := PenaltyMatrix.getPenalty vtype
              timestamp := now
              context := context
              was_blocked := false } then
          e.violation_log ++
            [{ package_name := pkg
               violation_type := vtype
               penalty := PenaltyMatrix.getPenalty vtype
               timestamp := now
               context := context
               was_blocked := false }]
        else e.violation_log
      stats_ := { e.stats_ with total_violations := e.stats_.total_violations + 1 }
      callbacks := e.callbacks ++
        (if e.violation_callback_ then
          [CallbackCall.violation pkg vtype
            (max 0 (r.current_score + PenaltyMatrix.getPenalty vtype))]
         else []) ++
        (if e.score_change_callback_ then
          [CallbackCall.score_change pkg r.current_score
            (max 0 (r.current_score + PenaltyMatrix.getPenalty vtype))]
         else [])
      overflowed :=
        e.overflowed || !fitsInt (r.current_score + PenaltyMatrix.getPenalty vtype) }
    { r with
      current_score := max 0 (r.current_score + PenaltyMatrix.getPenalty vtype)
      last_violation := now
      violation_count := r.violation_count + 1
      good_behavior_days := 0
      status := calculateStatus (max 0 (r.current_score + PenaltyMatrix.getPenalty vtype)) }
    (by simp only [cacheFind_cacheSet, if_true]) hw
  exact ⟨r2, h1, h2, h3, h4, h5, by rw [derive_eq_calculateStatus]; exact h6 rfl⟩

/-- Counterexample to C3 as stated.  First, `com.shop.app` is cached at score 30, neither
whitelisted nor a system application; a violation of penalty -15 should leave the score
`max 0 (30 - 15) = 15`, but the enforcement step of `recordViolation` quarantines the
package and the call returns with score 0.  Second, `com.evil.app` is cached at score
-2147483638, flagged as quarantined; a violation of penalty -30 should leave the score
`max 0 (-2147483638 - 30) = 0`, but the sum lies below the smallest `int` and the call
returns with score 2147483628. -/
theorem C3_counterexample :
    (cacheCount shopEngine.app_cache_ "com.shop.app" = 1 ∧
      (cacheAt shopEngine.app_cache_ "com.shop.app").current_score = 30 ∧
      (cacheAt shopEngine.app_cache_ "com.shop.app").is_whitelisted = false ∧
      (cacheAt shopEngine.app_cache_ "com.shop.app").status ≠ AppStatus.SYSTEM ∧
      PenaltyMatrix.getPenalty ViolationType.CLIPBOARD_SNOOP = -15 ∧
      (cacheAt (recordViolation sampleEnv 40 "com.shop.app" ViolationType.CLIPBOARD_SNOOP ""
        shopEngine).app_cache_ "com.shop.app").current_score = 0 ∧
      (cacheAt (recordViolation sampleEnv 40 "com.shop.app" ViolationType.CLIPBOARD_SNOOP ""
        shopEngine).app_cache_ "com.shop.app").current_score ≠
        max 0 ((cacheAt shopEngine.app_cache_ "com.shop.app").current_score +
          PenaltyMatrix.getPenalty ViolationType.CLIPBOARD_SNOOP)) ∧
    ((cacheAt (run (underflowCalls.take 2) emptyEngine).app_cache_
        "com.evil.app").current_score = -2147483638 ∧
      (cacheAt (run (underflowCalls.take 2) emptyEngine).app_cache_
        "com.evil.app").is_whitelisted = false ∧
      (cacheAt (run (underflowCalls.take 2) emptyEngine).app_cache_
        "com.evil.app").status = AppStatus.QUARANTINED ∧
      (cacheAt (run (underflowCalls.take 2) emptyEngine).app_cache_
        "com.evil.app").is_quarantined = true ∧
      PenaltyMatrix.getPenalty ViolationType.HIDDEN_CAMERA = -30 ∧
      (cacheAt (recordViolation sampleEnv 3000 "com.evil.app" ViolationType.HIDDEN_CAMERA ""
        (run (underflowCalls.take 2) emptyEngine)).app_cache_
        "com.evil.app").current_score = 2147483628 ∧
      max 0 ((-2147483638 : Int) + -30) = 0) := by
  decide

/-- Witness of C3: the violation of penalty -15 on `com.shop.app` at score 30. -/
theorem C3_witness :
    fitsInt ((cacheAt shopEngine.app_cache_ "com.shop.app").current_score
      + PenaltyMatrix.getPenalty ViolationType.CLIPBOARD_SNOOP) = true ∧
    ∃ r2, cacheFind (recordViolation sampleEnv 40 "com.shop.app"
        ViolationType.CLIPBOARD_SNOOP "" shopEngine).app_cache_ "com.shop.app" = some r2 ∧
      r2.current_score = 0 ∧
      r2.violation_count = 3 ∧
      r2.good_behavior_days = 0 ∧
      r2.last_violation = 40 ∧
      r2.status = derive r2.current_score :=
  ⟨by decide,
    C3_recordViolation_ledger sampleEnv 40 "com.shop.app" ViolationType.CLIPBOARD_SNOOP ""
      shopEngine (cacheAt shopEngine.app_cache_ "com.shop.app") (by decide) (by decide)
      (by decide) (by decide)⟩

/-- The engine that `rewardGoodBehavior` leaves for a cached record that is not a system
application: the ledger is written; when the status leaves QUARANTINED and the record is
flagged as quarantined, the package is released. -/
theorem rewardGoodBehavior_eq (env : Env) (now : Int) (pkg : String) (bonus : Int)
    (e : TrustEngine) (r : AppTrustInfo) (hr : cacheFind e.app_cache_ pkg = some r)
    (hs : r.status ≠ AppStatus.SYSTEM) :
    rewardGoodBehavior env now pkg bonus e =
      if r.status = AppStatus.QUARANTINED ∧
          calculateStatus (min r.max_achievable_score (wrapInt (r.current_score + bonus)))
            ≠ AppStatus.QUARANTINED ∧ r.is_quarantined = true then
        { e with
          app_cache_ := cacheSet e.app_cache_ pkg
            { r with
              current_score := min r.max_achievable_score (wrapInt (r.current_score + bonus))
              last_good_behavior := now
              good_behavior_days := r.good_behavior_days + 1
              status := calculateStatus (min r.max_achievable_score (wrapInt (r.current_score + bonus)))
              is_suspended := false
              network_blocked := if getAppUid env pkg < 0 then r.network_blocked else false
              is_quarantined := false }
          commands := e.commands ++ [Command.pm_unsuspend pkg] ++
            (if getAppUid env pkg < 0 then []
              else [Command.iptables_delete_drop (getAppUid env pkg)])
          stats_ := { e.stats_ with quarantined_apps := e.stats_.quarantined_apps - 1 }
          callbacks := e.callbacks ++
            (if e.quarantine_callback_ then [CallbackCall.quarantine pkg false] else []) ++
            (if e.score_change_callback_ ∧
                r.current_score ≠ min r.max_achievable_score (wrapInt (r.current_score + bonus)) then
              [CallbackCall.score_change pkg r.current_score
                (min r.max_achievable_score (wrapInt (r.current_score + bonus)))]
             else [])
          overflowed := e.overflowed || !fitsInt (r.current_score + bonus) }
      else
        { e with
          app_cache_ := cacheSet e.app_cache_ pkg
            { r with
              current_score := min r.max_achievable_score (wrapInt (r.current_score + bonus))
              last_good_behavior := now
              good_behavior_days := r.good_behavior_days + 1
              status :=
                calculateStatus (min r.max_achievable_score (wrapInt (r.current_score + bonus))) }
          callbacks := e.callbacks ++
            (if e.score_change_callback_ ∧
                r.current_score ≠ min r.max_achievable_score (wrapInt (r.current_score + bonus)) then
              [CallbackCall.score_change pkg r.current_score
                (min r.max_achievable_score (wrapInt (r.current_score + bonus)))]
             else [])
          overflowed := e.overflowed || !fitsInt (r.current_score + bonus) } := by
  rcases e with ⟨cache, stats, cb1, cb2, cb3, vlog, cmds, cbs, ovf⟩
  simp only at hr
  generalize hnew : min r.max_achievable_score (wrapInt (r.current_score + bonus)) = s1
  by_cases hst : r.status = AppStatus.QUARANTINED <;>
  by_cases hst2 : calculateStatus s1 = AppStatus.QUARANTINED <;>
  by_cases hq : r.is_quarantined = true <;>
  by_cases hu : getAppUid env pkg < 0 <;>
  cases cb2 <;>
    simp [rewardGoodBehavior, releaseFromQuarantine, unsuspendApp, unblockNetwork,
      cacheModify, cacheCount_of_find hr, cacheAt_of_find hr, hs, hnew, hst, hst2, hq, hu,
      cacheCount_cacheSet, cacheAt_cacheSet, cacheSet_cacheSet] <;>
    split_ifs <;> simp

/-! ## Frame lemmas: a call on one package leaves the records of the others alone -/

theorem cacheFind_cacheModify_ne (c : List (String × AppTrustInfo)) {p k : String}
    (h : p ≠ k) (f : AppTrustInfo → AppTrustInfo) :
    cacheFind (cacheModify c p f) k = cacheFind c k := by
  simp [cacheModify, cacheFind_cacheSet, h]

theorem suspendApp_frame (p : String) (e : TrustEngine) {k : String} (h : p ≠ k) :
    cacheFind (suspendApp p e).2.app_cache_ k = cacheFind e.app_cache_ k := by
  unfold suspendApp
  dsimp only
  split
  · simp only [cacheFind_cacheModify_ne _ h]
  · rfl

theorem unsuspendApp_frame (p : String) (e : TrustEngine) {k : String} (h : p ≠ k) :
    cacheFind (unsuspendApp p e).2.app_cache_ k = cacheFind e.app_cache_ k := by
  unfold unsuspendApp
  dsimp only
  split
  · simp only [cacheFind_cacheModify_ne _ h]
  · rfl

theorem blockNetwork_frame (env : Env) (p : String) (e : TrustEngine) {k : String}
    (h : p ≠ k) : cacheFind (blockNetwork env p e).2.app_cache_ k = cacheFind e.app_cache_ k := by
  unfold blockNetwork
  dsimp only
  split
  · rfl
  · split
    · simp only [cacheFind_cacheModify_ne _ h]
    · rfl

theorem unblockNetwork_frame (env : Env) (p : String) (e : TrustEngine) {k : String}
    (h : p ≠ k) :
    cacheFind (unblockNetwork env p e).2.app_cache_ k = cacheFind e.app_cache_ k := by
  unfold unblockNetwork
  dsimp only
  split
  · rfl
  · split
    · simp only [cacheFind_cacheModify_ne _ h]
    · rfl

theorem registerApp_frame (env : Env) (now : Int) (p : String) (e : TrustEngine) {k : String}
    (h : p ≠ k) :
    cacheFind (registerApp env now p e).2.app_cache_ k = cacheFind e.app_cache_ k := by
  unfold registerApp
  split
  · rfl
  · simp [cacheFind_cacheSet, h]

theorem ensured_frame (env : Env) (now : Int) (p : String) (e : TrustEngine) {k : String}
    (h : p ≠ k) :
    cacheFind (if cacheCount e.app_cache_ p = 0 then (registerApp env now p e).2
      else e).app_cache_ k = cacheFind e.app_cache_ k := by
  split
  · exact registerApp_frame env now p e h
  · rfl

theorem quarantineApp_frame (env : Env) (now : Int) (p : String) (e : TrustEngine)
    {k : String} (h : p ≠ k) :
    cacheFind (quarantineApp env now p e).2.app_cache_ k = cacheFind e.app_cache_ k := by
  unfold quarantineApp
  have h0 := ensured_frame env now p e h
  generalize (if cacheCount e.app_cache_ p = 0 then (registerApp env now p e).2
      else e) = e0 at h0 ⊢
  dsimp only
  split
  · exact h0
  · split
    · exact h0
    · dsimp only
      rw [cacheFind_cacheModify_ne _ h, blockNetwork_frame env p _ h, suspendApp_frame p _ h, h0]

theorem releaseFromQuarantine_frame (env : Env) (p : String) (e : TrustEngine)
    {k : String} (h : p ≠ k) :
    cacheFind (releaseFromQuarantine env p e).2.app_cache_ k = cacheFind e.app_cache_ k := by
  unfold releaseFromQuarantine
  split
  · rfl
  · split
    · rfl
    · dsimp only
      split <;>
      · dsimp only
        rw [cacheFind_cacheModify_ne _ h, unblockNetwork_frame env p _ h,
          unsuspendApp_frame p _ h]

theorem whitelistApp_frame (env : Env) (now : Int) (p : String) (e : TrustEngine)
    {k : String} (h : p ≠ k) :
    cacheFind (whitelistApp env now p e).app_cache_ k = cacheFind e.app_cache_ k := by
  unfold whitelistApp
  have h0 := ensured_frame env now p e h
  generalize (if cacheCount e.app_cache_ p = 0 then (registerApp env now p e).2
      else e) = e0 at h0 ⊢
  dsimp only
  split
  · rw [releaseFromQuarantine_frame env p _ h]
    dsimp only
    rw [cacheFind_cacheModify_ne _ h, h0]
  · dsimp only
    rw [cacheFind_cacheModify_ne _ h, h0]

theorem enforceByScore_frame (env : Env) (now : Int) (p : String) (e : TrustEngine)
    {k : String} (h : p ≠ k) :
    cacheFind (enforceByScore env now p e).app_cache_ k = cacheFind e.app_cache_ k := by
  unfold enforceByScore
  dsimp only
  split
  · rfl
  · split
    · rfl
    · split
      · rfl
      · split
        · rfl
        · split
          · rfl
          · exact quarantineApp_frame env now p e h

theorem recordViolation_frame (env : Env) (now : Int) (p : String) (vtype : ViolationType)
    (context : String) (e : TrustEngine) {k : String} (h : p ≠ k) :
    cacheFind (recordViolation env now p vtype context e).app_cache_ k
      = cacheFind e.app_cache_ k := by
  unfold recordViolation
  have h0 := ensured_frame env now p e h
  generalize (if cacheCount e.app_cache_ p = 0 then (registerApp env now p e).2
      else e) = e0 at h0 ⊢
  dsimp only
  split
  · exact h0
  · split
    · exact h0
    · rw [enforceByScore_frame env now p _ h]
      split_ifs <;>
      · dsimp only
        rw [cacheFind_cacheModify_ne _ h, h0]

theorem rewardGoodBehavior_frame (env : Env) (now : Int) (p : String) (bonus : Int)
    (e : TrustEngine) {k : String} (h : p ≠ k) :
    cacheFind (rewardGoodBehavior env now p bonus e).app_cache_ k
      = cacheFind e.app_cache_ k := by
  unfold rewardGoodBehavior
  dsimp only
  split
  · rfl
  · split
    · rfl
    · split <;> split <;>
        simp only [releaseFromQuarantine_frame env p _ h, cacheFind_cacheModify_ne _ h]

/-! ## The overflow mark

The mark `overflowed` is set by the two sums on the score and by nothing else, and it is
never cleared. -/

theorem suspendApp_overflowed (p : String) (e : TrustEngine) :
    (suspendApp p e).2.overflowed = e.overflowed := by
  unfold suspendApp
  dsimp only
  split <;> rfl

theorem unsuspendApp_overflowed (p : String) (e : TrustEngine) :
    (unsuspendApp p e).2.overflowed = e.overflowed := by
  unfold unsuspendApp
  dsimp only
  split <;> rfl

theorem blockNetwork_overflowed (env : Env) (p : String) (e : TrustEngine) :
    (blockNetwork env p e).2.overflowed = e.overflowed := by
  unfold blockNetwork
  dsimp only
  split
  · rfl
  · split <;> rfl

theorem unblockNetwork_overflowed (env : Env) (p : String) (e : TrustEngine) :
    (unblockNetwork env p e).2.overflowed = e.overflowed := by
  unfold unblockNetwork
  dsimp only
  split
  · rfl
  · split <;> rfl

theorem registerApp_overflowed (env : Env) (now : Int) (p : String) (e : TrustEngine) :
    (registerApp env now p e).2.overflowed = e.overflowed := by
  unfold registerApp
  split <;> rfl

theorem ensured_overflowed (env : Env) (now : Int) (p : String) (e : TrustEngine) :
    (if cacheCount e.app_cache_ p = 0 then (registerApp env now p e).2
      else e).overflowed = e.overflowed := by
  split
  · exact registerApp_overflowed env now p e
  · rfl

theorem quarantineApp_overflowed (env : Env) (now : Int) (p : String) (e : TrustEngine) :
    (quarantineApp env now p e).2.overflowed = e.overflowed := by
  unfold quarantineApp
  have h0 := ensured_overflowed env now p e
  generalize (if cacheCount e.app_cache_ p = 0 then (registerApp env now p e).2
      else e) = e0 at h0 ⊢
  dsimp only
  split
  · exact h0
  · split
    · exact h0
    · simp only [blockNetwork_overflowed, suspendApp_overflowed, h0]

theorem releaseFromQuarantine_overflowed (env : Env) (p : String) (e : TrustEngine) :
    (releaseFromQuarantine env p e).2.overflowed = e.overflowed := by
  unfold releaseFromQuarantine
  split
  · rfl
  · split
    · rfl
    · dsimp only
      split <;> simp only [unblockNetwork_overflowed, unsuspendApp_overflowed]

theorem whitelistApp_overflowed (env : Env) (now : Int) (p : String) (e : TrustEngine) :
    (whitelistApp env now p e).overflowed = e.overflowed := by
  unfold whitelistApp
  have h0 := ensured_overflowed env now p e
  generalize (if cacheCount e.app_cache_ p = 0 then (registerApp env now p e).2
      else e) = e0 at h0 ⊢
  dsimp only
  split
  · simp only [releaseFromQuarantine_overflowed, h0]
  · exact h0

theorem unwhitelistApp_overflowed (p : String) (e : TrustEngine) :
    (unwhitelistApp p e).overflowed = e.overflowed := by
  unfold unwhitelistApp
  split <;> rfl

theorem enforceByScore_overflowed (env : Env) (now : Int) (p : String) (e : TrustEngine) :
    (enforceByScore env now p e).overflowed = e.overflowed := by
  unfold enforceByScore
  dsimp only
  split
  · rfl
  · split
    · rfl
    · split
      · rfl
      · split
        · rfl
        · split
          · rfl
          · simp only [forceStopApp, quarantineApp_overflowed]

theorem onPackageAdded_overflowed (env : Env) (now : Int) (p : String) (e : TrustEngine) :
    (onPackageAdded env now p e).2.overflowed = e.overflowed := by
  unfold onPackageAdded
  dsimp only
  split
  · split <;> simp only [quarantineApp_overflowed, registerApp_overflowed]
  · exact registerApp_overflowed env now p e

/-- The mark after `recordViolation` on a cached package: set when the sum
`current_score + penalty` of a call that is not skipped leaves the range of `int`. -/
theorem recordViolation_overflowed (env : Env) (now : Int) (p : String)
    (vtype : ViolationType) (context : String) (e : TrustEngine) (r : AppTrustInfo)
    (hr : cacheFind e.app_cache_ p = some r) :
    (recordViolation env now p vtype context e).overflowed =
      (e.overflowed || recOverflow (Op.recordViolation p vtype context) r) := by
  by_cases hw : r.is_whitelisted = true
  · simp [recordViolation, recOverflow, cacheCount_of_find hr, cacheAt_of_find hr, hw]
  by_cases hs : r.status = AppStatus.SYSTEM
  · simp [recordViolation, recOverflow, cacheCount_of_find hr, cacheAt_of_find hr, hs]
  rw [recordViolation_eq env now p vtype context e r hr (by simpa using hw) hs,
    enforceByScore_overflowed]
  simp [recOverflow, hw, hs]

/-- The mark after `rewardGoodBehavior` on a cached package: set when the sum
`current_score + bonus` of a call that is not skipped leaves the range of `int`. -/
theorem rewardGoodBehavior_overflowed (env : Env) (now : Int) (p : String) (bonus : Int)
    (e : TrustEngine) (r : AppTrustInfo) (hr : cacheFind e.app_cache_ p = some r) :
    (rewardGoodBehavior env now p bonus e).overflowed =
      (e.overflowed || recOverflow (Op.rewardGoodBehavior p bonus) r) := by
  by_cases hs : r.status = AppStatus.SYSTEM
  · simp [rewardGoodBehavior, recOverflow, cacheCount_of_find hr, cacheAt_of_find hr, hs]
  unfold rewardGoodBehavior
  simp only [cacheCount_of_find hr, cacheAt_of_find hr, one_ne_zero, if_false, hs]
  split <;> split <;> simp [recOverflow, hs, releaseFromQuarantine_overflowed]

/-- For an unknown package `recordViolation` registers it and goes on as for a cached one. -/
theorem recordViolation_unknown (env : Env) (now : Int) (pkg : String) (vtype : ViolationType)
    (context : String) (e : TrustEngine) (hnone : cacheFind e.app_cache_ pkg = none) :
    recordViolation env now pkg vtype context e =
      recordViolation env now pkg vtype context (registerApp env now pkg e).2 := by
  have h1 : cacheCount (registerApp env now pkg e).2.app_cache_ pkg = 1 := by
    simp [registerApp, cacheCount_of_none hnone, cacheCount_cacheSet]
  conv_lhs => unfold recordViolation
  conv_rhs => unfold recordViolation
  simp only [cacheCount_of_none hnone, h1, if_true, one_ne_zero, if_false]

/-- The mark after `recordViolation` on an unknown package. -/
theorem recordViolation_overflowed_unknown (env : Env) (now : Int) (p : String)
    (vtype : ViolationType) (context : String) (e : TrustEngine)
    (hnone : cacheFind e.app_cache_ p = none) :
    (recordViolation env now p vtype context e).overflowed =
      (e.overflowed ||
        recOverflow (Op.recordViolation p vtype context) (newAppInfo env now p)) := by
  rw [recordViolation_unknown env now p vtype context e hnone,
    recordViolation_overflowed env now p vtype context _ (newAppInfo env now p)
      (by simp [registerApp, cacheCount_of_none hnone, cacheFind_cacheSet]),
    registerApp_overflowed]

theorem recordViolation_sticky (env : Env) (now : Int) (p : String) (vtype : ViolationType)
    (context : String) (e : TrustEngine)
    (h : (recordViolation env now p vtype context e).overflowed = false) :
    e.overflowed = false := by
  cases hfind : cacheFind e.app_cache_ p with
  | some r =>
    rw [recordViolation_overflowed env now p vtype context e r hfind] at h
    exact (Bool.or_eq_false_iff.mp h).1
  | none =>
    rw [recordViolation_overflowed_unknown env now p vtype context e hfind] at h
    exact (Bool.or_eq_false_iff.mp h).1

theorem rewardGoodBehavior_sticky (env : Env) (now : Int) (p : String) (bonus : Int)
    (e : TrustEngine) (h : (rewardGoodBehavior env now p bonus e).overflowed = false) :
    e.overflowed = false := by
  cases hfind : cacheFind e.app_cache_ p with
  | some r =>
    rw [rewardGoodBehavior_overflowed env now p bonus e r hfind] at h
    exact (Bool.or_eq_false_iff.mp h).1
  | none =>
    have h1 : rewardGoodBehavior env now p bonus e = e := by
      simp [rewardGoodBehavior, cacheCount_of_none hfind]
    rw [h1] at h
    exact h

theorem dailyBehaviorLoop_sticky (env : Env) (now : Int) (keys : List String)
    (e : TrustEngine) (h : (dailyBehaviorLoop env now keys e).overflowed = false) :
    e.overflowed = false := by
  induction keys generalizing e with
  | nil => exact h
  | cons key keys ih =>
    unfold dailyBehaviorLoop at h
    dsimp only at h
    have h1 := ih _ h
    split at h1
    · exact rewardGoodBehavior_sticky env now _ 2 e h1
    · exact h1

/-- The mark is never cleared: a call that ends without it began without it. -/
theorem step_sticky (env : Env) (now : Int) (op : Op) (e : TrustEngine)
    (h : (step env now op e).overflowed = false) : e.overflowed = false := by
  cases op with
  | recordViolation p t c => exact recordViolation_sticky env now p t c e h
  | rewardGoodBehavior p b => exact rewardGoodBehavior_sticky env now p b e h
  | dailyBehaviorCheck => exact dailyBehaviorLoop_sticky env now _ e h
  | registerApp p => simpa [step, registerApp_overflowed] using h
  | onPackageAdded p => simpa [step, onPackageAdded_overflowed] using h
  | whitelistApp p => simpa [step, whitelistApp_overflowed] using h
  | unwhitelistApp p => simpa [step, unwhitelistApp_overflowed] using h
  | quarantineApp p => simpa [step, quarantineApp_overflowed] using h
  | releaseFromQuarantine p => simpa [step, releaseFromQuarantine_overflowed] using h
  | enforceByScore p => simpa [step, enforceByScore_overflowed] using h

/-- A sequence of calls that ends without the mark began without it. -/
theorem run_sticky (calls : List (Env × Int × Op)) (e : TrustEngine)
    (h : (run calls e).overflowed = false) : e.overflowed = false := by
  induction calls generalizing e with
  | nil => exact h
  | cons c rest ih =>
    obtain ⟨env, now, op⟩ := c
    exact step_sticky env now op e (ih _ h)

/-- A violation that is not skipped and does not set the mark has a sum in the range of
`int`. -/
theorem recOverflow_violation {p : String} {t : ViolationType} {c : String}
    {r : AppTrustInfo} (hw : r.is_whitelisted = false) (hs : r.status ≠ AppStatus.SYSTEM)
    (h : recOverflow (Op.recordViolation p t c) r = false) :
    fitsInt (r.current_score + PenaltyMatrix.getPenalty t) = true := by
  simpa [recOverflow, hw, hs] using h

/-- A reward that is not skipped and does not set the mark has a sum in the range of
`int`. -/
theorem recOverflow_reward {p : String} {b : Int} {r : AppTrustInfo}
    (hs : r.status ≠ AppStatus.SYSTEM)
    (h : recOverflow (Op.rewardGoodBehavior p b) r = false) :
    fitsInt (r.current_score + b) = true := by
  simpa [recOverflow, hs] using h

/-! ## The ledger of one package -/

/-- The record of a cached package after `enforceByScore`. -/
theorem enforceByScore_find (env : Env) (now : Int) (pkg : String) (e : TrustEngine)
    (r : AppTrustInfo) (hr : cacheFind e.app_cache_ pkg = some r) :
    cacheFind (enforceByScore env now pkg e).app_cache_ pkg =
      some (if r.is_whitelisted = true ∨ 20 ≤ r.current_score ∨ r.is_quarantined = true then r
        else
          { r with
            is_suspended := true
            network_blocked := if getAppUid env pkg < 0 then r.network_blocked else true
            is_quarantined := true
            status := AppStatus.QUARANTINED
            current_score := 0 }) := by
  rw [enforceByScore_eq env now pkg e r hr]
  by_cases hw : r.is_whitelisted = true
  · simp [hw, hr]
  by_cases h80 : r.current_score ≥ 80
  · have : 20 ≤ r.current_score := by omega
    simp [hw, h80, this, hr]
  by_cases h50 : r.current_score ≥ 50
  · have : 20 ≤ r.current_score := by omega
    simp [hw, h80, h50, this, hr]
  by_cases h20 : r.current_score ≥ 20
  · simp [hw, h80, h50, h20, hr]
  have hlt : ¬ (20 ≤ r.current_score) := by omega
  by_cases hq : r.is_quarantined = true
  · rw [quarantineApp_quarantined env now pkg e r hr hq]
    simp [hw, h80, h50, h20, hq, hr]
  · rw [quarantineApp_eq env now pkg e r hr (by simpa using hq) (by simpa using hw)]
    simp [hw, h80, h50, h20, hq, hlt, cacheFind_cacheSet]

theorem calculateStatus_ne_system (score : Int) : calculateStatus score ≠ AppStatus.SYSTEM := by
  unfold calculateStatus
  split_ifs <;> simp

theorem calculateStatus_eq_quarantined (score : Int) :
    calculateStatus score = AppStatus.QUARANTINED ↔ score < 20 := by
  unfold calculateStatus
  split_ifs <;> simp <;> omega

/-- The record of a new package that is not a system application. -/
theorem newAppInfo_ledger (env : Env) (now : Int) (pkg : String)
    (hsys : detectInstallSource env pkg ≠ InstallSource.SYSTEM) :
    (newAppInfo env now pkg).current_score = getInitialScore (detectInstallSource env pkg) ∧
    (newAppInfo env now pkg).is_quarantined = false ∧
    (newAppInfo env now pkg).is_whitelisted = false ∧
    (newAppInfo env now pkg).status =
      calculateStatus (getInitialScore (detectInstallSource env pkg)) ∧
    (newAppInfo env now pkg).max_achievable_score
      = getMaxScore (detectInstallSource env pkg) := by
  unfold newAppInfo
  generalize detectInstallSource env pkg = src at hsys ⊢
  cases src <;> simp [getInitialScore, getMaxScore, INITIAL_SCORES, MAX_SCORES, calculateStatus]
    at hsys ⊢

/-- The record of a cached package, neither whitelisted nor a system application, after
`recordViolation`. -/
theorem recordViolation_find (env : Env) (now : Int) (pkg : String) (vtype : ViolationType)
    (context : String) (e : TrustEngine) (r : AppTrustInfo)
    (hr : cacheFind e.app_cache_ pkg = some r)
    (hw : r.is_whitelisted = false) (hs : r.status ≠ AppStatus.SYSTEM) :
    cacheFind (recordViolation env now pkg vtype context e).app_cache_ pkg =
      some (if 20 ≤ max 0 (wrapInt (r.current_score + PenaltyMatrix.getPenalty vtype)) ∨
          r.is_quarantined = true then
        { r with
          current_score := max 0 (wrapInt (r.current_score + PenaltyMatrix.getPenalty vtype))
          last_violation := now
          violation_count := r.violation_count + 1
          good_behavior_days := 0
          status :=
            calculateStatus (max 0 (wrapInt (r.current_score + PenaltyMatrix.getPenalty vtype))) }
        else
        { r with
          current_score := 0
          last_violation := now
          violation_count := r.violation_count + 1
          good_behavior_days := 0
          status := AppStatus.QUARANTINED
          is_suspended := true
          network_blocked := if getAppUid env pkg < 0 then r.network_blocked else true
          is_quarantined := true }) := by
  rw [recordViolation_eq env now pkg vtype context e r hr hw hs]
  rw [enforceByScore_find env now pkg _
    { r with
      current_score := max 0 (wrapInt (r.current_score + PenaltyMatrix.getPenalty vtype))
      last_violation := now
      violation_count := r.violation_count + 1
      good_behavior_days := 0
      status :=
        calculateStatus (max 0 (wrapInt (r.current_score + PenaltyMatrix.getPenalty vtype))) }
    (by simp only [cacheFind_cacheSet, if_true])]
  simp only [hw, Bool.false_eq_true, false_or]

/-- A violation of a cached package that does not set the overflow mark moves the cache as
`ledgerViolation` moves the ledger. -/
theorem recordViolation_ledger (env : Env) (now : Int) (pkg : String) (vtype : ViolationType)
    (context : String) (e : TrustEngine) (ceiling : Int) (s : Int × Bool)
    (h : LedgerSim ceiling pkg e (some s))
    (hov : (recordViolation env now pkg vtype context e).overflowed = false) :
    LedgerSim ceiling pkg (recordViolation env now pkg vtype context e)
      (some (ledgerViolation (PenaltyMatrix.getPenalty vtype) s)) := by
  obtain ⟨a, ha, hsc, hq, hw, hst, hmax⟩ := h
  have hs : a.status ≠ AppStatus.SYSTEM := by
    rw [hst]
    exact calculateStatus_ne_system _
  rw [recordViolation_overflowed env now pkg vtype context e a ha] at hov
  have hfit := recOverflow_violation hw hs (Bool.or_eq_false_iff.mp hov).2
  unfold LedgerSim ledgerViolation
  rw [recordViolation_find env now pkg vtype context e a ha hw hs, wrapInt_of_fits hfit]
  generalize PenaltyMatrix.getPenalty vtype = pen
  rw [← hsc, ← hq]
  by_cases h20 : 20 ≤ max 0 (a.current_score + pen)
  · simp [h20, hw, hmax]
  · by_cases hqq : a.is_quarantined = true
    · simp [h20, hw, hmax, hqq]
    · simp [h20, hw, hmax, hqq, calculateStatus]

/-- A reward of a cached package that does not set the overflow mark moves the cache as
`ledgerReward` moves the ledger. -/
theorem rewardGoodBehavior_ledger (env : Env) (now : Int) (pkg : String) (bonus : Int)
    (e : TrustEngine) (ceiling : Int) (s : Int × Bool)
    (h : LedgerSim ceiling pkg e (some s))
    (hov : (rewardGoodBehavior env now pkg bonus e).overflowed = false) :
    LedgerSim ceiling pkg (rewardGoodBehavior env now pkg bonus e)
      (some (ledgerReward ceiling bonus s)) := by
  obtain ⟨a, ha, hsc, hq, hw, hst, hmax⟩ := h
  have hs : a.status ≠ AppStatus.SYSTEM := by
    rw [hst]
    exact calculateStatus_ne_system _
  rw [rewardGoodBehavior_overflowed env now pkg bonus e a ha] at hov
  have hfit := recOverflow_reward hs (Bool.or_eq_false_iff.mp hov).2
  rw [← hsc] at hst
  unfold ledgerReward
  rw [← hsc, ← hq, ← hmax]
  simp only [LedgerSim]
  rw [rewardGoodBehavior_eq env now pkg bonus e a ha hs, wrapInt_of_fits hfit]
  simp only [hst, calculateStatus_eq_quarantined, ne_eq, not_lt]
  by_cases h1 : a.current_score < 20 ∧ 20 ≤ min a.max_achievable_score (a.current_score + bonus)
  · by_cases hqq : a.is_quarantined = true
    · rw [if_pos ⟨h1.1, h1.2, hqq⟩, if_pos h1]
      simp [cacheFind_cacheSet, hw]
    · rw [if_neg (fun hh => hqq hh.2.2), if_pos h1]
      simp [cacheFind_cacheSet, hw, hqq]
  · rw [if_neg (fun hh => h1 ⟨hh.1, hh.2.1⟩), if_neg h1]
    simp [cacheFind_cacheSet, hw]

/-- One call of property P1 that does not set the overflow mark moves the cache as
`ledgerStep` moves the ledger. -/
theorem step_ledger (env : Env) (now : Int) (pkg : String) (op : Op) (e : TrustEngine)
    (hsys : detectInstallSource env pkg ≠ InstallSource.SYSTEM)
    (hop : op.isLedgerCall pkg) (s : Option (Int × Bool))
    (h : LedgerSim (getMaxScore (detectInstallSource env pkg)) pkg e s)
    (hov : (step env now op e).overflowed = false) :
    LedgerSim (getMaxScore (detectInstallSource env pkg)) pkg (step env now op e)
      (ledgerStep (getInitialScore (detectInstallSource env pkg))
        (getMaxScore (detectInstallSource env pkg)) pkg op s) := by
  have hnew := newAppInfo_ledger env now pkg hsys
  have hopen : ∀ e1 : TrustEngine, cacheFind e1.app_cache_ pkg = none →
      LedgerSim (getMaxScore (detectInstallSource env pkg)) pkg (registerApp env now pkg e1).2
        (some (getInitialScore (detectInstallSource env pkg), false)) := by
    intro e1 h1
    refine ⟨newAppInfo env now pkg, ?_, hnew⟩
    simp [registerApp, cacheCount_of_none h1, cacheFind_cacheSet]
  have hframe : ∀ e1 : TrustEngine, cacheFind e1.app_cache_ pkg = cacheFind e.app_cache_ pkg →
      LedgerSim (getMaxScore (detectInstallSource env pkg)) pkg e1 s := by
    intro e1 h1
    cases s with
    | none => exact h1.trans h
    | some s1 =>
      obtain ⟨a, ha, rest⟩ := h
      exact ⟨a, h1.trans ha, rest⟩
  cases op with
  | registerApp p =>
    by_cases hp : p = pkg
    · subst hp
      cases s with
      | none => simpa [ledgerStep, step] using hopen e h
      | some s1 =>
        obtain ⟨a, ha, rest⟩ := h
        have : (registerApp env now p e).2 = e := by
          simp [registerApp, cacheCount_of_find ha]
        simpa [ledgerStep, step, this] using (⟨a, ha, rest⟩ : LedgerSim _ p e (some s1))
    · have hf := hframe _ (registerApp_frame env now p e hp)
      cases s <;> simpa [ledgerStep, step, hp] using hf
  | recordViolation p t c =>
    by_cases hp : p = pkg
    · subst hp
      simp only [step] at hov
      cases s with
      | none =>
        have h1 : cacheFind e.app_cache_ p = none := h
        simp only [ledgerStep, step, if_true, Option.getD_none]
        rw [recordViolation_unknown env now p t c e h1] at hov ⊢
        exact recordViolation_ledger env now p t c _ _ _ (hopen e h1) hov
      | some s1 =>
        simp only [ledgerStep, step, if_true, Option.getD_some]
        exact recordViolation_ledger env now p t c _ _ _ h hov
    · have hf := hframe _ (recordViolation_frame env now p t c e hp)
      simpa [ledgerStep, step, hp] using hf
  | rewardGoodBehavior p b =>
    by_cases hp : p = pkg
    · subst hp
      simp only [step] at hov
      cases s with
      | none =>
        have h1 : cacheFind e.app_cache_ p = none := h
        have : rewardGoodBehavior env now p b e = e := by
          simp [rewardGoodBehavior, cacheCount_of_none h1]
        simpa [ledgerStep, step, this] using h1
      | some s1 =>
        simp only [ledgerStep, step, if_true]
        exact rewardGoodBehavior_ledger env now p b e _ s1 h hov
    · have hf := hframe _ (rewardGoodBehavior_frame env now p b e hp)
      cases s <;> simpa [ledgerStep, step, hp] using hf
  | whitelistApp p =>
    have hp : p ≠ pkg := hop
    have hf := hframe _ (whitelistApp_frame env now p e hp)
    simpa [ledgerStep, step] using hf
  | onPackageAdded p => exact absurd hop (by simp [Op.isLedgerCall])
  | dailyBehaviorCheck => exact absurd hop (by simp [Op.isLedgerCall])
  | unwhitelistApp p => exact absurd hop (by simp [Op.isLedgerCall])
  | quarantineApp p => exact absurd hop (by simp [Op.isLedgerCall])
  | releaseFromQuarantine p => exact absurd hop (by simp [Op.isLedgerCall])
  | enforceByScore p => exact absurd hop (by simp [Op.isLedgerCall])

/-- A sequence of calls of property P1 that ends without the overflow mark moves the cache
as `ledger` moves the ledger. -/
theorem run_ledger (env : Env) (pkg : String)
    (hsys : detectInstallSource env pkg ≠ InstallSource.SYSTEM) (calls : List (Int × Op))
    (hcalls : ∀ c ∈ calls, c.2.isLedgerCall pkg) (e : TrustEngine) (s : Option (Int × Bool))
    (h : LedgerSim (getMaxScore (detectInstallSource env pkg)) pkg e s)
    (hov : (run (calls.map (fun c => (env, c.1, c.2))) e).overflowed = false) :
    LedgerSim (getMaxScore (detectInstallSource env pkg)) pkg
      (run (calls.map (fun c => (env, c.1, c.2))) e)
      (ledger (getInitialScore (detectInstallSource env pkg))
        (getMaxScore (detectInstallSource env pkg)) pkg (calls.map Prod.snd) s) := by
  induction calls generalizing e s with
  | nil => exact h
  | cons c rest ih =>
    simp only [List.map_cons, run, ledger] at hov ⊢
    apply ih
    · intro c2 hc2
      exact hcalls c2 (List.mem_cons_of_mem _ hc2)
    · exact step_ledger env c.1 pkg c.2 e hsys (hcalls c (List.mem_cons_self _ _)) s h
        (run_sticky _ _ hov)
    · exact hov

/-- C4, as amended: for a package that is not a system application and is never
whitelisted, after any sequence of `registerApp`, `recordViolation`, `rewardGoodBehavior`
calls and `whitelistApp` calls on other packages in which no sum `current_score + bonus` or
`current_score + penalty` leaves the range of `int`, the score of the package is the one of
its ledger, in which every call is clamped on its own: each reward gives
`min ceiling (score + bonus)`, each violation gives `max 0 (score + penalty)`, and 0 when
that is below 20 and the package is not quarantined yet; the ledger opens at the initial
score of the install source. -/
theorem C4_score_follows_ledger (env : Env) (pkg : String) (e0 : TrustEngine)
    (calls : List (Int × Op))
    (hnew : cacheFind e0.app_cache_ pkg = none)
    (hsys : detectInstallSource env pkg ≠ InstallSource.SYSTEM)
    (hcalls : ∀ c ∈ calls, c.2.isLedgerCall pkg)
    (hfit : (run (calls.map (fun c => (env, c.1, c.2))) e0).overflowed = false) :
    (cacheFind (run (calls.map (fun c => (env, c.1, c.2))) e0).app_cache_ pkg).map
        (fun a => a.current_score) =
      (ledger (getInitialScore (detectInstallSource env pkg))
        (getMaxScore (detectInstallSource env pkg)) pkg (calls.map Prod.snd) none).map
        Prod.fst := by
  have h := run_ledger env pkg hsys calls hcalls e0 none hnew hfit
  generalize ledger (getInitialScore (detectInstallSource env pkg))
    (getMaxScore (detectInstallSource env pkg)) pkg (calls.map Prod.snd) none = s at h ⊢
  cases s with
  | none =>
    have h1 : cacheFind (run (calls.map (fun c => (env, c.1, c.2))) e0).app_cache_ pkg = none := h
    simp [h1]
  | some s1 =>
    obtain ⟨a, ha, hsc, _⟩ := h
    simp [ha, hsc]

/-- Counterexample to C4 as stated, on `com.shop.app`, registered at 80 with ceiling 95
and never whitelisted.  After a reward of 20 and a penalty of -10 the score is 85, not
`clamp (80 + 20 - 10) 0 95 = 90`: the reward is cut at the ceiling when it is given.  After
penalties of -30, -30, -10 and a reward of 30 the score is 30, not
`clamp (80 + 30 - 30 - 30 - 10) 0 95 = 40`: the third penalty leads to quarantine, which
sets the score to 0.  After a reward of 2147483647 the score is -2147483569, not
`clamp (80 + 2147483647) 0 95 = 95`: the sum leaves the range of `int`. -/
theorem C4_counterexample :
    getInitialScore (detectInstallSource sampleEnv "com.shop.app") = 80 ∧
    getMaxScore (detectInstallSource sampleEnv "com.shop.app") = 95 ∧
    (cacheAt (run (shopCalls.map (fun c => (sampleEnv, c.1, c.2))) emptyEngine).app_cache_
      "com.shop.app").is_whitelisted = false ∧
    (cacheAt (run (shopCalls.map (fun c => (sampleEnv, c.1, c.2))) emptyEngine).app_cache_
      "com.shop.app").current_score = 85 ∧
    (cacheAt (run (shopCalls.map (fun c => (sampleEnv, c.1, c.2))) emptyEngine).app_cache_
      "com.shop.app").current_score ≠ clamp (80 + 20 - 10) 0 95 ∧
    (cacheAt (run (shopRecoveryCalls.map (fun c => (sampleEnv, c.1, c.2)))
      emptyEngine).app_cache_ "com.shop.app").current_score = 30 ∧
    (cacheAt (run (shopRecoveryCalls.map (fun c => (sampleEnv, c.1, c.2)))
      emptyEngine).app_cache_ "com.shop.app").current_score
      ≠ clamp (80 + 30 - 30 - 30 - 10) 0 95 ∧
    (cacheAt (run overflowCalls emptyEngine).app_cache_ "com.shop.app").is_whitelisted
      = false ∧
    (cacheAt (run overflowCalls emptyEngine).app_cache_ "com.shop.app").current_score
      = -2147483569 ∧
    clamp (80 + 2147483647) 0 95 = 95 ∧
    (run overflowCalls emptyEngine).overflowed = true := by
  decide

/-- Witness of C4: the three calls on `com.shop.app` leave the score 85 of its ledger. -/
theorem C4_witness :
    cacheFind emptyEngine.app_cache_ "com.shop.app" = none ∧
    detectInstallSource sampleEnv "com.shop.app" ≠ InstallSource.SYSTEM ∧
    (run (shopCalls.map (fun c => (sampleEnv, c.1, c.2))) emptyEngine).overflowed = false ∧
    (cacheFind (run (shopCalls.map (fun c => (sampleEnv, c.1, c.2))) emptyEngine).app_cache_
      "com.shop.app").map (fun a => a.current_score) = some 85 :=
  ⟨rfl, by decide, by decide,
    C4_score_follows_ledger sampleEnv "com.shop.app" emptyEngine shopCalls rfl (by decide)
      (by
        intro c hc
        simp only [shopCalls, List.mem_cons, List.mem_singleton, List.not_mem_nil,
          or_false] at hc
        rcases hc with rfl | rfl | rfl <;> simp [Op.isLedgerCall])
      (by decide)⟩

/-- C5: for a cached record that is whitelisted or has the status SYSTEM,
`recordViolation` returns the engine as it was: no field of any record, no row of the
violation log, no callback call and no command is added. -/
theorem C5_recordViolation_skips (env : Env) (now : Int) (pkg : String)
    (vtype : ViolationType) (context : String) (e : TrustEngine) (r : AppTrustInfo)
    (hr : cacheFind e.app_cache_ pkg = some r)
    (h : r.is_whitelisted = true ∨ r.status = AppStatus.SYSTEM) :
    recordViolation env now pkg vtype context e = e := by
  rcases h with h | h
  · simp [recordViolation, cacheCount_of_find hr, cacheAt_of_find hr, h]
  · simp [recordViolation, cacheCount_of_find hr, cacheAt_of_find hr, h]

/-- Witness of C5: a violation of the whitelisted `com.tool.app` changes nothing. -/
theorem C5_witness :
    (cacheAt (whitelistApp sampleEnv 5 "com.tool.app" emptyEngine).app_cache_
      "com.tool.app").is_whitelisted = true ∧
    recordViolation sampleEnv 9 "com.tool.app" ViolationType.SMS_READ "inbox"
        (whitelistApp sampleEnv 5 "com.tool.app" emptyEngine)
      = whitelistApp sampleEnv 5 "com.tool.app" emptyEngine :=
  ⟨by decide,
    C5_recordViolation_skips sampleEnv 9 "com.tool.app" ViolationType.SMS_READ "inbox"
      (whitelistApp sampleEnv 5 "com.tool.app" emptyEngine)
      (cacheAt (whitelistApp sampleEnv 5 "com.tool.app" emptyEngine).app_cache_ "com.tool.app")
      (by decide) (Or.inl (by decide))⟩

theorem newAppInfo_install_source (env : Env) (now : Int) (pkg : String) :
    (newAppInfo env now pkg).install_source = detectInstallSource env pkg := by
  unfold newAppInfo
  dsimp only
  split <;> rfl

/-- The install of an unknown package from a source outside the stores: the record of the
new package is quarantined. -/
theorem onPackageAdded_unknown_eq (env : Env) (now : Int) (pkg : String) (e : TrustEngine)
    (hnew : cacheFind e.app_cache_ pkg = none)
    (hsrc : detectInstallSource env pkg = InstallSource.SIDELOAD ∨
      detectInstallSource env pkg = InstallSource.ADB ∨
      detectInstallSource env pkg = InstallSource.UNKNOWN) :
    onPackageAdded env now pkg e =
      (true, { e with
        app_cache_ := cacheSet e.app_cache_ pkg
          { newAppInfo env now pkg with
            is_suspended := true
            network_blocked := if getAppUid env pkg < 0 then false else true
            is_quarantined := true
            status := AppStatus.QUARANTINED
            current_score := 0 }
        commands := e.commands ++ [Command.pm_suspend pkg] ++
          (if getAppUid env pkg < 0 then []
            else [Command.iptables_append_drop (getAppUid env pkg)])
        stats_ := { e.stats_ with quarantined_apps := e.stats_.quarantined_apps + 1 }
        callbacks := e.callbacks ++
          (if e.quarantine_callback_ then [CallbackCall.quarantine pkg true] else []) }) := by
  have hsys : detectInstallSource env pkg ≠ InstallSource.SYSTEM := by
    rcases hsrc with h | h | h <;> simp [h]
  obtain ⟨_, hq, hw, _, _⟩ := newAppInfo_ledger env now pkg hsys
  have hsrc2 := newAppInfo_install_source env now pkg
  have hnb : (newAppInfo env now pkg).network_blocked = false := by
    unfold newAppInfo
    dsimp only
    split <;> rfl
  have hreg : registerApp env now pkg e =
      (newAppInfo env now pkg,
        { e with app_cache_ := cacheSet e.app_cache_ pkg (newAppInfo env now pkg) }) := by
    simp [registerApp, cacheCount_of_none hnew]
  unfold onPackageAdded
  rw [hreg]
  simp only [hsrc2]
  rw [quarantineApp_eq env now pkg _ (newAppInfo env now pkg)
    (by simp only [cacheFind_cacheSet, if_true]) hq hw]
  rcases e with ⟨cache, stats, cb1, cb2, cb3, vlog, cmds, cbs, ovf⟩
  have hor : detectInstallSource env pkg = InstallSource.SIDELOAD ∨
      detectInstallSource env pkg = InstallSource.UNKNOWN ∨
      detectInstallSource env pkg = InstallSource.ADB := by tauto
  cases cb2 <;> simp [hor, cacheSet_cacheSet, hnb, hsrc2]

/-- C6: for a package the engine has not seen, installed by sideload, adb or from an
unknown source, whose uid resolves, `onPackageAdded` leaves the record quarantined and
appends to the command log `pm suspend` of the package followed by the `iptables` drop
rule of its uid. -/
theorem C6_install_quarantines (env : Env) (now : Int) (pkg : String) (e : TrustEngine)
    (hnew : cacheFind e.app_cache_ pkg = none)
    (hsrc : detectInstallSource env pkg = InstallSource.SIDELOAD ∨
      detectInstallSource env pkg = InstallSource.ADB ∨
      detectInstallSource env pkg = InstallSource.UNKNOWN)
    (huid : 0 ≤ getAppUid env pkg) :
    (∃ a, cacheFind (onPackageAdded env now pkg e).2.app_cache_ pkg = some a ∧
      a.is_quarantined = true) ∧
    (onPackageAdded env now pkg e).2.commands =
      e.commands ++
        [Command.pm_suspend pkg, Command.iptables_append_drop (getAppUid env pkg)] := by
  rw [onPackageAdded_unknown_eq env now pkg e hnew hsrc]
  have hu : ¬ getAppUid env pkg < 0 := by omega
  simp [cacheFind_cacheSet, hu]

/-- Witness of C6: the install of the sideloaded `com.evil.app`, uid 10123. -/
theorem C6_witness :
    getAppUid sampleEnv "com.evil.app" = 10123 ∧
    (∃ a, cacheFind (onPackageAdded sampleEnv 1000 "com.evil.app" emptyEngine).2.app_cache_
        "com.evil.app" = some a ∧ a.is_quarantined = true) ∧
    (onPackageAdded sampleEnv 1000 "com.evil.app" emptyEngine).2.commands =
      [Command.pm_suspend "com.evil.app", Command.iptables_append_drop 10123] :=
  ⟨by decide,
    C6_install_quarantines sampleEnv 1000 "com.evil.app" emptyEngine rfl
      (Or.inl (by decide)) (by decide)⟩

/-- C7, as amended: starting from an empty cache, after `onPackageAdded` of a package
classified as sideload the record of the package has score 0, status QUARANTINED and the
flag `is_quarantined` set. -/
theorem C7_sideload_admission (env : Env) (now : Int) (pkg : String) (e : TrustEngine)
    (hempty : e.app_cache_ = [])
    (hsrc : detectInstallSource env pkg = InstallSource.SIDELOAD) :
    ∃ a, cacheFind (onPackageAdded env now pkg e).2.app_cache_ pkg = some a ∧
      a.install_source = InstallSource.SIDELOAD ∧
      a.current_score = 0 ∧
      a.status = AppStatus.QUARANTINED ∧
      a.is_quarantined = true := by
  have hnew : cacheFind e.app_cache_ pkg = none := by
    rw [hempty]
    rfl
  rw [onPackageAdded_unknown_eq env now pkg e hnew (Or.inl hsrc)]
  simp [cacheFind_cacheSet, newAppInfo_install_source, hsrc]

/-- Counterexample to C7 as stated: `com.evil.app` is classified as sideload; after its
install on an empty engine its score is 0, not 20. -/
theorem C7_counterexample :
    emptyEngine.app_cache_ = [] ∧
    detectInstallSource sampleEnv "com.evil.app" = InstallSource.SIDELOAD ∧
    (cacheAt (onPackageAdded sampleEnv 1000 "com.evil.app" emptyEngine).2.app_cache_
      "com.evil.app").current_score = 0 ∧
    (cacheAt (onPackageAdded sampleEnv 1000 "com.evil.app" emptyEngine).2.app_cache_
      "com.evil.app").current_score ≠ 20 := by
  decide

/-- Witness of C7: the install of the sideloaded `com.evil.app` on the empty engine. -/
theorem C7_witness :
    ∃ a, cacheFind (onPackageAdded sampleEnv 1000 "com.evil.app" emptyEngine).2.app_cache_
        "com.evil.app" = some a ∧
      a.install_source = InstallSource.SIDELOAD ∧
      a.current_score = 0 ∧
      a.status = AppStatus.QUARANTINED ∧
      a.is_quarantined = true :=
  C7_sideload_admission sampleEnv 1000 "com.evil.app" emptyEngine rfl (by decide)

/-- C8, as amended: for a whitelisted cached record `enforceByScore` does nothing.  For a
cached record that is neither whitelisted nor quarantined it appends exactly the commands
of the band of the score: none from 80; the revoke of the precise location from 50 to 79;
the revokes of camera, microphone and contacts (not of the location) from 20 to 49; below
20 `pm suspend`, the `iptables` drop rule when the uid resolves, and `am force-stop`, in
that order. -/
theorem C8_enforceByScore_commands (env : Env) (now : Int) (pkg : String) (e : TrustEngine)
    (r : AppTrustInfo) (hr : cacheFind e.app_cache_ pkg = some r) :
    (r.is_whitelisted = true → enforceByScore env now pkg e = e) ∧
    (r.is_whitelisted = false → r.is_quarantined = false →
      (enforceByScore env now pkg e).commands = e.commands ++
        (if 80 ≤ r.current_score then []
         else if 50 ≤ r.current_score then
          [Command.pm_revoke pkg "android.permission.ACCESS_FINE_LOCATION"]
         else if 20 ≤ r.current_score then
          [Command.pm_revoke pkg "android.permission.CAMERA",
            Command.pm_revoke pkg "android.permission.RECORD_AUDIO",
            Command.pm_revoke pkg "android.permission.READ_CONTACTS"]
         else
          [Command.pm_suspend pkg] ++
            (if getAppUid env pkg < 0 then []
              else [Command.iptables_append_drop (getAppUid env pkg)]) ++
            [Command.am_force_stop pkg])) := by
  rw [enforceByScore_eq env now pkg e r hr]
  refine ⟨fun hw => by simp [hw], fun hw hq => ?_⟩
  by_cases h80 : 80 ≤ r.current_score
  · simp [hw, h80]
  by_cases h50 : 50 ≤ r.current_score
  · simp [hw, h80, h50]
  by_cases h20 : 20 ≤ r.current_score
  · simp [hw, h80, h50, h20]
  rw [quarantineApp_eq env now pkg e r hr hq hw]
  simp [hw, h80, h50, h20]

/-- Counterexample to C8 as stated.  `com.shop.app` is cached at score 30, neither
whitelisted nor quarantined: `enforceByScore` appends the revokes of camera, microphone and
contacts only, without the revoke of the precise location.  `com.tool.app` is cached at
score 0, neither whitelisted nor quarantined, and its uid does not resolve:
`enforceByScore` appends `pm suspend` and `am force-stop` only, without a drop rule. -/
theorem C8_counterexample :
    (cacheAt shopEngine.app_cache_ "com.shop.app").current_score = 30 ∧
    (cacheAt shopEngine.app_cache_ "com.shop.app").is_whitelisted = false ∧
    (cacheAt shopEngine.app_cache_ "com.shop.app").is_quarantined = false ∧
    (enforceByScore sampleEnv 40 "com.shop.app" shopEngine).commands =
      shopEngine.commands ++
        [Command.pm_revoke "com.shop.app" "android.permission.CAMERA",
          Command.pm_revoke "com.shop.app" "android.permission.RECORD_AUDIO",
          Command.pm_revoke "com.shop.app" "android.permission.READ_CONTACTS"] ∧
    (enforceByScore sampleEnv 40 "com.shop.app" shopEngine).commands ≠
      shopEngine.commands ++
        [Command.pm_revoke "com.shop.app" "android.permission.ACCESS_FINE_LOCATION",
          Command.pm_revoke "com.shop.app" "android.permission.CAMERA",
          Command.pm_revoke "com.shop.app" "android.permission.RECORD_AUDIO",
          Command.pm_revoke "com.shop.app" "android.permission.READ_CONTACTS"] ∧
    (cacheAt toolEngine.app_cache_ "com.tool.app").current_score = 0 ∧
    (cacheAt toolEngine.app_cache_ "com.tool.app").is_whitelisted = false ∧
    (cacheAt toolEngine.app_cache_ "com.tool.app").is_quarantined = false ∧
    getAppUid sampleEnv "com.tool.app" = -1 ∧
    (enforceByScore sampleEnv 30 "com.tool.app" toolEngine).commands =
      toolEngine.commands ++
        [Command.pm_suspend "com.tool.app", Command.am_force_stop "com.tool.app"] := by
  decide

/-- Witness of C8: `enforceByScore` on `com.shop.app` at score 30. -/
theorem C8_witness :
    cacheFind shopEngine.app_cache_ "com.shop.app"
      = some (cacheAt shopEngine.app_cache_ "com.shop.app") ∧
    (enforceByScore sampleEnv 40 "com.shop.app" shopEngine).commands =
      shopEngine.commands ++
        [Command.pm_revoke "com.shop.app" "android.permission.CAMERA",
          Command.pm_revoke "com.shop.app" "android.permission.RECORD_AUDIO",
          Command.pm_revoke "com.shop.app" "android.permission.READ_CONTACTS"] :=
  ⟨by decide,
    (C8_enforceByScore_commands sampleEnv 40 "com.shop.app" shopEngine
      (cacheAt shopEngine.app_cache_ "com.shop.app") (by decide)).2 (by decide) (by decide)⟩

/-- C9, the code at the failing input: `com.tool.app` is whitelisted before it is
installed from a sideload.  `onPackageAdded` returns true and calls the quarantine callback
with `true`, although `quarantineApp` refused and the record is not quarantined. -/
theorem C9_whitelisted_install_reported :
    detectInstallSource sampleEnv "com.tool.app" = InstallSource.SIDELOAD ∧
    (cacheAt (whitelistApp sampleEnv 5 "com.tool.app" emptyEngine).app_cache_
      "com.tool.app").is_whitelisted = true ∧
    (quarantineApp sampleEnv 9 "com.tool.app"
      (whitelistApp sampleEnv 5 "com.tool.app" emptyEngine)).1 = false ∧
    (onPackageAdded sampleEnv 9 "com.tool.app"
      (whitelistApp sampleEnv 5 "com.tool.app" emptyEngine)).1 = true ∧
    (cacheAt (onPackageAdded sampleEnv 9 "com.tool.app"
      (whitelistApp sampleEnv 5 "com.tool.app" emptyEngine)).2.app_cache_
      "com.tool.app").is_quarantined = false ∧
    (onPackageAdded sampleEnv 9 "com.tool.app"
      (whitelistApp sampleEnv 5 "com.tool.app" emptyEngine)).2.callbacks =
      [CallbackCall.quarantine "com.tool.app" true] := by
  decide

/-- C10, as amended: `rewardGoodBehavior` changes nothing for a package that is not in the
cache and for a record of status SYSTEM.  For any other cached record and any bonus it sets
`last_good_behavior` to `now`, increments `good_behavior_days` and sets the status to
`derive current_score`; when the sum `old + bonus` lies in the range of `int` it sets the
score to `min max_achievable_score (old + bonus)`; when the status was QUARANTINED and is
not QUARANTINED after, the record ends with `is_quarantined = false`, and if the flag was
set the command log has gained `pm unsuspend` followed by the removal of the `iptables`
drop rule (when the uid resolves). -/
theorem C10_rewardGoodBehavior (env : Env) (now : Int) (pkg : String) (bonus : Int)
    (e : TrustEngine) :
    (cacheFind e.app_cache_ pkg = none → rewardGoodBehavior env now pkg bonus e = e) ∧
    (∀ r, cacheFind e.app_cache_ pkg = some r → r.status = AppStatus.SYSTEM →
      rewardGoodBehavior env now pkg bonus e = e) ∧
    (∀ r, cacheFind e.app_cache_ pkg = some r → r.status ≠ AppStatus.SYSTEM →
      ∃ r2, cacheFind (rewardGoodBehavior env now pkg bonus e).app_cache_ pkg = some r2 ∧
        (fitsInt (r.current_score + bonus) = true →
          r2.current_score = min r.max_achievable_score (r.current_score + bonus)) ∧
        r2.last_good_behavior = now ∧
        r2.good_behavior_days = r.good_behavior_days + 1 ∧
        r2.status = derive r2.current_score ∧
        (r.status = AppStatus.QUARANTINED → r2.status ≠ AppStatus.QUARANTINED →
          r2.is_quarantined = false ∧
          (rewardGoodBehavior env now pkg bonus e).commands = e.commands ++
            (if r.is_quarantined = true then
              [Command.pm_unsuspend pkg] ++
                (if getAppUid env pkg < 0 then []
                  else [Command.iptables_delete_drop (getAppUid env pkg)])
             else []))) := by
  refine ⟨fun hnone => ?_, fun r hr hs => ?_, fun r hr hs => ?_⟩
  · simp [rewardGoodBehavior, cacheCount_of_none hnone]
  · simp [rewardGoodBehavior, cacheCount_of_find hr, cacheAt_of_find hr, hs]
  · rw [rewardGoodBehavior_eq env now pkg bonus e r hr hs]
    simp only [derive_eq_calculateStatus]
    have hsum : fitsInt (r.current_score + bonus) = true →
        min r.max_achievable_score (wrapInt (r.current_score + bonus)) =
          min r.max_achievable_score (r.current_score + bonus) := by
      intro hfit
      rw [wrapInt_of_fits hfit]
    generalize min r.max_achievable_score (wrapInt (r.current_score + bonus)) = s1 at hsum ⊢
    by_cases hst : r.status = AppStatus.QUARANTINED
    · by_cases hst2 : calculateStatus s1 = AppStatus.QUARANTINED
      · simpa [hst, hst2, cacheFind_cacheSet] using hsum
      · by_cases hq : r.is_quarantined = true
        · simpa [hst, hst2, hq, cacheFind_cacheSet] using hsum
        · simpa [hst, hst2, hq, cacheFind_cacheSet] using hsum
    · simpa [hst, cacheFind_cacheSet] using hsum

/-- Counterexample to C10 as stated: `com.shop.app` is cached at score 80 with the ceiling
95 and a status that is not SYSTEM; a reward with the bonus 2147483647 should leave the
score `min 95 (80 + 2147483647) = 95`, but the sum lies above the largest `int` and the call
leaves the score -2147483569. -/
theorem C10_counterexample :
    (cacheAt (run (overflowCalls.take 1) emptyEngine).app_cache_
      "com.shop.app").current_score = 80 ∧
    (cacheAt (run (overflowCalls.take 1) emptyEngine).app_cache_
      "com.shop.app").max_achievable_score = 95 ∧
    (cacheAt (run (overflowCalls.take 1) emptyEngine).app_cache_
      "com.shop.app").status = AppStatus.TRUSTED ∧
    (cacheAt (rewardGoodBehavior sampleEnv 20 "com.shop.app" 2147483647
      (run (overflowCalls.take 1) emptyEngine)).app_cache_
      "com.shop.app").current_score = -2147483569 ∧
    min (95 : Int) (80 + 2147483647) = 95 := by
  decide

/-- Witness of C10: a reward of 25 for the quarantined `com.evil.app` (score 0, uid 10123)
gives score 25, ends the quarantine and lifts the suspension and the drop rule. -/
theorem C10_witness :
    (cacheAt evilEngine.app_cache_ "com.evil.app").status = AppStatus.QUARANTINED ∧
    (cacheAt evilEngine.app_cache_ "com.evil.app").is_quarantined = true ∧
    fitsInt ((cacheAt evilEngine.app_cache_ "com.evil.app").current_score + 25) = true ∧
    (∃ r2, cacheFind (rewardGoodBehavior sampleEnv 2000 "com.evil.app" 25
        evilEngine).app_cache_ "com.evil.app" = some r2 ∧
      (fitsInt ((cacheAt evilEngine.app_cache_ "com.evil.app").current_score + 25) = true →
        r2.current_score =
          min (cacheAt evilEngine.app_cache_ "com.evil.app").max_achievable_score
            ((cacheAt evilEngine.app_cache_ "com.evil.app").current_score + 25)) ∧
      r2.last_good_behavior = 2000 ∧
      r2.good_behavior_days =
        (cacheAt evilEngine.app_cache_ "com.evil.app").good_behavior_days + 1 ∧
      r2.status = derive r2.current_score ∧
      ((cacheAt evilEngine.app_cache_ "com.evil.app").status = AppStatus.QUARANTINED →
        r2.status ≠ AppStatus.QUARANTINED →
        r2.is_quarantined = false ∧
        (rewardGoodBehavior sampleEnv 2000 "com.evil.app" 25 evilEngine).commands =
          evilEngine.commands ++
            (if (cacheAt evilEngine.app_cache_ "com.evil.app").is_quarantined = true then
              [Command.pm_unsuspend "com.evil.app"] ++
                (if getAppUid sampleEnv "com.evil.app" < 0 then []
                  else [Command.iptables_delete_drop (getAppUid sampleEnv "com.evil.app")])
             else []))) :=
  ⟨by decide, by decide, by decide,
    (C10_rewardGoodBehavior sampleEnv 2000 "com.evil.app" 25 evilEngine).2.2
      (cacheAt evilEngine.app_cache_ "com.evil.app") (by decide) (by decide)⟩

/-! ## The cache after a call -/

theorem cacheSet_self {c : List (String × AppTrustInfo)} {k : String} {r : AppTrustInfo}
    (h : cacheFind c k = some r) : cacheSet c k r = c := by
  induction c with
  | nil => simp [cacheFind] at h
  | cons hd tl ih =>
    obtain ⟨k1, u⟩ := hd
    by_cases h1 : k1 = k
    · simp [cacheFind, h1] at h
      simp [cacheSet, h1, h]
    · simp [cacheFind, h1] at h
      simp [cacheSet, h1, ih h]

theorem quarantineApp_cache (env : Env) (now : Int) (p : String) (e : TrustEngine)
    (r : AppTrustInfo) (hr : cacheFind e.app_cache_ p = some r) :
    (quarantineApp env now p e).2.app_cache_ = cacheSet e.app_cache_ p (recQuarantine env p r) := by
  unfold recQuarantine
  by_cases hq : r.is_quarantined = true
  · rw [quarantineApp_quarantined env now p e r hr hq]
    simp [hq, cacheSet_self hr]
  · by_cases hw : r.is_whitelisted = true
    · rw [quarantineApp_whitelisted env now p e r hr (by simpa using hq) hw]
      simp [hq, hw, cacheSet_self hr]
    · rw [quarantineApp_eq env now p e r hr (by simpa using hq) (by simpa using hw)]
      simp [hq, hw]

theorem releaseFromQuarantine_cache (env : Env) (p : String) (e : TrustEngine)
    (r : AppTrustInfo) (hr : cacheFind e.app_cache_ p = some r) :
    (releaseFromQuarantine env p e).2.app_cache_ = cacheSet e.app_cache_ p (recRelease env p r) := by
  unfold recRelease
  by_cases hq : r.is_quarantined = true
  · rw [releaseFromQuarantine_eq env p e r hr hq]
    simp [hq]
  · rw [releaseFromQuarantine_free env p e r hr (by simpa using hq)]
    simp [hq, cacheSet_self hr]

theorem enforceByScore_cache (env : Env) (now : Int) (p : String) (e : TrustEngine)
    (r : AppTrustInfo) (hr : cacheFind e.app_cache_ p = some r) :
    (enforceByScore env now p e).app_cache_ = cacheSet e.app_cache_ p (recEnforce env p r) := by
  rw [enforceByScore_eq env now p e r hr]
  unfold recEnforce
  by_cases hw : r.is_whitelisted = true
  · simp [hw, cacheSet_self hr]
  by_cases h80 : r.current_score ≥ 80
  · have : r.current_score ≥ 20 := by omega
    simp [hw, h80, this, cacheSet_self hr]
  by_cases h50 : r.current_score ≥ 50
  · have : r.current_score ≥ 20 := by omega
    simp [hw, h80, h50, this, cacheSet_self hr]
  by_cases h20 : r.current_score ≥ 20
  · simp [hw, h80, h50, h20, cacheSet_self hr]
  simp [hw, h80, h50, h20, quarantineApp_cache env now p e r hr]

theorem recordViolation_skip (env : Env) (now : Int) (p : String) (vtype : ViolationType)
    (context : String) (e : TrustEngine) (r : AppTrustInfo)
    (hr : cacheFind e.app_cache_ p = some r)
    (h : r.is_whitelisted = true ∨ r.status = AppStatus.SYSTEM) :
    recordViolation env now p vtype context e = e := by
  rcases h with h | h <;>
    simp [recordViolation, cacheCount_of_find hr, cacheAt_of_find hr, h]

theorem recordViolation_cache (env : Env) (now : Int) (p : String) (vtype : ViolationType)
    (context : String) (e : TrustEngine) (r : AppTrustInfo)
    (hr : cacheFind e.app_cache_ p = some r) :
    (recordViolation env now p vtype context e).app_cache_
      = cacheSet e.app_cache_ p (recViolation env now p vtype r) := by
  unfold recViolation
  by_cases hw : r.is_whitelisted = true
  · rw [recordViolation_skip env now p vtype context e r hr (Or.inl hw)]
    simp [hw, cacheSet_self hr]
  by_cases hs : r.status = AppStatus.SYSTEM
  · rw [recordViolation_skip env now p vtype context e r hr (Or.inr hs)]
    simp [hw, hs, cacheSet_self hr]
  rw [recordViolation_eq env now p vtype context e r hr (by simpa using hw) hs]
  rw [enforceByScore_cache env now p _
    { r with
      current_score := max 0 (wrapInt (r.current_score + PenaltyMatrix.getPenalty vtype))
      last_violation := now
      violation_count := r.violation_count + 1
      good_behavior_days := 0
      status :=
        calculateStatus (max 0 (wrapInt (r.current_score + PenaltyMatrix.getPenalty vtype))) }
    (by simp only [cacheFind_cacheSet, if_true])]
  simp [hw, hs, cacheSet_cacheSet]

theorem rewardGoodBehavior_cache (env : Env) (now : Int) (p : String) (bonus : Int)
    (e : TrustEngine) (r : AppTrustInfo) (hr : cacheFind e.app_cache_ p = some r) :
    (rewardGoodBehavior env now p bonus e).app_cache_
      = cacheSet e.app_cache_ p (recReward env now p bonus r) := by
  unfold recReward
  by_cases hs : r.status = AppStatus.SYSTEM
  · have : rewardGoodBehavior env now p bonus e = e := by
      simp [rewardGoodBehavior, cacheCount_of_find hr, cacheAt_of_find hr, hs]
    rw [this]
    simp [hs, cacheSet_self hr]
  rw [rewardGoodBehavior_eq env now p bonus e r hr hs]
  generalize min r.max_achievable_score (wrapInt (r.current_score + bonus)) = s1
  unfold recRelease
  by_cases hst : r.status = AppStatus.QUARANTINED <;>
  by_cases hst2 : calculateStatus s1 = AppStatus.QUARANTINED <;>
  by_cases hq : r.is_quarantined = true <;>
    simp [hs, hst, hst2, hq]

theorem whitelistApp_cache (env : Env) (now : Int) (p : String) (e : TrustEngine)
    (r : AppTrustInfo) (hr : cacheFind e.app_cache_ p = some r) :
    (whitelistApp env now p e).app_cache_ = cacheSet e.app_cache_ p (recWhitelist env p r) := by
  unfold whitelistApp recWhitelist
  simp only [cacheCount_of_find hr, cacheAt_of_find hr, cacheModify, one_ne_zero, if_false,
    cacheAt_cacheSet]
  by_cases hq : r.is_quarantined = true
  · rw [if_pos hq]
    rw [releaseFromQuarantine_cache env p _ { r with is_whitelisted := true }
      (by simp only [cacheFind_cacheSet, if_true])]
    simp [cacheSet_cacheSet]
  · rw [if_neg hq]
    simp [recRelease, hq]

theorem unwhitelistApp_cache (p : String) (e : TrustEngine)
    (r : AppTrustInfo) (hr : cacheFind e.app_cache_ p = some r) :
    (unwhitelistApp p e).app_cache_ = cacheSet e.app_cache_ p (recUnwhitelist r) := by
  simp [unwhitelistApp, recUnwhitelist, cacheCount_of_find hr, cacheAt_of_find hr, cacheModify]

theorem registerApp_known (env : Env) (now : Int) (p : String) (e : TrustEngine)
    (r : AppTrustInfo) (hr : cacheFind e.app_cache_ p = some r) :
    registerApp env now p e = (r, e) := by
  simp [registerApp, cacheCount_of_find hr, cacheAt_of_find hr]

theorem registerApp_unknown (env : Env) (now : Int) (p : String) (e : TrustEngine)
    (hnone : cacheFind e.app_cache_ p = none) :
    registerApp env now p e =
      (newAppInfo env now p,
        { e with app_cache_ := cacheSet e.app_cache_ p (newAppInfo env now p) }) := by
  simp [registerApp, cacheCount_of_none hnone]

theorem onPackageAdded_cache (env : Env) (now : Int) (p : String) (e : TrustEngine)
    (r : AppTrustInfo) (hr : cacheFind e.app_cache_ p = some r) :
    (onPackageAdded env now p e).2.app_cache_ = cacheSet e.app_cache_ p (recInstall env p r) := by
  unfold onPackageAdded recInstall
  rw [registerApp_known env now p e r hr]
  by_cases hsrc : r.install_source = InstallSource.SIDELOAD ∨
      r.install_source = InstallSource.UNKNOWN ∨ r.install_source = InstallSource.ADB
  · simp only [hsrc, if_true]
    rw [← quarantineApp_cache env now p e r hr]
    split <;> rfl
  · simp only [hsrc, if_false]
    exact (cacheSet_self hr).symm

/-- The cache after a call on a cached package: the record of the package is replaced by
its normal form. -/
theorem step_cache (env : Env) (now : Int) (op : Op) (p : String) (e : TrustEngine)
    (r : AppTrustInfo) (hp : op.target = some p) (hr : cacheFind e.app_cache_ p = some r) :
    (step env now op e).app_cache_ = cacheSet e.app_cache_ p (recStep env now op r) := by
  cases op with
  | dailyBehaviorCheck => simp [Op.target] at hp
  | registerApp q =>
    obtain rfl : q = p := by simpa [Op.target] using hp
    simp [step, recStep, registerApp_known env now _ e r hr, cacheSet_self hr]
  | onPackageAdded q =>
    obtain rfl : q = p := by simpa [Op.target] using hp
    exact onPackageAdded_cache env now _ e r hr
  | recordViolation q t c =>
    obtain rfl : q = p := by simpa [Op.target] using hp
    exact recordViolation_cache env now _ _ _ e r hr
  | rewardGoodBehavior q b =>
    obtain rfl : q = p := by simpa [Op.target] using hp
    exact rewardGoodBehavior_cache env now _ _ e r hr
  | whitelistApp q =>
    obtain rfl : q = p := by simpa [Op.target] using hp
    exact whitelistApp_cache env now _ e r hr
  | unwhitelistApp q =>
    obtain rfl : q = p := by simpa [Op.target] using hp
    exact unwhitelistApp_cache _ e r hr
  | quarantineApp q =>
    obtain rfl : q = p := by simpa [Op.target] using hp
    exact quarantineApp_cache env now _ e r hr
  | releaseFromQuarantine q =>
    obtain rfl : q = p := by simpa [Op.target] using hp
    exact releaseFromQuarantine_cache env _ e r hr
  | enforceByScore q =>
    obtain rfl : q = p := by simpa [Op.target] using hp
    exact enforceByScore_cache env now _ e r hr

/-- A call that registers unknown packages acts on an unknown package as on the package
freshly registered. -/
theorem step_unknown_registers (env : Env) (now : Int) (op : Op) (p : String)
    (e : TrustEngine) (hp : op.target = some p) (hnone : cacheFind e.app_cache_ p = none)
    (hreg : op.registers = true) :
    step env now op e = step env now op (registerApp env now p e).2 := by
  have h1 : cacheCount (registerApp env now p e).2.app_cache_ p = 1 := by
    simp [registerApp_unknown env now p e hnone, cacheCount_cacheSet]
  have h0 := cacheCount_of_none hnone
  have hfind : cacheFind (registerApp env now p e).2.app_cache_ p = some (newAppInfo env now p) := by
    simp [registerApp_unknown env now p e hnone, cacheFind_cacheSet]
  cases op with
  | dailyBehaviorCheck => simp [Op.target] at hp
  | registerApp q =>
    obtain rfl : q = p := by simpa [Op.target] using hp
    simp only [step]
    rw [registerApp_known env now q _ _ hfind]
  | onPackageAdded q =>
    obtain rfl : q = p := by simpa [Op.target] using hp
    simp only [step]
    conv_lhs => unfold onPackageAdded
    conv_rhs => unfold onPackageAdded
    rw [registerApp_known env now q _ _ hfind]
    simp only [registerApp_unknown env now q e hnone]
  | recordViolation q t c =>
    obtain rfl : q = p := by simpa [Op.target] using hp
    exact recordViolation_unknown env now q t c e hnone
  | whitelistApp q =>
    obtain rfl : q = p := by simpa [Op.target] using hp
    simp only [step]
    conv_lhs => unfold whitelistApp
    conv_rhs => unfold whitelistApp
    simp only [h0, h1, if_true, one_ne_zero, if_false]
  | quarantineApp q =>
    obtain rfl : q = p := by simpa [Op.target] using hp
    simp only [step]
    conv_lhs => unfold quarantineApp
    conv_rhs => unfold quarantineApp
    simp only [h0, h1, if_true, one_ne_zero, if_false]
  | rewardGoodBehavior q b => simp [Op.registers] at hreg
  | unwhitelistApp q => simp [Op.registers] at hreg
  | releaseFromQuarantine q => simp [Op.registers] at hreg
  | enforceByScore q => simp [Op.registers] at hreg

/-- A call that does not register unknown packages does nothing for an unknown package. -/
theorem step_unknown_skips (env : Env) (now : Int) (op : Op) (p : String)
    (e : TrustEngine) (hp : op.target = some p) (hnone : cacheFind e.app_cache_ p = none)
    (hreg : op.registers = false) : step env now op e = e := by
  have h0 := cacheCount_of_none hnone
  cases op with
  | dailyBehaviorCheck => simp [Op.target] at hp
  | registerApp q => simp [Op.registers] at hreg
  | onPackageAdded q => simp [Op.registers] at hreg
  | recordViolation q t c => simp [Op.registers] at hreg
  | whitelistApp q => simp [Op.registers] at hreg
  | quarantineApp q => simp [Op.registers] at hreg
  | rewardGoodBehavior q b =>
    obtain rfl : q = p := by simpa [Op.target] using hp
    simp [step, rewardGoodBehavior, h0]
  | unwhitelistApp q =>
    obtain rfl : q = p := by simpa [Op.target] using hp
    simp [step, unwhitelistApp, h0]
  | releaseFromQuarantine q =>
    obtain rfl : q = p := by simpa [Op.target] using hp
    simp [step, releaseFromQuarantine, h0]
  | enforceByScore q =>
    obtain rfl : q = p := by simpa [Op.target] using hp
    simp [step, enforceByScore, h0]

/-- The cache after a call on an unknown package. -/
theorem step_cache_unknown (env : Env) (now : Int) (op : Op) (p : String)
    (e : TrustEngine) (hp : op.target = some p) (hnone : cacheFind e.app_cache_ p = none) :
    (step env now op e).app_cache_ =
      if op.registers = true then
        cacheSet e.app_cache_ p (recStep env now op (newAppInfo env now p))
      else e.app_cache_ := by
  by_cases hreg : op.registers = true
  · rw [if_pos hreg, step_unknown_registers env now op p e hp hnone hreg]
    rw [step_cache env now op p _ (newAppInfo env now p) hp
      (by simp [registerApp_unknown env now p e hnone, cacheFind_cacheSet])]
    simp [registerApp_unknown env now p e hnone, cacheSet_cacheSet]
  · rw [if_neg hreg, step_unknown_skips env now op p e hp hnone (by simpa using hreg)]

/-- The overflow mark after a call on a cached package. -/
theorem step_overflowed (env : Env) (now : Int) (op : Op) (p : String) (e : TrustEngine)
    (r : AppTrustInfo) (hp : op.target = some p) (hr : cacheFind e.app_cache_ p = some r) :
    (step env now op e).overflowed = (e.overflowed || recOverflow op r) := by
  cases op with
  | dailyBehaviorCheck => simp [Op.target] at hp
  | recordViolation q t c =>
    obtain rfl : q = p := by simpa [Op.target] using hp
    exact recordViolation_overflowed env now _ t c e r hr
  | rewardGoodBehavior q b =>
    obtain rfl : q = p := by simpa [Op.target] using hp
    exact rewardGoodBehavior_overflowed env now _ b e r hr
  | registerApp q => simp [step, recOverflow, registerApp_overflowed]
  | onPackageAdded q => simp [step, recOverflow, onPackageAdded_overflowed]
  | whitelistApp q => simp [step, recOverflow, whitelistApp_overflowed]
  | unwhitelistApp q => simp [step, recOverflow, unwhitelistApp_overflowed]
  | quarantineApp q => simp [step, recOverflow, quarantineApp_overflowed]
  | releaseFromQuarantine q => simp [step, recOverflow, releaseFromQuarantine_overflowed]
  | enforceByScore q => simp [step, recOverflow, enforceByScore_overflowed]

/-- The overflow mark after a call on an unknown package. -/
theorem step_overflowed_unknown (env : Env) (now : Int) (op : Op) (p : String)
    (e : TrustEngine) (hp : op.target = some p) (hnone : cacheFind e.app_cache_ p = none) :
    (step env now op e).overflowed =
      (e.overflowed || (op.registers && recOverflow op (newAppInfo env now p))) := by
  by_cases hreg : op.registers = true
  · rw [step_unknown_registers env now op p e hp hnone hreg,
      step_overflowed env now op p _ (newAppInfo env now p) hp
        (by simp [registerApp_unknown env now p e hnone, cacheFind_cacheSet]),
      registerApp_overflowed, hreg, Bool.true_and]
  · rw [step_unknown_skips env now op p e hp hnone (by simpa using hreg)]
    simp [hreg]

/-- The daily check is a sequence of `rewardGoodBehavior` calls with bonus 2. -/
theorem dailyBehaviorLoop_induction (env : Env) (now : Int) (Q : TrustEngine → Prop)
    (hQ : ∀ p e, Q e → Q (step env now (Op.rewardGoodBehavior p 2) e))
    (keys : List String) (e : TrustEngine) (h : Q e) : Q (dailyBehaviorLoop env now keys e) := by
  induction keys generalizing e with
  | nil => exact h
  | cons key keys ih =>
    unfold dailyBehaviorLoop
    dsimp only
    apply ih
    split
    · exact hQ _ e h
    · exact h

/-- A property of records that holds for a new record and is kept by the normal form of
every call of a set `A` holds in every cache reached by calls of `A`. -/
theorem step_inv (A : Op → Prop) (P : AppTrustInfo → Prop)
    (hfresh : ∀ env now p, P (newAppInfo env now p))
    (hstep : ∀ env now op r, A op → P r → P (recStep env now op r))
    (hdaily : A Op.dailyBehaviorCheck → ∀ p, A (Op.rewardGoodBehavior p 2))
    (env : Env) (now : Int) (op : Op) (hop : A op) (e : TrustEngine)
    (hc : CacheAll P e.app_cache_) : CacheAll P (step env now op e).app_cache_ := by
  have htarget : ∀ (op : Op) (p : String) (e : TrustEngine), A op → op.target = some p →
      CacheAll P e.app_cache_ → CacheAll P (step env now op e).app_cache_ := by
    intro op p e hop hp hc
    cases hfind : cacheFind e.app_cache_ p with
    | some r =>
      rw [step_cache env now op p e r hp hfind]
      exact hc.set p (hstep env now op r hop (hc _ (mem_of_cacheFind hfind)))
    | none =>
      rw [step_cache_unknown env now op p e hp hfind]
      split
      · exact hc.set p (hstep env now op _ hop (hfresh env now p))
      · exact hc
  cases hp : op.target with
  | some p => exact htarget op p e hop hp hc
  | none =>
    cases op <;> simp [Op.target] at hp
    exact dailyBehaviorLoop_induction env now (fun e => CacheAll P e.app_cache_)
      (fun p e he => htarget _ p e (hdaily hop p) rfl he) _ e hc

/-- The invariant along a sequence of calls of the set `A`. -/
theorem run_inv (A : Op → Prop) (P : AppTrustInfo → Prop)
    (hfresh : ∀ env now p, P (newAppInfo env now p))
    (hstep : ∀ env now op r, A op → P r → P (recStep env now op r))
    (hdaily : A Op.dailyBehaviorCheck → ∀ p, A (Op.rewardGoodBehavior p 2))
    (calls : List (Env × Int × Op)) (hcalls : ∀ c ∈ calls, A c.2.2) (e : TrustEngine)
    (hc : CacheAll P e.app_cache_) : CacheAll P (run calls e).app_cache_ := by
  induction calls generalizing e with
  | nil => exact hc
  | cons c rest ih =>
    obtain ⟨env, now, op⟩ := c
    unfold run
    apply ih
    · intro c hcm
      exact hcalls c (List.mem_cons_of_mem _ hcm)
    · exact step_inv A P hfresh hstep hdaily env now op
        (hcalls (env, now, op) (List.mem_cons_self _ _)) e hc

/-- A property of records that holds for a new record and is kept by the normal form of
every call of a set `A` whose sum stays in the range of `int` holds in the cache after a
call of `A` that ends without the overflow mark. -/
theorem step_inv_fit (A : Op → Prop) (P : AppTrustInfo → Prop)
    (hfresh : ∀ env now p, P (newAppInfo env now p))
    (hstep : ∀ env now op r, A op → recOverflow op r = false → P r →
      P (recStep env now op r))
    (hdaily : A Op.dailyBehaviorCheck → ∀ p, A (Op.rewardGoodBehavior p 2))
    (env : Env) (now : Int) (op : Op) (hop : A op) (e : TrustEngine)
    (hc : e.overflowed = false → CacheAll P e.app_cache_)
    (hov : (step env now op e).overflowed = false) :
    CacheAll P (step env now op e).app_cache_ := by
  have htarget : ∀ (op : Op) (p : String) (e : TrustEngine), A op → op.target = some p →
      (e.overflowed = false → CacheAll P e.app_cache_) →
      (step env now op e).overflowed = false →
      CacheAll P (step env now op e).app_cache_ := by
    intro op p e hop hp hc hov
    cases hfind : cacheFind e.app_cache_ p with
    | some r =>
      rw [step_overflowed env now op p e r hp hfind] at hov
      obtain ⟨h1, h2⟩ := Bool.or_eq_false_iff.mp hov
      rw [step_cache env now op p e r hp hfind]
      exact (hc h1).set p (hstep env now op r hop h2 (hc h1 _ (mem_of_cacheFind hfind)))
    | none =>
      rw [step_overflowed_unknown env now op p e hp hfind] at hov
      obtain ⟨h1, h2⟩ := Bool.or_eq_false_iff.mp hov
      rw [step_cache_unknown env now op p e hp hfind]
      split
      · rename_i hreg
        rw [hreg, Bool.true_and] at h2
        exact (hc h1).set p (hstep env now op _ hop h2 (hfresh env now p))
      · exact hc h1
  cases hp : op.target with
  | some p => exact htarget op p e hop hp hc hov
  | none =>
    cases op <;> simp [Op.target] at hp
    exact dailyBehaviorLoop_induction env now
      (fun e => e.overflowed = false → CacheAll P e.app_cache_)
      (fun p e he hov2 => htarget _ p e (hdaily hop p) rfl he hov2) _ e hc hov

/-- The invariant along a sequence of calls of the set `A` that ends without the overflow
mark. -/
theorem run_inv_fit (A : Op → Prop) (P : AppTrustInfo → Prop)
    (hfresh : ∀ env now p, P (newAppInfo env now p))
    (hstep : ∀ env now op r, A op → recOverflow op r = false → P r →
      P (recStep env now op r))
    (hdaily : A Op.dailyBehaviorCheck → ∀ p, A (Op.rewardGoodBehavior p 2))
    (calls : List (Env × Int × Op)) (hcalls : ∀ c ∈ calls, A c.2.2) (e : TrustEngine)
    (hc : e.overflowed = false → CacheAll P e.app_cache_)
    (hov : (run calls e).overflowed = false) : CacheAll P (run calls e).app_cache_ := by
  induction calls generalizing e with
  | nil => exact hc hov
  | cons c rest ih =>
    obtain ⟨env, now, op⟩ := c
    unfold run at hov ⊢
    apply ih
    · intro c hcm
      exact hcalls c (List.mem_cons_of_mem _ hcm)
    · exact step_inv_fit A P hfresh hstep hdaily env now op
        (hcalls (env, now, op) (List.mem_cons_self _ _)) e hc
    · exact hov

/-- A property of records that holds for a new record, excludes a sum outside the range of
`int` for every call of a set `A`, and is kept by the normal form of these calls, holds in
the cache after a call of `A`, which does not set the overflow mark. -/
theorem step_inv_safe (A : Op → Prop) (P : AppTrustInfo → Prop)
    (hfresh : ∀ env now p, P (newAppInfo env now p))
    (hstep : ∀ env now op r, A op → P r →
      recOverflow op r = false ∧ P (recStep env now op r))
    (hdaily : A Op.dailyBehaviorCheck → ∀ p, A (Op.rewardGoodBehavior p 2))
    (env : Env) (now : Int) (op : Op) (hop : A op) (e : TrustEngine)
    (hc : CacheAll P e.app_cache_ ∧ e.overflowed = false) :
    CacheAll P (step env now op e).app_cache_ ∧ (step env now op e).overflowed = false := by
  have htarget : ∀ (op : Op) (p : String) (e : TrustEngine), A op → op.target = some p →
      CacheAll P e.app_cache_ ∧ e.overflowed = false →
      CacheAll P (step env now op e).app_cache_ ∧ (step env now op e).overflowed = false := by
    intro op p e hop hp hc
    cases hfind : cacheFind e.app_cache_ p with
    | some r =>
      have h := hstep env now op r hop (hc.1 _ (mem_of_cacheFind hfind))
      rw [step_overflowed env now op p e r hp hfind, step_cache env now op p e r hp hfind,
        hc.2, h.1]
      exact ⟨hc.1.set p h.2, rfl⟩
    | none =>
      have h := hstep env now op (newAppInfo env now p) hop (hfresh env now p)
      rw [step_overflowed_unknown env now op p e hp hfind,
        step_cache_unknown env now op p e hp hfind, hc.2, h.1]
      refine ⟨?_, by simp⟩
      split
      · exact hc.1.set p h.2
      · exact hc.1
  cases hp : op.target with
  | some p => exact htarget op p e hop hp hc
  | none =>
    cases op <;> simp [Op.target] at hp
    exact dailyBehaviorLoop_induction env now
      (fun e => CacheAll P e.app_cache_ ∧ e.overflowed = false)
      (fun p e he => htarget _ p e (hdaily hop p) rfl he) _ e hc

/-- Along a sequence of calls of such a set `A` the invariant holds and the overflow mark
is never set. -/
theorem run_inv_safe (A : Op → Prop) (P : AppTrustInfo → Prop)
    (hfresh : ∀ env now p, P (newAppInfo env now p))
    (hstep : ∀ env now op r, A op → P r →
      recOverflow op r = false ∧ P (recStep env now op r))
    (hdaily : A Op.dailyBehaviorCheck → ∀ p, A (Op.rewardGoodBehavior p 2))
    (calls : List (Env × Int × Op)) (hcalls : ∀ c ∈ calls, A c.2.2) (e : TrustEngine)
    (hc : CacheAll P e.app_cache_ ∧ e.overflowed = false) :
    CacheAll P (run calls e).app_cache_ ∧ (run calls e).overflowed = false := by
  induction calls generalizing e with
  | nil => exact hc
  | cons c rest ih =>
    obtain ⟨env, now, op⟩ := c
    unfold run
    apply ih
    · intro c hcm
      exact hcalls c (List.mem_cons_of_mem _ hcm)
    · exact step_inv_safe A P hfresh hstep hdaily env now op
        (hcalls (env, now, op) (List.mem_cons_self _ _)) e hc

/-- The score of a record stays between 0 and its ceiling under the normal form of a call
with no negative bonus whose sum lies in the range of `int`. -/
theorem recStep_score_bounds (env : Env) (now : Int) (op : Op) (r : AppTrustInfo)
    (hop : op.bonusNonneg) (hov : recOverflow op r = false)
    (h : 0 ≤ r.current_score ∧ r.current_score ≤ r.max_achievable_score) :
    0 ≤ (recStep env now op r).current_score ∧
      (recStep env now op r).current_score ≤ (recStep env now op r).max_achievable_score := by
  cases op with
  | recordViolation q t c =>
    by_cases hw : r.is_whitelisted = true
    · simpa [recStep, recViolation, hw] using h
    by_cases hs : r.status = AppStatus.SYSTEM
    · simpa [recStep, recViolation, hw, hs] using h
    have hfit := recOverflow_violation (by simpa using hw) hs hov
    have hpen := getPenalty_nonpos t
    simp only [recStep, recViolation, recEnforce, recQuarantine, wrapInt_of_fits hfit]
    generalize PenaltyMatrix.getPenalty t = pen at hpen ⊢
    clear hfit hov
    split_ifs <;> (try dsimp only) <;> omega
  | rewardGoodBehavior q b =>
    by_cases hs : r.status = AppStatus.SYSTEM
    · simpa [recStep, recReward, hs] using h
    have hfit := recOverflow_reward hs hov
    have hb : 0 ≤ b := hop
    simp only [recStep, recReward, recRelease, wrapInt_of_fits hfit]
    clear hfit hov
    split_ifs <;> (try dsimp only) <;> omega
  | registerApp q => exact h
  | dailyBehaviorCheck => exact h
  | unwhitelistApp q => exact h
  | quarantineApp q =>
    simp only [recStep, recQuarantine]
    split_ifs <;> (try dsimp only) <;> omega
  | releaseFromQuarantine q =>
    simp only [recStep, recRelease]
    split_ifs <;> (try dsimp only) <;> omega
  | whitelistApp q =>
    simp only [recStep, recWhitelist, recRelease]
    split_ifs <;> (try dsimp only) <;> omega
  | enforceByScore q =>
    simp only [recStep, recEnforce, recQuarantine]
    split_ifs <;> (try dsimp only) <;> omega
  | onPackageAdded q =>
    simp only [recStep, recInstall, recQuarantine]
    split_ifs <;> (try dsimp only) <;> omega

/-- The record of a new package has a score between 0 and its ceiling, which is at most
100. -/
theorem newAppInfo_score_bounds (env : Env) (now : Int) (p : String) :
    0 ≤ (newAppInfo env now p).current_score ∧
    (newAppInfo env now p).current_score ≤ (newAppInfo env now p).max_achievable_score ∧
    (newAppInfo env now p).max_achievable_score ≤ 100 := by
  unfold newAppInfo
  generalize detectInstallSource env p = src
  cases src <;> simp [getInitialScore, getMaxScore, INITIAL_SCORES, MAX_SCORES, calculateStatus]

/-- No sum leaves the range of `int` in a sequence of calls, from an empty cache, whose
bonuses lie between 0 and 2147483547: the scores stay between 0 and 100. -/
theorem run_small_bonus_fits (e0 : TrustEngine) (calls : List (Env × Int × Op))
    (hempty : e0.app_cache_ = []) (hov : e0.overflowed = false)
    (hbonus : ∀ c ∈ calls, ∀ q b, c.2.2 = Op.rewardGoodBehavior q b → 0 ≤ b ∧ b ≤ 2147483547) :
    (run calls e0).overflowed = false := by
  refine (run_inv_safe (fun op => ∀ q b, op = Op.rewardGoodBehavior q b → 0 ≤ b ∧ b ≤ 2147483547)
    (fun r => 0 ≤ r.current_score ∧ r.current_score ≤ r.max_achievable_score ∧
      r.max_achievable_score ≤ 100)
    (fun env now p => newAppInfo_score_bounds env now p) ?_ ?_ calls hbonus e0
    ⟨by intro q hq; simp [hempty] at hq, hov⟩).2
  · intro env now op r hop h
    have hfree : recOverflow op r = false := by
      cases op with
      | recordViolation q t c =>
        have h1 := getPenalty_nonpos t
        have h2 := getPenalty_ge t
        simp only [recOverflow, fitsInt, Bool.and_eq_false_imp, Bool.not_eq_eq_eq_not,
          Bool.not_true, Bool.not_false, decide_eq_true_eq, Bool.and_eq_true]
        intro _
        constructor <;> omega
      | rewardGoodBehavior q b =>
        have h1 := hop q b rfl
        simp only [recOverflow, fitsInt, Bool.and_eq_false_imp, Bool.not_eq_eq_eq_not,
          Bool.not_true, Bool.not_false, decide_eq_true_eq, Bool.and_eq_true]
        intro _
        constructor <;> omega
      | registerApp q => rfl
      | dailyBehaviorCheck => rfl
      | unwhitelistApp q => rfl
      | quarantineApp q => rfl
      | releaseFromQuarantine q => rfl
      | whitelistApp q => rfl
      | enforceByScore q => rfl
      | onPackageAdded q => rfl
    refine ⟨hfree, ?_⟩
    have hb : op.bonusNonneg := by
      cases op <;> simp only [Op.bonusNonneg]
      rename_i q b
      exact (hop q b rfl).1
    have hk := recStep_score_bounds env now op r hb hfree ⟨h.1, h.2.1⟩
    refine ⟨hk.1, hk.2, ?_⟩
    have hmax : (recStep env now op r).max_achievable_score = r.max_achievable_score := by
      cases op <;> simp only [recStep, recViolation, recReward, recRelease, recEnforce,
        recQuarantine, recWhitelist, recUnwhitelist, recInstall] <;> split_ifs <;> rfl
    rw [hmax]
    exact h.2.2
  · intro _ p q b hq
    cases hq
    exact ⟨by decide, by decide⟩

/-- C1, as amended: in every state reached from an empty cache by calls of the public
operations, the bonus of `rewardGoodBehavior` never negative, in which no sum
`current_score + bonus` or `current_score + penalty` left the range of `int`, every cached
record has `0 <= current_score <= max_achievable_score`. -/
theorem C1_score_within_bounds (e0 : TrustEngine) (calls : List (Env × Int × Op))
    (hempty : e0.app_cache_ = []) (hbonus : ∀ c ∈ calls, c.2.2.bonusNonneg)
    (hfit : (run calls e0).overflowed = false)
    (p : String × AppTrustInfo) (hp : p ∈ (run calls e0).app_cache_) :
    0 ≤ p.2.current_score ∧ p.2.current_score ≤ p.2.max_achievable_score :=
  run_inv_fit (fun op => op.bonusNonneg)
    (fun a => 0 ≤ a.current_score ∧ a.current_score ≤ a.max_achievable_score)
    (fun env now q =>
      ⟨(newAppInfo_score_bounds env now q).1, (newAppInfo_score_bounds env now q).2.1⟩)
    (fun env now op r hop hov h => recStep_score_bounds env now op r hop hov h)
    (fun _ _ => by simp [Op.bonusNonneg]) calls hbonus e0
    (fun _ => by intro q hq; simp [hempty] at hq) hfit p hp

/-- Counterexample to C1 as stated: `com.shop.app` is registered on the empty engine at
score 80 and rewarded with the bonus 2147483647, which is not negative; the sum lies above
the largest `int`, and the record is left with the score -2147483569, below 0. -/
theorem C1_counterexample :
    emptyEngine.app_cache_ = [] ∧
    (∀ c ∈ overflowCalls, c.2.2.bonusNonneg) ∧
    ("com.shop.app", cacheAt (run overflowCalls emptyEngine).app_cache_ "com.shop.app") ∈
      (run overflowCalls emptyEngine).app_cache_ ∧
    (cacheAt (run overflowCalls emptyEngine).app_cache_ "com.shop.app").current_score
      = -2147483569 ∧
    (cacheAt (run overflowCalls emptyEngine).app_cache_ "com.shop.app").current_score < 0 ∧
    (run overflowCalls emptyEngine).overflowed = true := by
  refine ⟨rfl, ?_, by decide, by decide, by decide, by decide⟩
  intro c hc
  simp only [overflowCalls, List.mem_cons, List.mem_singleton, List.not_mem_nil,
    or_false] at hc
  rcases hc with rfl | rfl <;> simp [Op.bonusNonneg]

/-- Witness of C1: after the install of the sideloaded `com.evil.app` and a reward of 5 its
record is in the cache with a score between 0 and its ceiling 70. -/
theorem C1_witness :
    emptyEngine.app_cache_ = [] ∧
    (run sampleCalls emptyEngine).overflowed = false ∧
    ("com.evil.app", cacheAt (run sampleCalls emptyEngine).app_cache_ "com.evil.app") ∈
      (run sampleCalls emptyEngine).app_cache_ ∧
    0 ≤ (cacheAt (run sampleCalls emptyEngine).app_cache_ "com.evil.app").current_score ∧
    (cacheAt (run sampleCalls emptyEngine).app_cache_ "com.evil.app").current_score ≤ 70 := by
  have hmem : ("com.evil.app", cacheAt (run sampleCalls emptyEngine).app_cache_ "com.evil.app") ∈
      (run sampleCalls emptyEngine).app_cache_ := by decide
  refine ⟨rfl, by decide, hmem, ?_⟩
  exact C1_score_within_bounds emptyEngine sampleCalls rfl
    (by
      intro c hc
      simp only [sampleCalls, List.mem_cons, List.mem_singleton, List.not_mem_nil,
        or_false] at hc
      rcases hc with rfl | rfl <;> simp [Op.bonusNonneg])
    (by decide) _ hmem

/-- The record of a new package: score at least 20, ceiling at least 20, neither
quarantined nor whitelisted. -/
theorem newAppInfo_free (env : Env) (now : Int) (p : String) :
    20 ≤ (newAppInfo env now p).current_score ∧
    20 ≤ (newAppInfo env now p).max_achievable_score ∧
    (newAppInfo env now p).is_quarantined = false ∧
    (newAppInfo env now p).is_whitelisted = false ∧
    (newAppInfo env now p).violation_count = 0 := by
  unfold newAppInfo
  generalize detectInstallSource env p = src
  cases src <;> simp [getInitialScore, getMaxScore, INITIAL_SCORES, MAX_SCORES, calculateStatus]

/-- A record flagged as quarantined has the status QUARANTINED, a score below 20 and is not
whitelisted: kept by the normal form of every call whose sum lies in the range of `int`. -/
theorem recStep_flag_sound (env : Env) (now : Int) (op : Op) (r : AppTrustInfo)
    (hov : recOverflow op r = false)
    (h : r.is_quarantined = true →
      r.status = AppStatus.QUARANTINED ∧ r.current_score < 20 ∧ r.is_whitelisted = false) :
    (recStep env now op r).is_quarantined = true →
      (recStep env now op r).status = AppStatus.QUARANTINED ∧
      (recStep env now op r).current_score < 20 ∧
      (recStep env now op r).is_whitelisted = false := by
  cases op with
  | recordViolation q t c =>
    by_cases hw : r.is_whitelisted = true
    · simpa [recStep, recViolation, hw] using h
    by_cases hs : r.status = AppStatus.SYSTEM
    · simpa [recStep, recViolation, hw, hs] using h
    have hfit := recOverflow_violation (by simpa using hw) hs hov
    have hpen := getPenalty_nonpos t
    simp only [recStep, recViolation, recEnforce, recQuarantine, wrapInt_of_fits hfit]
    generalize PenaltyMatrix.getPenalty t = pen at hpen ⊢
    clear hfit hov
    split_ifs <;> simp_all [calculateStatus_eq_quarantined]
    intro hq0
    have := (h hq0).2
    omega
  | rewardGoodBehavior q b =>
    by_cases hs : r.status = AppStatus.SYSTEM
    · simpa [recStep, recReward, hs] using h
    have hfit := recOverflow_reward hs hov
    simp only [recStep, recReward, recRelease, wrapInt_of_fits hfit]
    clear hfit hov
    split_ifs <;> simp_all [calculateStatus_eq_quarantined]
    rename_i himp
    intro hq0
    by_cases hm : 20 ≤ r.max_achievable_score
    · exact Or.inr (himp (h hq0).1 hm)
    · exact Or.inl (by omega)
  | registerApp q => exact h
  | dailyBehaviorCheck => exact h
  | unwhitelistApp q =>
    simp only [recStep, recUnwhitelist]
    simp_all
  | quarantineApp q =>
    simp only [recStep, recQuarantine]
    split_ifs <;> simp_all
  | releaseFromQuarantine q =>
    simp only [recStep, recRelease]
    split_ifs <;> simp_all
  | whitelistApp q =>
    simp only [recStep, recWhitelist, recRelease]
    split_ifs <;> simp_all
  | enforceByScore q =>
    simp only [recStep, recEnforce, recQuarantine]
    split_ifs <;> simp_all
  | onPackageAdded q =>
    simp only [recStep, recInstall, recQuarantine]
    split_ifs <;> simp_all

/-- Without `unwhitelistApp`, direct quarantine calls, negative bonuses and sums outside
the range of `int`, a record keeps a ceiling of at least 20 and, while it is off the
whitelist, is flagged as quarantined whenever its score is below 20. -/
theorem recStep_flag_complete (env : Env) (now : Int) (op : Op) (r : AppTrustInfo)
    (hop1 : op.isLifecycleCall) (hop2 : op.isPlainCall)
    (hov : recOverflow op r = false)
    (hK : r.is_whitelisted = false → r.current_score < 20 → r.is_quarantined = true)
    (hM : 20 ≤ r.max_achievable_score) :
    ((recStep env now op r).is_whitelisted = false →
      (recStep env now op r).current_score < 20 →
      (recStep env now op r).is_quarantined = true) ∧
    20 ≤ (recStep env now op r).max_achievable_score := by
  cases op with
  | recordViolation q t c =>
    by_cases hw : r.is_whitelisted = true
    · simpa [recStep, recViolation, hw] using hM
    by_cases hs : r.status = AppStatus.SYSTEM
    · have hsame : recViolation env now q t r = r := by simp [recViolation, hs]
      simp only [recStep, hsame]
      exact ⟨hK, hM⟩
    have hfit := recOverflow_violation (by simpa using hw) hs hov
    simp only [recStep, recViolation, recEnforce, recQuarantine, wrapInt_of_fits hfit]
    generalize PenaltyMatrix.getPenalty t = pen
    clear hfit hov
    split_ifs <;> simp_all
  | rewardGoodBehavior q b =>
    by_cases hs : r.status = AppStatus.SYSTEM
    · have hsame : recReward env now q b r = r := by simp [recReward, hs]
      simp only [recStep, hsame]
      exact ⟨hK, hM⟩
    have hfit := recOverflow_reward hs hov
    have hb : 0 ≤ b := hop2
    simp only [recStep, recReward, recRelease, wrapInt_of_fits hfit]
    clear hfit hov
    split_ifs <;> simp_all [calculateStatus_eq_quarantined]
    intro hw hlow
    apply hK hw
    omega
  | registerApp q => exact ⟨hK, hM⟩
  | dailyBehaviorCheck => exact ⟨hK, hM⟩
  | whitelistApp q =>
    simp only [recStep, recWhitelist, recRelease]
    split_ifs <;> simp_all
  | onPackageAdded q =>
    simp only [recStep, recInstall, recQuarantine]
    split_ifs <;> simp_all
  | quarantineApp q => exact absurd hop1 (by simp [Op.isLifecycleCall])
  | releaseFromQuarantine q => exact absurd hop1 (by simp [Op.isLifecycleCall])
  | enforceByScore q => exact absurd hop1 (by simp [Op.isLifecycleCall])
  | unwhitelistApp q => exact absurd hop2 (by simp [Op.isPlainCall])

/-- A record flagged as quarantined is not whitelisted: kept by the normal form of every
call. -/
theorem recStep_flag_off_whitelist (env : Env) (now : Int) (op : Op) (r : AppTrustInfo)
    (h : r.is_quarantined = true → r.is_whitelisted = false) :
    (recStep env now op r).is_quarantined = true →
      (recStep env now op r).is_whitelisted = false := by
  cases op with
  | recordViolation q t c =>
    simp only [recStep, recViolation, recEnforce, recQuarantine]
    split_ifs <;> simp_all
  | rewardGoodBehavior q b =>
    simp only [recStep, recReward, recRelease]
    split_ifs <;> simp_all
  | registerApp q => exact h
  | dailyBehaviorCheck => exact h
  | unwhitelistApp q =>
    simp only [recStep, recUnwhitelist]
    simp_all
  | quarantineApp q =>
    simp only [recStep, recQuarantine]
    split_ifs <;> simp_all
  | releaseFromQuarantine q =>
    simp only [recStep, recRelease]
    split_ifs <;> simp_all
  | whitelistApp q =>
    simp only [recStep, recWhitelist, recRelease]
    split_ifs <;> simp_all
  | enforceByScore q =>
    simp only [recStep, recEnforce, recQuarantine]
    split_ifs <;> simp_all
  | onPackageAdded q =>
    simp only [recStep, recInstall, recQuarantine]
    split_ifs <;> simp_all

/-- In every cache reached from an empty one by calls of the ten operations, a record
flagged as quarantined is not whitelisted. -/
theorem run_flag_off_whitelist (e0 : TrustEngine) (calls : List (Env × Int × Op))
    (hempty : e0.app_cache_ = []) :
    CacheAll (fun r => r.is_quarantined = true → r.is_whitelisted = false)
      (run calls e0).app_cache_ :=
  run_inv (fun _ => True)
    (fun r => r.is_quarantined = true → r.is_whitelisted = false)
    (fun env now q hf => by simp [(newAppInfo_free env now q).2.2.1] at hf)
    (fun env now op r _ hr => recStep_flag_off_whitelist env now op r hr)
    (fun _ _ => trivial) calls (fun _ _ => trivial) e0
    (by intro q hq; simp [hempty] at hq)

/-- C12, as amended: in every state reached from an empty cache by `registerApp`,
`onPackageAdded`, `recordViolation`, `rewardGoodBehavior`, `dailyBehaviorCheck`,
`whitelistApp` and `unwhitelistApp`, a record with `is_quarantined = true` is not
whitelisted, and it has a score below 20 when no sum `current_score + bonus` or
`current_score + penalty` left the range of `int`.  The converse holds in the states
reached without such a sum, without an `unwhitelistApp` call and without a negative bonus:
there a record with a score below 20 that is not whitelisted has `is_quarantined = true`. -/
theorem C12_quarantine_flag (e0 : TrustEngine) (calls : List (Env × Int × Op))
    (hempty : e0.app_cache_ = []) (hcalls : ∀ c ∈ calls, c.2.2.isLifecycleCall)
    (p : String × AppTrustInfo) (hp : p ∈ (run calls e0).app_cache_) :
    (p.2.is_quarantined = true → p.2.is_whitelisted = false) ∧
    ((run calls e0).overflowed = false →
      (p.2.is_quarantined = true → p.2.current_score < 20) ∧
      ((∀ c ∈ calls, c.2.2.isPlainCall) →
        p.2.current_score < 20 ∧ p.2.is_whitelisted = false → p.2.is_quarantined = true)) := by
  refine ⟨run_flag_off_whitelist e0 calls hempty p hp, fun hfit => ⟨fun hq => ?_, ?_⟩⟩
  · have h := run_inv_fit (fun _ => True)
      (fun r => r.is_quarantined = true →
        r.status = AppStatus.QUARANTINED ∧ r.current_score < 20 ∧ r.is_whitelisted = false)
      (fun env now q hf => by simp [(newAppInfo_free env now q).2.2.1] at hf)
      (fun env now op r _ hov hr => recStep_flag_sound env now op r hov hr)
      (fun _ _ => trivial) calls (fun _ _ => trivial) e0
      (fun _ => by intro q hq; simp [hempty] at hq) hfit p hp hq
    exact h.2.1
  · intro hplain hlow
    have h := run_inv_fit (fun op => op.isLifecycleCall ∧ op.isPlainCall)
      (fun r => (r.is_whitelisted = false → r.current_score < 20 → r.is_quarantined = true) ∧
        20 ≤ r.max_achievable_score)
      (fun env now q => by
        obtain ⟨h1, h2, h3, h4, _⟩ := newAppInfo_free env now q
        exact ⟨fun _ hl => by omega, h2⟩)
      (fun env now op r hop hov hr =>
        recStep_flag_complete env now op r hop.1 hop.2 hov hr.1 hr.2)
      (fun _ q => ⟨trivial, by simp [Op.isPlainCall]⟩) calls
      (fun c hc => ⟨hcalls c hc, hplain c hc⟩) e0
      (fun _ => by intro q hq; simp [hempty] at hq) hfit p hp
    exact h.1 hlow.2 hlow.1

/-- Counterexample to C12 as stated, in four runs from the empty engine.  With
`unwhitelistApp`: `com.evil.app` is quarantined at its install (score 0), whitelisted,
which releases it, and taken off the whitelist again; its record then has a score below 20
and is not whitelisted, but `is_quarantined` is false.  With a negative bonus:
`com.shop.app` is registered at 80 and given the bonus -65; its record has the score 15 and
is not whitelisted, but `is_quarantined` is false.  With a sum above the largest `int`:
`com.shop.app` is registered at 80 and given the bonus 2147483647; its record has the score
-2147483569 and is not whitelisted, but `is_quarantined` is false.  With a sum below the
smallest `int`: `com.evil.app` is quarantined at its install, given the bonus -2147483638
and charged a penalty of -30; its record has `is_quarantined = true` and the score
2147483628. -/
theorem C12_counterexample :
    emptyEngine.app_cache_ = [] ∧
    ((cacheAt (run whitelistRoundTrip emptyEngine).app_cache_ "com.evil.app").current_score
        = 0 ∧
      (cacheAt (run whitelistRoundTrip emptyEngine).app_cache_ "com.evil.app").is_whitelisted
        = false ∧
      (cacheAt (run whitelistRoundTrip emptyEngine).app_cache_ "com.evil.app").is_quarantined
        = false ∧
      ("com.evil.app", cacheAt (run whitelistRoundTrip emptyEngine).app_cache_ "com.evil.app")
        ∈ (run whitelistRoundTrip emptyEngine).app_cache_ ∧
      (run whitelistRoundTrip emptyEngine).overflowed = false) ∧
    ((cacheAt (run negativeBonusCalls emptyEngine).app_cache_ "com.shop.app").current_score
        = 15 ∧
      (cacheAt (run negativeBonusCalls emptyEngine).app_cache_ "com.shop.app").is_whitelisted
        = false ∧
      (cacheAt (run negativeBonusCalls emptyEngine).app_cache_ "com.shop.app").is_quarantined
        = false ∧
      ("com.shop.app", cacheAt (run negativeBonusCalls emptyEngine).app_cache_ "com.shop.app")
        ∈ (run negativeBonusCalls emptyEngine).app_cache_ ∧
      (run negativeBonusCalls emptyEngine).overflowed = false) ∧
    ((cacheAt (run overflowCalls emptyEngine).app_cache_ "com.shop.app").current_score
        = -2147483569 ∧
      (cacheAt (run overflowCalls emptyEngine).app_cache_ "com.shop.app").is_whitelisted
        = false ∧
      (cacheAt (run overflowCalls emptyEngine).app_cache_ "com.shop.app").is_quarantined
        = false ∧
      ("com.shop.app", cacheAt (run overflowCalls emptyEngine).app_cache_ "com.shop.app")
        ∈ (run overflowCalls emptyEngine).app_cache_) ∧
    ((cacheAt (run underflowCalls emptyEngine).app_cache_ "com.evil.app").is_quarantined
        = true ∧
      (cacheAt (run underflowCalls emptyEngine).app_cache_ "com.evil.app").current_score
        = 2147483628 ∧
      ("com.evil.app", cacheAt (run underflowCalls emptyEngine).app_cache_ "com.evil.app")
        ∈ (run underflowCalls emptyEngine).app_cache_) := by
  decide

/-- Witness of C12: after the install of `com.evil.app` and a reward of 5, two calls that
are no `unwhitelistApp`, give no negative bonus and whose sums lie in the range of `int`,
its record has score 5, is off the whitelist and is flagged as quarantined. -/
theorem C12_witness :
    emptyEngine.app_cache_ = [] ∧
    (run sampleCalls emptyEngine).overflowed = false ∧
    (cacheAt (run sampleCalls emptyEngine).app_cache_ "com.evil.app").is_whitelisted
      = false ∧
    (cacheAt (run sampleCalls emptyEngine).app_cache_ "com.evil.app").current_score < 20 ∧
    (cacheAt (run sampleCalls emptyEngine).app_cache_ "com.evil.app").is_quarantined
      = true := by
  have h := C12_quarantine_flag emptyEngine sampleCalls rfl
    (by
      intro c hc
      simp only [sampleCalls, List.mem_cons, List.mem_singleton, List.not_mem_nil,
        or_false] at hc
      rcases hc with rfl | rfl <;> simp [Op.isLifecycleCall])
    ("com.evil.app", cacheAt (run sampleCalls emptyEngine).app_cache_ "com.evil.app")
    (by decide)
  have hplain : ∀ c ∈ sampleCalls, c.2.2.isPlainCall := by
    intro c hc
    simp only [sampleCalls, List.mem_cons, List.mem_singleton, List.not_mem_nil,
      or_false] at hc
    rcases hc with rfl | rfl <;> simp [Op.isPlainCall]
  have hfit : (run sampleCalls emptyEngine).overflowed = false := by decide
  have hw := h.1 (by decide)
  have hlow := (h.2 hfit).1 (by decide)
  exact ⟨rfl, hfit, hw, hlow, (h.2 hfit).2 hplain ⟨hlow, hw⟩⟩

/-! ## The daily check -/

theorem cacheFind_of_mem_nodup {c : List (String × AppTrustInfo)}
    (hc : (c.map Prod.fst).Nodup) {k : String} {v : AppTrustInfo} (h : (k, v) ∈ c) :
    cacheFind c k = some v := by
  induction c with
  | nil => simp at h
  | cons hd tl ih =>
    obtain ⟨k1, u⟩ := hd
    simp only [List.map_cons, List.nodup_cons, List.mem_map, not_exists, not_and] at hc
    simp only [List.mem_cons, Prod.mk.injEq] at h
    rcases h with ⟨rfl, rfl⟩ | h
    · simp [cacheFind]
    · have hne : k1 ≠ k := by
        intro heq
        exact hc.1 (k, v) h heq.symm
      simp [cacheFind, hne, ih hc.2 h]

/-- `rewardGoodBehavior` changes neither the name nor the time of the last violation of
any record. -/
theorem rewardGoodBehavior_keeps (env : Env) (now : Int) (p : String) (bonus : Int)
    (e : TrustEngine) (k : String) :
    (cacheAt (rewardGoodBehavior env now p bonus e).app_cache_ k).last_violation
      = (cacheAt e.app_cache_ k).last_violation ∧
    (cacheAt (rewardGoodBehavior env now p bonus e).app_cache_ k).package_name
      = (cacheAt e.app_cache_ k).package_name := by
  by_cases hk : p = k
  · subst hk
    cases hfind : cacheFind e.app_cache_ p with
    | none =>
      have : rewardGoodBehavior env now p bonus e = e := by
        simp [rewardGoodBehavior, cacheCount_of_none hfind]
      rw [this]
      exact ⟨rfl, rfl⟩
    | some r =>
      rw [rewardGoodBehavior_cache env now p bonus e r hfind, cacheAt_cacheSet,
        cacheAt_of_find hfind]
      simp only [recReward, recRelease]
      split_ifs <;> exact ⟨rfl, rfl⟩
  · simp [cacheAt, rewardGoodBehavior_frame env now p bonus e hk]

/-- The loop of the daily check over a list of entries that the cache still holds. -/
theorem dailyBehaviorLoop_eq (env : Env) (now : Int) (l : List (String × AppTrustInfo))
    (e : TrustEngine)
    (h : ∀ kv ∈ l, (cacheAt e.app_cache_ kv.1).last_violation = kv.2.last_violation ∧
      (cacheAt e.app_cache_ kv.1).package_name = kv.2.package_name) :
    dailyBehaviorLoop env now (l.map Prod.fst) e = rewardEach env now (dueRecords now l) e := by
  induction l generalizing e with
  | nil => rfl
  | cons hd tl ih =>
    obtain ⟨k, v⟩ := hd
    have hhd := h (k, v) (List.mem_cons_self _ _)
    simp only at hhd
    simp only [List.map_cons, dailyBehaviorLoop, dueRecords, hhd.1, hhd.2]
    have h86400 : (24 : Int) * 60 * 60 = 86400 := by norm_num
    rw [h86400]
    by_cases hdue : now - v.last_violation > 86400
    · simp only [hdue, if_true, List.filter_cons, decide_True, rewardEach]
      apply ih
      intro kv hkv
      have h1 := rewardGoodBehavior_keeps env now v.package_name 2 e kv.1
      have h2 := h kv (List.mem_cons_of_mem _ hkv)
      exact ⟨h1.1.trans h2.1, h1.2.trans h2.2⟩
    · simp only [hdue, if_false, List.filter_cons, decide_False]
      apply ih
      intro kv hkv
      exact h kv (List.mem_cons_of_mem _ hkv)

/-- C11, as amended: in a cache with one record per key (as `std::unordered_map` keeps
it), `dailyBehaviorCheck` run at the instant `now` is the call `rewardGoodBehavior(pkg, 2)`
for exactly the cached records with `now - last_violation > 86400`, in the order of the
cache, and no other call; a record with `now - last_violation = 86400` is not rewarded. -/
theorem C11_daily_rewards_due_records (env : Env) (now : Int) (e : TrustEngine)
    (hkeys : (e.app_cache_.map Prod.fst).Nodup) :
    dailyBehaviorCheck env now e = rewardEach env now (dueRecords now e.app_cache_) e := by
  unfold dailyBehaviorCheck
  apply dailyBehaviorLoop_eq
  intro kv hkv
  rw [cacheAt_of_find (cacheFind_of_mem_nodup hkeys hkv)]
  exact ⟨rfl, rfl⟩

/-- Counterexample to C11 as stated: the last violation of `com.shop.app` is at second 30.
The daily check at second 86430, exactly 86400 seconds later, leaves the engine as it is,
whereas `rewardGoodBehavior` for the package would change it. -/
theorem C11_counterexample :
    (cacheAt shopEngine.app_cache_ "com.shop.app").last_violation = 30 ∧
    (86430 : Int) - (cacheAt shopEngine.app_cache_ "com.shop.app").last_violation = 86400 ∧
    dailyBehaviorCheck sampleEnv 86430 shopEngine = shopEngine ∧
    rewardGoodBehavior sampleEnv 86430 "com.shop.app" 2 shopEngine ≠ shopEngine := by
  decide

/-- Witness of C11: one second after the boundary the daily check is the reward of
`com.shop.app`, the only record of the cache. -/
theorem C11_witness :
    (shopEngine.app_cache_.map Prod.fst).Nodup ∧
    dueRecords 86431 shopEngine.app_cache_ = [cacheAt shopEngine.app_cache_ "com.shop.app"] ∧
    dailyBehaviorCheck sampleEnv 86431 shopEngine
      = rewardGoodBehavior sampleEnv 86431 "com.shop.app" 2 shopEngine :=
  ⟨by decide, by decide,
    C11_daily_rewards_due_records sampleEnv 86431 shopEngine (by decide)⟩

/-! ## The violation log -/

theorem suspendApp_log (p : String) (e : TrustEngine) :
    (suspendApp p e).2.violation_log = e.violation_log := by
  unfold suspendApp
  dsimp only
  split <;> rfl

theorem unsuspendApp_log (p : String) (e : TrustEngine) :
    (unsuspendApp p e).2.violation_log = e.violation_log := by
  unfold unsuspendApp
  dsimp only
  split <;> rfl

theorem blockNetwork_log (env : Env) (p : String) (e : TrustEngine) :
    (blockNetwork env p e).2.violation_log = e.violation_log := by
  unfold blockNetwork
  dsimp only
  split
  · rfl
  · split <;> rfl

theorem unblockNetwork_log (env : Env) (p : String) (e : TrustEngine) :
    (unblockNetwork env p e).2.violation_log = e.violation_log := by
  unfold unblockNetwork
  dsimp only
  split
  · rfl
  · split <;> rfl

theorem registerApp_log (env : Env) (now : Int) (p : String) (e : TrustEngine) :
    (registerApp env now p e).2.violation_log = e.violation_log := by
  unfold registerApp
  split <;> rfl

theorem ensured_log (env : Env) (now : Int) (p : String) (e : TrustEngine) :
    (if cacheCount e.app_cache_ p = 0 then (registerApp env now p e).2
      else e).violation_log = e.violation_log := by
  split
  · exact registerApp_log env now p e
  · rfl

theorem quarantineApp_log (env : Env) (now : Int) (p : String) (e : TrustEngine) :
    (quarantineApp env now p e).2.violation_log = e.violation_log := by
  unfold quarantineApp
  have h0 := ensured_log env now p e
  generalize (if cacheCount e.app_cache_ p = 0 then (registerApp env now p e).2
      else e) = e0 at h0 ⊢
  dsimp only
  split
  · exact h0
  · split
    · exact h0
    · simp only [blockNetwork_log, suspendApp_log, h0]

theorem releaseFromQuarantine_log (env : Env) (p : String) (e : TrustEngine) :
    (releaseFromQuarantine env p e).2.violation_log = e.violation_log := by
  unfold releaseFromQuarantine
  split
  · rfl
  · split
    · rfl
    · dsimp only
      split <;> simp only [unblockNetwork_log, unsuspendApp_log]

theorem whitelistApp_log (env : Env) (now : Int) (p : String) (e : TrustEngine) :
    (whitelistApp env now p e).violation_log = e.violation_log := by
  unfold whitelistApp
  have h0 := ensured_log env now p e
  generalize (if cacheCount e.app_cache_ p = 0 then (registerApp env now p e).2
      else e) = e0 at h0 ⊢
  dsimp only
  split
  · simp only [releaseFromQuarantine_log, h0]
  · exact h0

theorem unwhitelistApp_log (p : String) (e : TrustEngine) :
    (unwhitelistApp p e).violation_log = e.violation_log := by
  unfold unwhitelistApp
  split <;> rfl

theorem enforceByScore_log (env : Env) (now : Int) (p : String) (e : TrustEngine) :
    (enforceByScore env now p e).violation_log = e.violation_log := by
  unfold enforceByScore
  dsimp only
  split
  · rfl
  · split
    · rfl
    · split
      · rfl
      · split
        · rfl
        · split
          · rfl
          · simp only [forceStopApp, quarantineApp_log]

theorem rewardGoodBehavior_log (env : Env) (now : Int) (p : String) (bonus : Int)
    (e : TrustEngine) : (rewardGoodBehavior env now p bonus e).violation_log = e.violation_log := by
  unfold rewardGoodBehavior
  dsimp only
  split
  · rfl
  · split
    · rfl
    · split <;> split <;> simp only [releaseFromQuarantine_log]

theorem dailyBehaviorLoop_log (env : Env) (now : Int) (keys : List String) (e : TrustEngine) :
    (dailyBehaviorLoop env now keys e).violation_log = e.violation_log :=
  dailyBehaviorLoop_induction env now (fun e1 => e1.violation_log = e.violation_log)
    (fun p e1 h => (rewardGoodBehavior_log env now p 2 e1).trans h) keys e rfl

theorem onPackageAdded_log (env : Env) (now : Int) (p : String) (e : TrustEngine) :
    (onPackageAdded env now p e).2.violation_log = e.violation_log := by
  unfold onPackageAdded
  dsimp only
  split
  · split <;> simp only [quarantineApp_log, registerApp_log]
  · exact registerApp_log env now p e

/-- The violation log after `recordViolation`: one new row, unless the call is skipped or the
database does not take the row. -/
theorem recordViolation_log (env : Env) (now : Int) (p : String) (vtype : ViolationType)
    (context : String) (e : TrustEngine) :
    (recordViolation env now p vtype context e).violation_log =
      e.violation_log ++ storedRows env now e (Op.recordViolation p vtype context) := by
  have key : ∀ (e1 : TrustEngine) (r : AppTrustInfo), cacheFind e1.app_cache_ p = some r →
      (recordViolation env now p vtype context e1).violation_log =
        e1.violation_log ++
          (if (!r.is_whitelisted && decide (r.status ≠ AppStatus.SYSTEM)) = true then
            [{ package_name := p
               violation_type := vtype
               penalty := PenaltyMatrix.getPenalty vtype
               timestamp := now
               context := context
               was_blocked := false }]
           else []).filter env.db_insert_ok := by
    intro e1 r hr
    by_cases hw : r.is_whitelisted = true
    · rw [recordViolation_skip env now p vtype context e1 r hr (Or.inl hw)]
      simp [hw]
    by_cases hs : r.status = AppStatus.SYSTEM
    · rw [recordViolation_skip env now p vtype context e1 r hr (Or.inr hs)]
      simp [hs]
    rw [recordViolation_eq env now p vtype context e1 r hr (by simpa using hw) hs,
      enforceByScore_log]
    simp only [hw, hs, Bool.not_false, ne_eq, not_false_eq_true, decide_True, Bool.and_self,
      if_true, List.filter_cons, List.filter_nil]
    split <;> simp
  cases hfind : cacheFind e.app_cache_ p with
  | some r =>
    simp only [storedRows, violationRows, violationCounts, hfind]
    exact key e r hfind
  | none =>
    simp only [storedRows, violationRows, violationCounts, hfind]
    rw [recordViolation_unknown env now p vtype context e hfind]
    have := key (registerApp env now p e).2 (newAppInfo env now p)
      (by simp [registerApp_unknown env now p e hfind, cacheFind_cacheSet])
    rw [this, registerApp_log]

/-- The violation log after a call. -/
theorem step_log (env : Env) (now : Int) (op : Op) (e : TrustEngine) :
    (step env now op e).violation_log = e.violation_log ++ storedRows env now e op := by
  cases op with
  | recordViolation p t c => exact recordViolation_log env now p t c e
  | registerApp p => simp [step, storedRows, violationRows, registerApp_log]
  | onPackageAdded p => simp [step, storedRows, violationRows, onPackageAdded_log]
  | rewardGoodBehavior p b => simp [step, storedRows, violationRows, rewardGoodBehavior_log]
  | dailyBehaviorCheck =>
    simp [step, storedRows, violationRows, dailyBehaviorCheck, dailyBehaviorLoop_log]
  | whitelistApp p => simp [step, storedRows, violationRows, whitelistApp_log]
  | unwhitelistApp p => simp [step, storedRows, violationRows, unwhitelistApp_log]
  | quarantineApp p => simp [step, storedRows, violationRows, quarantineApp_log]
  | releaseFromQuarantine p =>
    simp [step, storedRows, violationRows, releaseFromQuarantine_log]
  | enforceByScore p => simp [step, storedRows, violationRows, enforceByScore_log]

/-- The record of any package after a call that names a package. -/
theorem step_find (env : Env) (now : Int) (op : Op) (p : String) (e : TrustEngine)
    (hp : op.target = some p) (k : String) :
    cacheFind (step env now op e).app_cache_ k =
      if p = k then
        match cacheFind e.app_cache_ p with
        | some r => some (recStep env now op r)
        | none => if op.registers = true then some (recStep env now op (newAppInfo env now p))
            else none
      else cacheFind e.app_cache_ k := by
  cases hfind : cacheFind e.app_cache_ p with
  | some r =>
    rw [step_cache env now op p e r hp hfind, cacheFind_cacheSet]
  | none =>
    rw [step_cache_unknown env now op p e hp hfind]
    by_cases hreg : op.registers = true
    · simp only [hreg, if_true, cacheFind_cacheSet]
    · simp only [hreg, if_false]
      by_cases hk : p = k
      · subst hk
        simp [hfind]
      · simp [hk]

/-- The rows that a call appends all name the package of the call. -/
theorem logCount_violationRows (env : Env) (now : Int) (e : TrustEngine) (op : Op)
    (pkg : String) :
    logCount pkg (violationRows env now e op) =
      if op.target = some pkg then (violationRows env now e op).length else 0 := by
  cases op <;> simp [violationRows, logCount, Op.target]
  rename_i p t c
  by_cases hp : p = pkg <;> split <;> simp [hp]

/-- The counter of a cached record after a call on its package grows by the number of rows
that the call appends. -/
theorem recStep_violation_count (env : Env) (now : Int) (op : Op) (p : String)
    (e : TrustEngine) (r : AppTrustInfo) (hp : op.target = some p)
    (hr : cacheFind e.app_cache_ p = some r) :
    (recStep env now op r).violation_count
      = r.violation_count + ((violationRows env now e op).length : Int) := by
  cases op with
  | dailyBehaviorCheck => simp [Op.target] at hp
  | recordViolation q t c =>
    obtain rfl : q = p := by simpa [Op.target] using hp
    simp only [recStep, recViolation, recEnforce, recQuarantine, violationRows,
      violationCounts, hr]
    by_cases hw : r.is_whitelisted = true
    · simp [hw]
    by_cases hs : r.status = AppStatus.SYSTEM
    · simp [hw, hs]
    simp only [hw, hs, if_false]
    split_ifs <;> simp_all
  | registerApp q => simp [recStep, violationRows]
  | onPackageAdded q =>
    simp only [recStep, recInstall, recQuarantine, violationRows]
    split_ifs <;> simp
  | rewardGoodBehavior q b =>
    simp only [recStep, recReward, recRelease, violationRows]
    split_ifs <;> simp
  | whitelistApp q =>
    simp only [recStep, recWhitelist, recRelease, violationRows]
    split_ifs <;> simp
  | unwhitelistApp q => simp [recStep, recUnwhitelist, violationRows]
  | quarantineApp q =>
    simp only [recStep, recQuarantine, violationRows]
    split_ifs <;> simp
  | releaseFromQuarantine q =>
    simp only [recStep, recRelease, violationRows]
    split_ifs <;> simp
  | enforceByScore q =>
    simp only [recStep, recEnforce, recQuarantine, violationRows]
    split_ifs <;> simp

/-- The counter of the record that a call registers for an unknown package is the number
of rows that the call appends. -/
theorem recStep_violation_count_new (env : Env) (now : Int) (op : Op) (p : String)
    (e : TrustEngine) (hp : op.target = some p) (hnone : cacheFind e.app_cache_ p = none) :
    (recStep env now op (newAppInfo env now p)).violation_count
      = ((violationRows env now e op).length : Int) := by
  have h0 := (newAppInfo_free env now p).2.2.2.2
  have hw := (newAppInfo_free env now p).2.2.2.1
  cases op with
  | dailyBehaviorCheck => simp [Op.target] at hp
  | recordViolation q t c =>
    obtain rfl : q = p := by simpa [Op.target] using hp
    simp only [recStep, recViolation, recEnforce, recQuarantine, violationRows,
      violationCounts, hnone]
    by_cases hs : (newAppInfo env now q).status = AppStatus.SYSTEM
    · simp [hw, hs, h0]
    simp only [hw, hs, if_false]
    split_ifs <;> simp_all
  | registerApp q => simp [recStep, violationRows, h0]
  | onPackageAdded q =>
    simp only [recStep, recInstall, recQuarantine, violationRows]
    split_ifs <;> simp [h0]
  | rewardGoodBehavior q b =>
    simp only [recStep, recReward, recRelease, violationRows]
    split_ifs <;> simp [h0]
  | whitelistApp q =>
    simp only [recStep, recWhitelist, recRelease, violationRows]
    split_ifs <;> simp [h0]
  | unwhitelistApp q => simp [recStep, recUnwhitelist, violationRows, h0]
  | quarantineApp q =>
    simp only [recStep, recQuarantine, violationRows]
    split_ifs <;> simp [h0]
  | releaseFromQuarantine q =>
    simp only [recStep, recRelease, violationRows]
    split_ifs <;> simp [h0]
  | enforceByScore q =>
    simp only [recStep, recEnforce, recQuarantine, violationRows]
    split_ifs <;> simp [h0]

theorem logCount_append (pkg : String) (l1 l2 : List ViolationRecord) :
    logCount pkg (l1 ++ l2) = logCount pkg l1 + logCount pkg l2 := by
  simp [logCount]

/-- The counter of a package after a call that names a package. -/
theorem step_countOnRecord_target (env : Env) (now : Int) (op : Op) (p : String)
    (e : TrustEngine) (hp : op.target = some p) (pkg : String) :
    countOnRecord pkg (step env now op e)
      = countOnRecord pkg e + (logCount pkg (violationRows env now e op) : Int) := by
  unfold countOnRecord
  rw [step_find env now op p e hp pkg, logCount_violationRows]
  by_cases hk : p = pkg
  · subst hk
    simp only [hp, if_true]
    cases hfind : cacheFind e.app_cache_ p with
    | some r =>
      simp only []
      exact recStep_violation_count env now op p e r hp hfind
    | none =>
      by_cases hreg : op.registers = true
      · simp only [hreg, if_true]
        rw [recStep_violation_count_new env now op p e hp hfind]
        simp
      · simp only [hreg, if_false]
        cases op <;> simp [Op.registers] at hreg <;> simp [violationRows]
  · have hne : op.target ≠ some pkg := by
      rw [hp]
      simpa using hk
    simp [hk, hne]

/-- The counter of a package after the daily check. -/
theorem dailyBehaviorLoop_countOnRecord (env : Env) (now : Int) (keys : List String)
    (e : TrustEngine) (pkg : String) :
    countOnRecord pkg (dailyBehaviorLoop env now keys e) = countOnRecord pkg e :=
  dailyBehaviorLoop_induction env now (fun e1 => countOnRecord pkg e1 = countOnRecord pkg e)
    (fun p e1 h => by
      dsimp only at h ⊢
      rw [step_countOnRecord_target env now (Op.rewardGoodBehavior p 2) p e1 rfl pkg, h]
      simp [violationRows, logCount])
    keys e rfl

/-- The counter of a package after any call. -/
theorem step_countOnRecord (env : Env) (now : Int) (op : Op) (e : TrustEngine)
    (pkg : String) :
    countOnRecord pkg (step env now op e)
      = countOnRecord pkg e + (logCount pkg (violationRows env now e op) : Int) := by
  cases hp : op.target with
  | some p => exact step_countOnRecord_target env now op p e hp pkg
  | none =>
    cases op <;> simp [Op.target] at hp
    simp [step, dailyBehaviorCheck, dailyBehaviorLoop_countOnRecord, violationRows, logCount]

/-- Along a sequence of calls the rows of the log for a package grow by the number of calls
that are not skipped and whose row the database takes, and the counter of its record by
the number of calls that are not skipped. -/
theorem run_counts (pkg : String) (calls : List (Env × Int × Op)) (e : TrustEngine) :
    logCount pkg (run calls e).violation_log
      = logCount pkg e.violation_log + storedViolations pkg calls e ∧
    countOnRecord pkg (run calls e)
      = countOnRecord pkg e + (countedViolations pkg calls e : Int) := by
  induction calls generalizing e with
  | nil => simp [run, countedViolations, storedViolations]
  | cons c rest ih =>
    obtain ⟨env, now, op⟩ := c
    simp only [run, countedViolations, storedViolations]
    obtain ⟨h1, h2⟩ := ih (step env now op e)
    rw [h1, h2, step_log, logCount_append, step_countOnRecord]
    constructor
    · omega
    · push_cast
      omega

/-- When the database takes every row, the calls that reach the table are the calls that
are not skipped. -/
theorem storedViolations_all_accepted (pkg : String) (calls : List (Env × Int × Op))
    (e : TrustEngine) (hdb : ∀ c ∈ calls, ∀ v, c.1.db_insert_ok v = true) :
    storedViolations pkg calls e = countedViolations pkg calls e := by
  induction calls generalizing e with
  | nil => rfl
  | cons c rest ih =>
    obtain ⟨env, now, op⟩ := c
    simp only [storedViolations, countedViolations]
    rw [ih _ (fun c hc => hdb c (List.mem_cons_of_mem _ hc))]
    have hall : storedRows env now e op = violationRows env now e op := by
      unfold storedRows
      exact List.filter_eq_self.mpr
        (fun v _ => hdb (env, now, op) (List.mem_cons_self _ _) v)
    rw [hall]

/-- C13, as amended: starting from an empty cache and an empty violation log, after any
sequence of calls the number of rows of the log for a package is the number of
`recordViolation` calls for it that were not skipped (the record neither whitelisted nor of
status SYSTEM at the call) and whose row the database took; the `violation_count` of the
record of the package is the number of the calls that were not skipped; the two numbers
agree when the database took every row.  Each `recordViolation` call appends one row when
it is not skipped and the database takes the row, and none otherwise. -/
theorem C13_log_matches_violation_count (e0 : TrustEngine) (calls : List (Env × Int × Op))
    (hcache : e0.app_cache_ = []) (hlog : e0.violation_log = []) (pkg : String) :
    logCount pkg (run calls e0).violation_log = storedViolations pkg calls e0 ∧
    (∀ a, cacheFind (run calls e0).app_cache_ pkg = some a →
      a.violation_count = (countedViolations pkg calls e0 : Int)) ∧
    (cacheFind (run calls e0).app_cache_ pkg = none → countedViolations pkg calls e0 = 0) ∧
    ((∀ c ∈ calls, ∀ v, c.1.db_insert_ok v = true) →
      storedViolations pkg calls e0 = countedViolations pkg calls e0) ∧
    (∀ env now vtype context e,
      (recordViolation env now pkg vtype context e).violation_log =
        e.violation_log ++
          (if violationCounts env now pkg e then
            [{ package_name := pkg
               violation_type := vtype
               penalty := PenaltyMatrix.getPenalty vtype
               timestamp := now
               context := context
               was_blocked := false }]
           else []).filter env.db_insert_ok) := by
  obtain ⟨h1, h2⟩ := run_counts pkg calls e0
  have h0 : countOnRecord pkg e0 = 0 := by simp [countOnRecord, hcache, cacheFind]
  rw [hlog] at h1
  rw [h0] at h2
  refine ⟨by simpa [logCount] using h1, fun a ha => ?_, fun hnone => ?_,
    storedViolations_all_accepted pkg calls e0, ?_⟩
  · simpa [countOnRecord, ha] using h2
  · have : (0 : Int) = (countedViolations pkg calls e0 : Int) := by
      simpa [countOnRecord, hnone] using h2
    omega
  · intro env now vtype context e
    exact recordViolation_log env now pkg vtype context e

/-- Counterexample to C13 as stated: on a device whose database takes no row, a violation
of `com.shop.app` on the empty engine is not skipped; it lowers the score from 80 to 60 and
sets `violation_count` to 1, and the violation log has no row for the package. -/
theorem C13_counterexample :
    emptyEngine.app_cache_ = [] ∧ emptyEngine.violation_log = [] ∧
    countedViolations "com.shop.app"
      [(noDbEnv, 10, Op.recordViolation "com.shop.app" ViolationType.SMS_READ "inbox")]
      emptyEngine = 1 ∧
    (cacheAt (run
      [(noDbEnv, 10, Op.recordViolation "com.shop.app" ViolationType.SMS_READ "inbox")]
      emptyEngine).app_cache_ "com.shop.app").current_score = 60 ∧
    (cacheAt (run
      [(noDbEnv, 10, Op.recordViolation "com.shop.app" ViolationType.SMS_READ "inbox")]
      emptyEngine).app_cache_ "com.shop.app").violation_count = 1 ∧
    logCount "com.shop.app" (run
      [(noDbEnv, 10, Op.recordViolation "com.shop.app" ViolationType.SMS_READ "inbox")]
      emptyEngine).violation_log = 0 := by
  decide

/-- Witness of C13: of the four `recordViolation` calls for `com.shop.app` in the sample,
one is made while the package is whitelisted, and the database takes every row; the log
has three rows for the package and its record counts three violations. -/
theorem C13_witness :
    emptyEngine.app_cache_ = [] ∧ emptyEngine.violation_log = [] ∧
    countedViolations "com.shop.app" shopViolationCalls emptyEngine = 3 ∧
    storedViolations "com.shop.app" shopViolationCalls emptyEngine = 3 ∧
    logCount "com.shop.app" (run shopViolationCalls emptyEngine).violation_log = 3 ∧
    (cacheAt (run shopViolationCalls emptyEngine).app_cache_ "com.shop.app").violation_count
      = 3 := by
  have h := C13_log_matches_violation_count emptyEngine shopViolationCalls rfl rfl
    "com.shop.app"
  have hc : countedViolations "com.shop.app" shopViolationCalls emptyEngine = 3 := by decide
  have hs : storedViolations "com.shop.app" shopViolationCalls emptyEngine = 3 := by
    rw [h.2.2.2.1 (by
      intro c hc v
      simp only [shopViolationCalls, List.mem_cons, List.mem_singleton, List.not_mem_nil,
        or_false] at hc
      rcases hc with rfl | rfl | rfl | rfl | rfl | rfl | rfl <;> rfl), hc]
  refine ⟨rfl, rfl, hc, hs, ?_, ?_⟩
  · rw [h.1, hs]
  · rw [h.2.1 _ (by decide), hc]
    rfl

/-- C14, as amended: a failure of the command is not detected.  For a cached record,
`suspendApp` sets `is_suspended` and returns true, and `blockNetwork` with a resolved uid
sets `network_blocked` and returns true, on every device, also where the command fails;
the result of `blockNetwork` depends on the device only through the line with the uid.
Only when the uid does not resolve does `blockNetwork` leave the engine as it is and
return false. -/
theorem C14_command_failure_unnoticed (env : Env) (pkg : String) (e : TrustEngine)
    (r : AppTrustInfo) (hr : cacheFind e.app_cache_ pkg = some r) :
    ((suspendApp pkg e).1 = true ∧
      cacheFind (suspendApp pkg e).2.app_cache_ pkg = some { r with is_suspended := true }) ∧
    (0 ≤ getAppUid env pkg →
      (blockNetwork env pkg e).1 = true ∧
      cacheFind (blockNetwork env pkg e).2.app_cache_ pkg
        = some { r with network_blocked := true }) ∧
    (∀ env2 : Env, env2.pm_dump_userId = env.pm_dump_userId →
      blockNetwork env2 pkg e = blockNetwork env pkg e) ∧
    (getAppUid env pkg < 0 → blockNetwork env pkg e = (false, e)) := by
  refine ⟨⟨rfl, ?_⟩, fun huid => ?_, fun env2 h2 => ?_, fun huid => ?_⟩
  · simp [suspendApp, cacheCount_of_find hr, cacheAt_of_find hr, cacheModify,
      cacheFind_cacheSet]
  · have hu : ¬ getAppUid env pkg < 0 := by omega
    simp [blockNetwork, hu, cacheCount_of_find hr, cacheAt_of_find hr, cacheModify,
      cacheFind_cacheSet]
  · simp [blockNetwork, getAppUid, h2]
  · simp [blockNetwork, huid]

/-- Counterexample to C14 as stated: on the device where every command fails,
`suspendApp` for the registered `com.evil.app` returns true and sets `is_suspended`, and
`blockNetwork` (uid 10123) returns true and sets `network_blocked`. -/
theorem C14_counterexample :
    failingEnv.command_fails (Command.pm_suspend "com.evil.app") = true ∧
    (cacheAt evilRegistered.app_cache_ "com.evil.app").is_suspended = false ∧
    (suspendApp "com.evil.app" evilRegistered).1 = true ∧
    (cacheAt (suspendApp "com.evil.app" evilRegistered).2.app_cache_
      "com.evil.app").is_suspended = true ∧
    failingEnv.command_fails (Command.iptables_append_drop 10123) = true ∧
    (cacheAt evilRegistered.app_cache_ "com.evil.app").network_blocked = false ∧
    (blockNetwork failingEnv "com.evil.app" evilRegistered).1 = true ∧
    (blockNetwork failingEnv "com.evil.app" evilRegistered).2.commands
      = [Command.iptables_append_drop 10123] ∧
    (cacheAt (blockNetwork failingEnv "com.evil.app" evilRegistered).2.app_cache_
      "com.evil.app").network_blocked = true := by
  decide

/-- Witness of C14: the registered `com.evil.app` on the device where every command
fails, and `com.tool.app`, whose uid does not resolve. -/
theorem C14_witness :
    getAppUid failingEnv "com.evil.app" = 10123 ∧
    (suspendApp "com.evil.app" evilRegistered).1 = true ∧
    (blockNetwork failingEnv "com.evil.app" evilRegistered).1 = true ∧
    blockNetwork failingEnv "com.evil.app" evilRegistered
      = blockNetwork sampleEnv "com.evil.app" evilRegistered :=
  have h := C14_command_failure_unnoticed failingEnv "com.evil.app" evilRegistered
    (cacheAt evilRegistered.app_cache_ "com.evil.app") (by decide)
  ⟨by decide, h.1.1, (h.2.1 (by decide)).1, (h.2.2.1 sampleEnv rfl).symm⟩

/-- The engine after `whitelistApp` on a cached record in quarantine: the record is
whitelisted and released, `pm unsuspend` is issued first and the deletion of the packet
filter rule second. -/
theorem whitelistApp_eq (env : Env) (now : Int) (pkg : String) (e : TrustEngine)
    (r : AppTrustInfo) (hr : cacheFind e.app_cache_ pkg = some r)
    (hq : r.is_quarantined = true) :
    whitelistApp env now pkg e =
      { e with
        app_cache_ := cacheSet e.app_cache_ pkg
          { r with
            is_whitelisted := true
            is_suspended := false
            network_blocked := if getAppUid env pkg < 0 then r.network_blocked else false
            is_quarantined := false
            status := calculateStatus r.current_score }
        commands := e.commands ++ [Command.pm_unsuspend pkg] ++
          (if getAppUid env pkg < 0 then []
            else [Command.iptables_delete_drop (getAppUid env pkg)])
        stats_ := { e.stats_ with quarantined_apps := e.stats_.quarantined_apps - 1 }
        callbacks := e.callbacks ++
          (if e.quarantine_callback_ then [CallbackCall.quarantine pkg false] else []) } := by
  unfold whitelistApp
  simp only [cacheCount_of_find hr, cacheAt_of_find hr, cacheModify, one_ne_zero, if_false,
    cacheAt_cacheSet]
  rw [if_pos hq]
  rw [releaseFromQuarantine_eq env pkg _ { r with is_whitelisted := true }
    (by simp only [cacheFind_cacheSet, if_true]) hq]
  simp [cacheSet_cacheSet]

/-- The engine after `whitelistApp` on a cached record that is not in quarantine: only the
whitelist flag of the record is set. -/
theorem whitelistApp_free (env : Env) (now : Int) (pkg : String) (e : TrustEngine)
    (r : AppTrustInfo) (hr : cacheFind e.app_cache_ pkg = some r)
    (hq : r.is_quarantined = false) :
    whitelistApp env now pkg e =
      { e with app_cache_ := cacheSet e.app_cache_ pkg { r with is_whitelisted := true } } := by
  unfold whitelistApp
  simp [cacheCount_of_find hr, cacheAt_of_find hr, cacheModify, cacheAt_cacheSet, hq]

/-- C15, as amended: for a cached record in quarantine whose uid resolves, `whitelistApp`
issues `pm unsuspend` first and the deletion of the packet filter rule second, and
nothing else; after these two inverse calls the record still carries the quarantine flag,
which is cleared only afterwards. -/
theorem C15_whitelist_release_order (env : Env) (now : Int) (pkg : String) (e : TrustEngine)
    (r : AppTrustInfo) (hr : cacheFind e.app_cache_ pkg = some r)
    (hq : r.is_quarantined = true) (huid : 0 ≤ getAppUid env pkg) :
    (whitelistApp env now pkg e).commands
      = e.commands ++ [Command.pm_unsuspend pkg,
          Command.iptables_delete_drop (getAppUid env pkg)] ∧
    (unblockNetwork env pkg (unsuspendApp pkg
        { e with app_cache_ := cacheModify e.app_cache_ pkg (fun a =>
            { a with is_whitelisted := true }) }).2).2.commands
      = e.commands ++ [Command.pm_unsuspend pkg,
          Command.iptables_delete_drop (getAppUid env pkg)] ∧
    (cacheAt (unblockNetwork env pkg (unsuspendApp pkg
        { e with app_cache_ := cacheModify e.app_cache_ pkg (fun a =>
            { a with is_whitelisted := true }) }).2).2.app_cache_ pkg).is_quarantined = true ∧
    (cacheAt (whitelistApp env now pkg e).app_cache_ pkg).is_quarantined = false := by
  have hu : ¬ getAppUid env pkg < 0 := by omega
  refine ⟨?_, ?_, ?_, ?_⟩
  · rw [whitelistApp_eq env now pkg e r hr hq]
    simp [hu]
  · simp [unblockNetwork, unsuspendApp, hu, cacheModify, cacheCount_of_find hr,
      cacheAt_of_find hr, cacheCount_cacheSet, cacheAt_cacheSet]
  · simp [unblockNetwork, unsuspendApp, hu, cacheModify, cacheCount_of_find hr,
      cacheAt_of_find hr, cacheCount_cacheSet, cacheAt_cacheSet, hq]
  · rw [whitelistApp_eq env now pkg e r hr hq]
    simp [cacheAt_cacheSet]

/-- Counterexample to C15 as stated: `com.evil.app` in quarantine at score 10, suspended
and cut off the network, uid 10123.  `whitelistApp` issues `pm unsuspend com.evil.app`
first and the deletion of the packet filter rule for uid 10123 second, not the other way
round. -/
theorem C15_counterexample :
    (cacheAt evilEngineTen.app_cache_ "com.evil.app").is_quarantined = true ∧
    (cacheAt evilEngineTen.app_cache_ "com.evil.app").is_suspended = true ∧
    (cacheAt evilEngineTen.app_cache_ "com.evil.app").network_blocked = true ∧
    (cacheAt evilEngineTen.app_cache_ "com.evil.app").current_score = 10 ∧
    getAppUid sampleEnv "com.evil.app" = 10123 ∧
    (whitelistApp sampleEnv 3000 "com.evil.app" evilEngineTen).commands
      = evilEngineTen.commands ++
        [Command.pm_unsuspend "com.evil.app", Command.iptables_delete_drop 10123] ∧
    (whitelistApp sampleEnv 3000 "com.evil.app" evilEngineTen).commands
      ≠ evilEngineTen.commands ++
        [Command.iptables_delete_drop 10123, Command.pm_unsuspend "com.evil.app"] := by
  decide

/-- Witness of C15: `com.evil.app` in quarantine at score 10 with uid 10123. -/
theorem C15_witness :
    cacheFind evilEngineTen.app_cache_ "com.evil.app"
      = some (cacheAt evilEngineTen.app_cache_ "com.evil.app") ∧
    (whitelistApp sampleEnv 3000 "com.evil.app" evilEngineTen).commands
      = evilEngineTen.commands ++ [Command.pm_unsuspend "com.evil.app",
          Command.iptables_delete_drop (getAppUid sampleEnv "com.evil.app")] :=
  ⟨by decide,
    (C15_whitelist_release_order sampleEnv 3000 "com.evil.app" evilEngineTen
      (cacheAt evilEngineTen.app_cache_ "com.evil.app") (by decide) (by decide)
      (by decide)).1⟩

/-- C16: for a cached record in quarantine whose uid resolves, the record after
`whitelistApp` is whitelisted, not quarantined, not suspended and not cut off the network,
keeps its score, and has the status `derive` gives for that score, hence the status
quarantined when the score is below 20; every other field is kept.  For a cached record
that is not in quarantine the call sets the whitelist flag and changes nothing else in the
engine. -/
theorem C16_whitelistApp (env : Env) (now : Int) (pkg : String) (e : TrustEngine)
    (r : AppTrustInfo) (hr : cacheFind e.app_cache_ pkg = some r) :
    (r.is_quarantined = true → 0 ≤ getAppUid env pkg →
      cacheFind (whitelistApp env now pkg e).app_cache_ pkg
        = some { r with
            is_whitelisted := true
            is_quarantined := false
            is_suspended := false
            network_blocked := false
            status := derive r.current_score } ∧
      (r.current_score < 20 →
        (cacheAt (whitelistApp env now pkg e).app_cache_ pkg).status
          = AppStatus.QUARANTINED)) ∧
    (r.is_quarantined = false →
      whitelistApp env now pkg e =
        { e with
          app_cache_ := cacheSet e.app_cache_ pkg { r with is_whitelisted := true } }) := by
  refine ⟨fun hq huid => ?_, fun hq => whitelistApp_free env now pkg e r hr hq⟩
  have hu : ¬ getAppUid env pkg < 0 := by omega
  rw [whitelistApp_eq env now pkg e r hr hq]
  refine ⟨?_, fun hs => ?_⟩
  · simp [cacheFind_cacheSet, hu, derive_eq_calculateStatus]
  · simp [cacheAt_cacheSet, calculateStatus_eq_quarantined, hs]

/-- Witness of C16: `com.evil.app` in quarantine at score 10 with uid 10123, and the
registered `com.evil.app` that is not in quarantine. -/
theorem C16_witness :
    (cacheAt (whitelistApp sampleEnv 3000 "com.evil.app" evilEngineTen).app_cache_
      "com.evil.app").status = AppStatus.QUARANTINED ∧
    (cacheAt (whitelistApp sampleEnv 3000 "com.evil.app" evilEngineTen).app_cache_
      "com.evil.app").is_whitelisted = true ∧
    (cacheAt (whitelistApp sampleEnv 3000 "com.evil.app" evilEngineTen).app_cache_
      "com.evil.app").is_quarantined = false ∧
    (cacheAt (whitelistApp sampleEnv 3000 "com.evil.app" evilEngineTen).app_cache_
      "com.evil.app").current_score = 10 ∧
    whitelistApp sampleEnv 3000 "com.evil.app" evilRegistered =
      { evilRegistered with
        app_cache_ := cacheSet evilRegistered.app_cache_ "com.evil.app"
          { cacheAt evilRegistered.app_cache_ "com.evil.app" with is_whitelisted := true } } :=
  ⟨((C16_whitelistApp sampleEnv 3000 "com.evil.app" evilEngineTen
      (cacheAt evilEngineTen.app_cache_ "com.evil.app") (by decide)).1
      (by decide) (by decide)).2 (by decide),
    by decide, by decide, by decide,
    (C16_whitelistApp sampleEnv 3000 "com.evil.app" evilRegistered
      (cacheAt evilRegistered.app_cache_ "com.evil.app") (by decide)).2 (by decide)⟩

/-- C17, the code at the failing input: `com.android.phone` is registered as a system
application with status SYSTEM and score 100; `quarantineApp` then gives its record the
status QUARANTINED and the score 0, and a later `releaseFromQuarantine` leaves it at
status QUARANTINED and score 0. -/
theorem C17_quarantineApp_on_system_record :
    detectInstallSource sampleEnv "com.android.phone" = InstallSource.SYSTEM ∧
    (cacheAt phoneEngine.app_cache_ "com.android.phone").status = AppStatus.SYSTEM ∧
    (cacheAt phoneEngine.app_cache_ "com.android.phone").current_score = 100 ∧
    (quarantineApp sampleEnv 10 "com.android.phone" phoneEngine).1 = true ∧
    (cacheAt (quarantineApp sampleEnv 10 "com.android.phone" phoneEngine).2.app_cache_
      "com.android.phone").status = AppStatus.QUARANTINED ∧
    (cacheAt (quarantineApp sampleEnv 10 "com.android.phone" phoneEngine).2.app_cache_
      "com.android.phone").current_score = 0 ∧
    (cacheAt (run [(sampleEnv, 10, Op.quarantineApp "com.android.phone"),
        (sampleEnv, 20, Op.releaseFromQuarantine "com.android.phone")]
      phoneEngine).app_cache_ "com.android.phone").status = AppStatus.QUARANTINED ∧
    (cacheAt (run [(sampleEnv, 10, Op.quarantineApp "com.android.phone"),
        (sampleEnv, 20, Op.releaseFromQuarantine "com.android.phone")]
      phoneEngine).app_cache_ "com.android.phone").current_score = 0 := by
  decide

/-- C18: `getInitialScore` and `getMaxScore` return the values of the source table for each
of the ten install sources, the initial score is at most the ceiling for every source, and
`PenaltyMatrix.getPenalty` returns the penalty of the class of each of the fifteen
violation kinds. -/
theorem C18_static_tables :
    (getInitialScore InstallSource.PLAY_STORE = 80 ∧
      getMaxScore InstallSource.PLAY_STORE = 95) ∧
    (getInitialScore InstallSource.GALAXY_STORE = 75 ∧
      getMaxScore InstallSource.GALAXY_STORE = 90) ∧
    (getInitialScore InstallSource.XIAOMI_STORE = 75 ∧
      getMaxScore InstallSource.XIAOMI_STORE = 90) ∧
    (getInitialScore InstallSource.HUAWEI_STORE = 75 ∧
      getMaxScore InstallSource.HUAWEI_STORE = 90) ∧
    (getInitialScore InstallSource.AMAZON_STORE = 70 ∧
      getMaxScore InstallSource.AMAZON_STORE = 85) ∧
    (getInitialScore InstallSource.FDROID = 85 ∧
      getMaxScore InstallSource.FDROID = 95) ∧
    (getInitialScore InstallSource.SIDELOAD = 20 ∧
      getMaxScore InstallSource.SIDELOAD = 70) ∧
    (getInitialScore InstallSource.ADB = 30 ∧
      getMaxScore InstallSource.ADB = 75) ∧
    (getInitialScore InstallSource.SYSTEM = 100 ∧
      getMaxScore InstallSource.SYSTEM = 100) ∧
    (getInitialScore InstallSource.UNKNOWN = 20 ∧
      getMaxScore InstallSource.UNKNOWN = 60) ∧
    (∀ source : InstallSource, getInitialScore source ≤ getMaxScore source) ∧
    (PenaltyMatrix.getPenalty ViolationType.HIDDEN_CAMERA = -30 ∧
      PenaltyMatrix.getPenalty ViolationType.HIDDEN_MICROPHONE = -30 ∧
      PenaltyMatrix.getPenalty ViolationType.ACCESSIBILITY_ABUSE = -30) ∧
    (PenaltyMatrix.getPenalty ViolationType.GALLERY_SCAN = -20 ∧
      PenaltyMatrix.getPenalty ViolationType.FILE_SCAN = -20 ∧
      PenaltyMatrix.getPenalty ViolationType.CONTACT_EXPORT = -20 ∧
      PenaltyMatrix.getPenalty ViolationType.SMS_READ = -20) ∧
    (PenaltyMatrix.getPenalty ViolationType.CLIPBOARD_SNOOP = -15 ∧
      PenaltyMatrix.getPenalty ViolationType.NOTIFICATION_READ = -15 ∧
      PenaltyMatrix.getPenalty ViolationType.CALL_LOG_ACCESS = -15) ∧
    (PenaltyMatrix.getPenalty ViolationType.BACKGROUND_LOCATION = -10 ∧
      PenaltyMatrix.getPenalty ViolationType.BATTERY_DRAIN = -10 ∧
      PenaltyMatrix.getPenalty ViolationType.DATA_USAGE_HIGH = -10) ∧
    (PenaltyMatrix.getPenalty ViolationType.OVERLAY_USAGE = -5 ∧
      PenaltyMatrix.getPenalty ViolationType.BOOT_START = -5) ∧
    (∀ t : ViolationType, PenaltyMatrix.getPenalty t ∈ ([-30, -20, -15, -10, -5] : List Int)) := by
  refine ⟨⟨rfl, rfl⟩, ⟨rfl, rfl⟩, ⟨rfl, rfl⟩, ⟨rfl, rfl⟩, ⟨rfl, rfl⟩, ⟨rfl, rfl⟩, ⟨rfl, rfl⟩,
    ⟨rfl, rfl⟩, ⟨rfl, rfl⟩, ⟨rfl, rfl⟩, ?_, ⟨rfl, rfl, rfl⟩, ⟨rfl, rfl, rfl, rfl⟩,
    ⟨rfl, rfl, rfl⟩, ⟨rfl, rfl, rfl⟩, ⟨rfl, rfl⟩, ?_⟩
  · intro source
    cases source <;> decide
  · intro t
    cases t <;> decide

/-- The record of a package seen for the first time carries the initial score and the
ceiling of the source table for its detected install source. -/
theorem newAppInfo_table (env : Env) (now : Int) (p : String) :
    (newAppInfo env now p).install_source = detectInstallSource env p ∧
    (newAppInfo env now p).current_score = getInitialScore (detectInstallSource env p) ∧
    (newAppInfo env now p).max_achievable_score = getMaxScore (detectInstallSource env p) := by
  unfold newAppInfo
  generalize detectInstallSource env p = src
  cases src <;> simp [getInitialScore, getMaxScore, INITIAL_SCORES, MAX_SCORES]

/-- C19: `registerApp` on a package that is in the cache returns the cached record and
leaves the engine as it is, so nothing accumulated in the record is reset; on a package
that is not in the cache it returns and stores a record of the detected install source with
the initial score and ceiling of the source table, `violation_count = 0` and
`is_whitelisted = false`, and changes nothing else in the engine. -/
theorem C19_registerApp_lazy_upsert (env : Env) (now : Int) (pkg : String)
    (e : TrustEngine) :
    (∀ r, cacheFind e.app_cache_ pkg = some r → registerApp env now pkg e = (r, e)) ∧
    (cacheFind e.app_cache_ pkg = none →
      ∃ r, registerApp env now pkg e
          = (r, { e with app_cache_ := cacheSet e.app_cache_ pkg r }) ∧
        cacheFind (registerApp env now pkg e).2.app_cache_ pkg = some r ∧
        r.install_source = detectInstallSource env pkg ∧
        r.current_score = getInitialScore (detectInstallSource env pkg) ∧
        r.max_achievable_score = getMaxScore (detectInstallSource env pkg) ∧
        r.violation_count = 0 ∧
        r.is_whitelisted = false) := by
  refine ⟨fun r hr => registerApp_known env now pkg e r hr, fun hnone => ?_⟩
  have ht := newAppInfo_table env now pkg
  have hf := newAppInfo_free env now pkg
  refine ⟨newAppInfo env now pkg, ?_, ?_, ht.1, ht.2.1, ht.2.2, hf.2.2.2.2, hf.2.2.2.1⟩
  · simp [registerApp, cacheCount_of_none hnone]
  · simp [registerApp, cacheCount_of_none hnone, cacheFind_cacheSet]

/-- Witness of C19: `com.shop.app` after three violations keeps its record when it is
registered again, and `com.evil.app` is new to the empty engine. -/
theorem C19_witness :
    (cacheAt (run shopViolationCalls emptyEngine).app_cache_ "com.shop.app").violation_count
      = 3 ∧
    registerApp sampleEnv 9000 "com.shop.app" (run shopViolationCalls emptyEngine)
      = (cacheAt (run shopViolationCalls emptyEngine).app_cache_ "com.shop.app",
        run shopViolationCalls emptyEngine) ∧
    ∃ r, registerApp sampleEnv 5 "com.evil.app" emptyEngine
        = (r, { emptyEngine with
            app_cache_ := cacheSet emptyEngine.app_cache_ "com.evil.app" r }) ∧
      cacheFind (registerApp sampleEnv 5 "com.evil.app" emptyEngine).2.app_cache_
        "com.evil.app" = some r ∧
      r.install_source = detectInstallSource sampleEnv "com.evil.app" ∧
      r.current_score = getInitialScore (detectInstallSource sampleEnv "com.evil.app") ∧
      r.max_achievable_score = getMaxScore (detectInstallSource sampleEnv "com.evil.app") ∧
      r.violation_count = 0 ∧
      r.is_whitelisted = false :=
  ⟨by decide,
    (C19_registerApp_lazy_upsert sampleEnv 9000 "com.shop.app"
      (run shopViolationCalls emptyEngine)).1 _ (by decide),
    (C19_registerApp_lazy_upsert sampleEnv 5 "com.evil.app" emptyEngine).2 (by decide)⟩

/-- C20, the code at the failing input: the dump line of `com.evil.app` carries an empty
installer and the package lies under `/data/app`.  The installer pattern finds no match,
`detectInstallSource` answers UNKNOWN, and `registerApp` gives the record the initial score
20 and the ceiling 60, not the sideload ceiling 70. -/
theorem C20_empty_installer_is_unknown :
    emptyInstallerEnv.pm_dump_installer "com.evil.app" = "    installerPackageName=\n" ∧
    detectInstallSource emptyInstallerEnv "com.evil.app" = InstallSource.UNKNOWN ∧
    detectInstallSource emptyInstallerEnv "com.evil.app" ≠ InstallSource.SIDELOAD ∧
    (registerApp emptyInstallerEnv 5 "com.evil.app" emptyEngine).1.install_source
      = InstallSource.UNKNOWN ∧
    (registerApp emptyInstallerEnv 5 "com.evil.app" emptyEngine).1.current_score = 20 ∧
    (registerApp emptyInstallerEnv 5 "com.evil.app" emptyEngine).1.max_achievable_score
      = 60 ∧
    getMaxScore InstallSource.SIDELOAD = 70 ∧
    classifyInstaller "" = some InstallSource.SIDELOAD := by
  decide

/-- The installer pattern never captures an empty text, so the test for an empty installer
in `detectInstallSource` is never met. -/
theorem regexCapture_ne_nil (key : List Char) (cls : Char → Bool) (s cap : List Char)
    (h : regexCapture key cls s = some cap) : cap ≠ [] := by
  induction s with
  | nil => simp [regexCapture] at h
  | cons c cs ih =>
    unfold regexCapture at h
    split at h
    · rename_i hm
      cases h
      exact hm.2
    · exact ih h

theorem run_append (a b : List (Env × Int × Op)) (e : TrustEngine) :
    run (a ++ b) e = run b (run a e) := by
  induction a generalizing e with
  | nil => rfl
  | cons c rest ih =>
    obtain ⟨env, now, op⟩ := c
    simp only [List.cons_append, run]
    exact ih _

/-- A record of status SYSTEM in a cache built by calls other than `quarantineApp` is as
`registerApp` made it: kept by the normal form of every such call. -/
theorem recStep_system_shape (env : Env) (now : Int) (op : Op) (r : AppTrustInfo)
    (hop : op.notQuarantineApp) (h : r.status = AppStatus.SYSTEM → SystemRecord r) :
    (recStep env now op r).status = AppStatus.SYSTEM → SystemRecord (recStep env now op r) := by
  unfold SystemRecord at h ⊢
  cases op with
  | quarantineApp q => exact absurd hop (by simp [Op.notQuarantineApp])
  | recordViolation q t c =>
    simp only [recStep, recViolation, recEnforce, recQuarantine]
    split_ifs <;> simp_all [calculateStatus_ne_system]
  | rewardGoodBehavior q b =>
    simp only [recStep, recReward, recRelease]
    split_ifs <;> simp_all [calculateStatus_ne_system]
  | onPackageAdded q =>
    simp only [recStep, recInstall, recQuarantine]
    split_ifs <;> simp_all
  | whitelistApp q =>
    simp only [recStep, recWhitelist, recRelease]
    split_ifs <;> simp_all [calculateStatus_ne_system]
  | unwhitelistApp q => simpa [recStep, recUnwhitelist] using h
  | releaseFromQuarantine q =>
    simp only [recStep, recRelease]
    split_ifs <;> simp_all [calculateStatus_ne_system]
  | enforceByScore q =>
    simp only [recStep, recEnforce, recQuarantine]
    split_ifs <;> simp_all
  | registerApp q => simpa [recStep] using h
  | dailyBehaviorCheck => simpa [recStep] using h

/-- The normal form of every call other than `quarantineApp` keeps a system record a
system record. -/
theorem recStep_system_kept (env : Env) (now : Int) (op : Op) (r : AppTrustInfo)
    (hop : op.notQuarantineApp) (h : SystemRecord r) :
    SystemRecord (recStep env now op r) := by
  unfold SystemRecord at h ⊢
  obtain ⟨h1, h2, h3, h4⟩ := h
  cases op with
  | quarantineApp q => exact absurd hop (by simp [Op.notQuarantineApp])
  | recordViolation q t c =>
    simp only [recStep, recViolation]
    split_ifs <;> simp_all
  | rewardGoodBehavior q b =>
    simp [recStep, recReward, h1, h2, h3, h4]
  | onPackageAdded q =>
    simp only [recStep, recInstall]
    split_ifs <;> simp_all
  | whitelistApp q =>
    simp only [recStep, recWhitelist, recRelease]
    split_ifs <;> simp_all
  | unwhitelistApp q => simp [recStep, recUnwhitelist, h1, h2, h3, h4]
  | releaseFromQuarantine q =>
    simp only [recStep, recRelease]
    split_ifs <;> simp_all
  | enforceByScore q =>
    simp only [recStep, recEnforce]
    split_ifs <;> simp_all
  | registerApp q => simp [recStep, h1, h2, h3, h4]
  | dailyBehaviorCheck => simp [recStep, h1, h2, h3, h4]

theorem newAppInfo_system_shape (env : Env) (now : Int) (p : String) :
    (newAppInfo env now p).status = AppStatus.SYSTEM → SystemRecord (newAppInfo env now p) := by
  unfold SystemRecord newAppInfo
  generalize detectInstallSource env p = src
  cases src <;>
    simp [getInitialScore, getMaxScore, INITIAL_SCORES, MAX_SCORES, calculateStatus]

/-- A call other than `quarantineApp` keeps the system record of a package. -/
theorem step_system_kept (env : Env) (now : Int) (op : Op) (hop : op.notQuarantineApp)
    (pkg : String) (e : TrustEngine)
    (h : ∃ r, cacheFind e.app_cache_ pkg = some r ∧ SystemRecord r) :
    ∃ r, cacheFind (step env now op e).app_cache_ pkg = some r ∧ SystemRecord r := by
  have htarget : ∀ (op : Op) (p : String) (e : TrustEngine), op.notQuarantineApp →
      op.target = some p →
      (∃ r, cacheFind e.app_cache_ pkg = some r ∧ SystemRecord r) →
      ∃ r, cacheFind (step env now op e).app_cache_ pkg = some r ∧ SystemRecord r := by
    intro op p e hop hp h
    obtain ⟨r, hr, hs⟩ := h
    rw [step_find env now op p e hp pkg]
    by_cases hk : p = pkg
    · subst hk
      simp only [if_true, hr]
      exact ⟨_, rfl, recStep_system_kept env now op r hop hs⟩
    · simp only [hk, if_false]
      exact ⟨r, hr, hs⟩
  cases htg : op.target with
  | some p => exact htarget op p e hop htg h
  | none =>
    cases op with
    | dailyBehaviorCheck =>
      simp only [step, dailyBehaviorCheck]
      exact dailyBehaviorLoop_induction env now
        (fun e => ∃ r, cacheFind e.app_cache_ pkg = some r ∧ SystemRecord r)
        (fun p e he => htarget (Op.rewardGoodBehavior p 2) p e trivial rfl he) _ e h
    | _ => simp [Op.target] at htg

/-- The system status is sticky under every call but `quarantineApp`: in a store built from
an empty cache by calls other than `quarantineApp`, a record that has status SYSTEM keeps
status SYSTEM and score 100 under further such calls. -/
theorem system_sticky_without_quarantineApp (e0 : TrustEngine)
    (before after : List (Env × Int × Op)) (h0 : e0.app_cache_ = [])
    (hbefore : ∀ c ∈ before, c.2.2.notQuarantineApp)
    (hafter : ∀ c ∈ after, c.2.2.notQuarantineApp)
    (pkg : String) (r : AppTrustInfo)
    (hr : cacheFind (run before e0).app_cache_ pkg = some r)
    (hs : r.status = AppStatus.SYSTEM) :
    ∃ r2, cacheFind (run (before ++ after) e0).app_cache_ pkg = some r2 ∧
      r2.status = AppStatus.SYSTEM ∧ r2.current_score = 100 := by
  have hinv := run_inv Op.notQuarantineApp
    (fun r => r.status = AppStatus.SYSTEM → SystemRecord r)
    newAppInfo_system_shape
    (fun env now op r hop h => recStep_system_shape env now op r hop h)
    (fun _ _ => trivial) before hbefore e0
    (by rw [h0]; intro p hp; simp at hp)
  have hsys : SystemRecord r := hinv _ (mem_of_cacheFind hr) hs
  rw [run_append]
  have hkeep : ∀ (calls : List (Env × Int × Op)) (e : TrustEngine),
      (∀ c ∈ calls, c.2.2.notQuarantineApp) →
      (∃ r, cacheFind e.app_cache_ pkg = some r ∧ SystemRecord r) →
      ∃ r, cacheFind (run calls e).app_cache_ pkg = some r ∧ SystemRecord r := by
    intro calls
    induction calls with
    | nil => intro e _ h; exact h
    | cons c rest ih =>
      intro e hc h
      obtain ⟨env, now, op⟩ := c
      unfold run
      exact ih _ (fun c hcm => hc c (List.mem_cons_of_mem _ hcm))
        (step_system_kept env now op (hc (env, now, op) (List.mem_cons_self _ _)) pkg e h)
  obtain ⟨r2, hr2, hs2⟩ := hkeep after (run before e0) hafter ⟨r, hr, hsys⟩
  exact ⟨r2, hr2, hs2.1, hs2.2.2.1⟩

/-! ## The quarantine flag under all operations -/

/-- In every cache reached from an empty one by calls of the ten operations in which no sum
left the range of `int`, a record flagged as quarantined has the status QUARANTINED, a
score below 20 and is not whitelisted. -/
theorem run_flag_sound (e0 : TrustEngine) (calls : List (Env × Int × Op))
    (hempty : e0.app_cache_ = []) (hfit : (run calls e0).overflowed = false) :
    CacheAll (fun r => r.is_quarantined = true →
      r.status = AppStatus.QUARANTINED ∧ r.current_score < 20 ∧ r.is_whitelisted = false)
      (run calls e0).app_cache_ :=
  run_inv_fit (fun _ => True)
    (fun r => r.is_quarantined = true →
      r.status = AppStatus.QUARANTINED ∧ r.current_score < 20 ∧ r.is_whitelisted = false)
    (fun env now q hf => by simp [(newAppInfo_free env now q).2.2.1] at hf)
    (fun env now op r _ hov hr => recStep_flag_sound env now op r hov hr)
    (fun _ _ => trivial) calls (fun _ _ => trivial) e0
    (fun _ => by intro q hq; simp [hempty] at hq) hfit

/-- C28, as amended: in every state reached from an empty cache by any sequence of the ten
public operations, with any integer bonus, every record with `is_quarantined = true` has
`is_whitelisted = false`; when no sum `current_score + bonus` or `current_score + penalty`
left the range of `int`, it has the status QUARANTINED and a score below 20 as well. -/
theorem C28_quarantined_flag_sound (e0 : TrustEngine) (calls : List (Env × Int × Op))
    (hempty : e0.app_cache_ = [])
    (p : String × AppTrustInfo) (hp : p ∈ (run calls e0).app_cache_)
    (hq : p.2.is_quarantined = true) :
    p.2.is_whitelisted = false ∧
      ((run calls e0).overflowed = false →
        p.2.status = AppStatus.QUARANTINED ∧ p.2.current_score < 20) :=
  ⟨run_flag_off_whitelist e0 calls hempty p hp hq,
    fun hfit =>
      ⟨(run_flag_sound e0 calls hempty hfit p hp hq).1,
        (run_flag_sound e0 calls hempty hfit p hp hq).2.1⟩⟩

/-- Counterexample to C28 as stated: `com.evil.app` is quarantined at its install (score
0), given the bonus -2147483638 and charged a penalty of -30.  The sum
`-2147483638 + -30` lies below the smallest `int`: the record is left with the score
2147483628 and the status TRUSTED, and `is_quarantined` is still true. -/
theorem C28_counterexample :
    emptyEngine.app_cache_ = [] ∧
    ("com.evil.app", cacheAt (run underflowCalls emptyEngine).app_cache_ "com.evil.app")
      ∈ (run underflowCalls emptyEngine).app_cache_ ∧
    (cacheAt (run (underflowCalls.take 2) emptyEngine).app_cache_
      "com.evil.app").current_score = -2147483638 ∧
    (cacheAt (run underflowCalls emptyEngine).app_cache_ "com.evil.app").is_quarantined
      = true ∧
    (cacheAt (run underflowCalls emptyEngine).app_cache_ "com.evil.app").status
      = AppStatus.TRUSTED ∧
    (cacheAt (run underflowCalls emptyEngine).app_cache_ "com.evil.app").current_score
      = 2147483628 ∧
    (run underflowCalls emptyEngine).overflowed = true := by
  decide

/-- Witness of C28: after the install of the sideloaded `com.evil.app`, a reward of -7 and
a call of `enforceByScore`, its record is flagged as quarantined. -/
theorem C28_witness :
    emptyEngine.app_cache_ = [] ∧
    (cacheAt (run [(sampleEnv, 1000, Op.onPackageAdded "com.evil.app"),
        (sampleEnv, 2000, Op.rewardGoodBehavior "com.evil.app" (-7)),
        (sampleEnv, 3000, Op.enforceByScore "com.evil.app")]
      emptyEngine).app_cache_ "com.evil.app").is_quarantined = true ∧
    (cacheAt (run [(sampleEnv, 1000, Op.onPackageAdded "com.evil.app"),
        (sampleEnv, 2000, Op.rewardGoodBehavior "com.evil.app" (-7)),
        (sampleEnv, 3000, Op.enforceByScore "com.evil.app")]
      emptyEngine).app_cache_ "com.evil.app").is_whitelisted = false ∧
    (cacheAt (run [(sampleEnv, 1000, Op.onPackageAdded "com.evil.app"),
        (sampleEnv, 2000, Op.rewardGoodBehavior "com.evil.app" (-7)),
        (sampleEnv, 3000, Op.enforceByScore "com.evil.app")]
      emptyEngine).app_cache_ "com.evil.app").status = AppStatus.QUARANTINED ∧
    (cacheAt (run [(sampleEnv, 1000, Op.onPackageAdded "com.evil.app"),
        (sampleEnv, 2000, Op.rewardGoodBehavior "com.evil.app" (-7)),
        (sampleEnv, 3000, Op.enforceByScore "com.evil.app")]
      emptyEngine).app_cache_ "com.evil.app").current_score < 20 := by
  have h := C28_quarantined_flag_sound emptyEngine
    [(sampleEnv, 1000, Op.onPackageAdded "com.evil.app"),
      (sampleEnv, 2000, Op.rewardGoodBehavior "com.evil.app" (-7)),
      (sampleEnv, 3000, Op.enforceByScore "com.evil.app")] rfl
    ("com.evil.app", cacheAt (run [(sampleEnv, 1000, Op.onPackageAdded "com.evil.app"),
      (sampleEnv, 2000, Op.rewardGoodBehavior "com.evil.app" (-7)),
      (sampleEnv, 3000, Op.enforceByScore "com.evil.app")]
    emptyEngine).app_cache_ "com.evil.app")
    (by decide) (by decide)
  exact ⟨rfl, by decide, h.1, h.2 (by decide)⟩

/-- C29: in a state reached from an empty cache, for a cached record that is neither
whitelisted nor quarantined, whatever its score, `quarantineApp` returns true and leaves
the record with score 0, status QUARANTINED and the quarantine flag set; a following
`releaseFromQuarantine` returns true, clears the flag and leaves score 0 and status
QUARANTINED.  For a whitelisted record `quarantineApp` returns false and leaves the
engine as it is. -/
theorem C29_quarantine_then_release (e0 : TrustEngine) (calls : List (Env × Int × Op))
    (hempty : e0.app_cache_ = []) (env env2 : Env) (now : Int) (pkg : String)
    (r : AppTrustInfo) (hr : cacheFind (run calls e0).app_cache_ pkg = some r) :
    (r.is_whitelisted = false → r.is_quarantined = false →
      (quarantineApp env now pkg (run calls e0)).1 = true ∧
      (∃ r1, cacheFind (quarantineApp env now pkg (run calls e0)).2.app_cache_ pkg = some r1 ∧
        r1.current_score = 0 ∧ r1.status = AppStatus.QUARANTINED ∧
        r1.is_quarantined = true) ∧
      (releaseFromQuarantine env2 pkg (quarantineApp env now pkg (run calls e0)).2).1
        = true ∧
      ∃ r2, cacheFind (releaseFromQuarantine env2 pkg
          (quarantineApp env now pkg (run calls e0)).2).2.app_cache_ pkg = some r2 ∧
        r2.is_quarantined = false ∧ r2.current_score = 0 ∧
        r2.status = AppStatus.QUARANTINED) ∧
    (r.is_whitelisted = true → quarantineApp env now pkg (run calls e0) = (false, run calls e0)) := by
  constructor
  · intro hw hq
    rw [quarantineApp_eq env now pkg _ r hr hq hw]
    refine ⟨rfl,
      ⟨{ r with
          is_suspended := true
          network_blocked := if getAppUid env pkg < 0 then r.network_blocked else true
          is_quarantined := true
          status := AppStatus.QUARANTINED
          current_score := 0 },
        by simp only [cacheFind_cacheSet, if_true], rfl, rfl, rfl⟩, ?_⟩
    rw [releaseFromQuarantine_eq env2 pkg _
      { r with
        is_suspended := true
        network_blocked := if getAppUid env pkg < 0 then r.network_blocked else true
        is_quarantined := true
        status := AppStatus.QUARANTINED
        current_score := 0 }
      (by simp only [cacheFind_cacheSet, if_true]) rfl]
    refine ⟨rfl,
      { r with
        is_suspended := false
        network_blocked :=
          if getAppUid env2 pkg < 0 then
            (if getAppUid env pkg < 0 then r.network_blocked else true)
          else false
        is_quarantined := false
        status := calculateStatus 0
        current_score := 0 },
      by simp only [cacheFind_cacheSet, if_true, cacheSet_cacheSet], rfl, rfl, ?_⟩
    simp [calculateStatus]
  · intro hw
    have hq : r.is_quarantined = false := by
      cases hflag : r.is_quarantined with
      | false => rfl
      | true =>
        have h := run_flag_off_whitelist e0 calls hempty (pkg, r) (mem_of_cacheFind hr) hflag
        simp [hw] at h
    exact quarantineApp_whitelisted env now pkg _ r hr hq hw

/-- Witness of C29: `com.shop.app` at score 30 is quarantined and released, which leaves
it at score 0 with status QUARANTINED; the whitelisted `com.tool.app` is refused. -/
theorem C29_witness :
    (cacheAt shopEngine.app_cache_ "com.shop.app").current_score = 30 ∧
    (cacheAt (releaseFromQuarantine sampleEnv "com.shop.app"
      (quarantineApp sampleEnv 40 "com.shop.app" shopEngine).2).2.app_cache_
      "com.shop.app").current_score = 0 ∧
    (∃ r2, cacheFind (releaseFromQuarantine sampleEnv "com.shop.app"
        (quarantineApp sampleEnv 40 "com.shop.app" shopEngine).2).2.app_cache_
        "com.shop.app" = some r2 ∧
      r2.is_quarantined = false ∧ r2.current_score = 0 ∧
      r2.status = AppStatus.QUARANTINED) ∧
    quarantineApp sampleEnv 40 "com.tool.app"
        (run [(sampleEnv, 5, Op.whitelistApp "com.tool.app")] emptyEngine)
      = (false, run [(sampleEnv, 5, Op.whitelistApp "com.tool.app")] emptyEngine) :=
  ⟨by decide, by decide,
    ((C29_quarantine_then_release emptyEngine
      [(sampleEnv, 10, Op.registerApp "com.shop.app"),
        (sampleEnv, 20, Op.recordViolation "com.shop.app" ViolationType.HIDDEN_CAMERA ""),
        (sampleEnv, 30, Op.recordViolation "com.shop.app" ViolationType.GALLERY_SCAN "")]
      rfl sampleEnv sampleEnv 40 "com.shop.app"
      (cacheAt shopEngine.app_cache_ "com.shop.app") (by decide)).1
      (by decide) (by decide)).2.2.2,
    (C29_quarantine_then_release emptyEngine
      [(sampleEnv, 5, Op.whitelistApp "com.tool.app")] rfl sampleEnv sampleEnv 40
      "com.tool.app"
      (cacheAt (run [(sampleEnv, 5, Op.whitelistApp "com.tool.app")]
        emptyEngine).app_cache_ "com.tool.app") (by decide)).2 (by decide)⟩

/-- C30, as amended: in every state reached from an empty cache, `getQuarantinedApps`
returns exactly the cached records whose status is QUARANTINED, in cache order; when no sum
`current_score + bonus` or `current_score + penalty` left the range of `int`, every cached
record with `is_quarantined = true` is among them. -/
theorem C30_getQuarantinedApps_by_status (e0 : TrustEngine)
    (calls : List (Env × Int × Op)) (hempty : e0.app_cache_ = []) :
    (∀ a, a ∈ getQuarantinedApps (run calls e0) ↔
      (∃ k, (k, a) ∈ (run calls e0).app_cache_) ∧ a.status = AppStatus.QUARANTINED) ∧
    getQuarantinedApps (run calls e0)
      = ((run calls e0).app_cache_.map Prod.snd).filter
          (fun a => decide (a.status = AppStatus.QUARANTINED)) ∧
    ((run calls e0).overflowed = false →
      ∀ p ∈ (run calls e0).app_cache_, p.2.is_quarantined = true →
        p.2 ∈ getQuarantinedApps (run calls e0)) := by
  have hmem : ∀ a, a ∈ getQuarantinedApps (run calls e0) ↔
      (∃ k, (k, a) ∈ (run calls e0).app_cache_) ∧ a.status = AppStatus.QUARANTINED := by
    intro a
    simp [getQuarantinedApps, getAppsByStatus]
  refine ⟨hmem, rfl, fun hfit p hp hq => ?_⟩
  rw [hmem]
  exact ⟨⟨p.1, hp⟩, (run_flag_sound e0 calls hempty hfit p hp hq).1⟩

/-- Counterexample to C30 as stated, in two runs from the empty engine.  `com.shop.app` is
registered, quarantined by hand and released: its record has the flag
`is_quarantined = false` and the status QUARANTINED (score 0), and `getQuarantinedApps`
returns it.  `com.evil.app` is quarantined at its install, given the bonus -2147483638 and
charged a penalty of -30, whose sum lies below the smallest `int`: its record has the flag
`is_quarantined = true` and the status TRUSTED, and `getQuarantinedApps` does not return
it. -/
theorem C30_counterexample :
    ((cacheAt (run quarantineRoundTrip emptyEngine).app_cache_
        "com.shop.app").is_quarantined = false ∧
      (cacheAt (run quarantineRoundTrip emptyEngine).app_cache_
        "com.shop.app").status = AppStatus.QUARANTINED ∧
      getQuarantinedApps (run quarantineRoundTrip emptyEngine)
        = [cacheAt (run quarantineRoundTrip emptyEngine).app_cache_ "com.shop.app"] ∧
      (∃ a ∈ getQuarantinedApps (run quarantineRoundTrip emptyEngine),
        a.is_quarantined = false)) ∧
    (("com.evil.app", cacheAt (run underflowCalls emptyEngine).app_cache_ "com.evil.app")
        ∈ (run underflowCalls emptyEngine).app_cache_ ∧
      (cacheAt (run underflowCalls emptyEngine).app_cache_ "com.evil.app").is_quarantined
        = true ∧
      (cacheAt (run underflowCalls emptyEngine).app_cache_ "com.evil.app").status
        = AppStatus.TRUSTED ∧
      getQuarantinedApps (run underflowCalls emptyEngine) = []) := by
  refine ⟨⟨by decide, by decide, by decide, ?_⟩, by decide, by decide, by decide, by decide⟩
  exact ⟨cacheAt (run quarantineRoundTrip emptyEngine).app_cache_ "com.shop.app",
    by decide, by decide⟩

/-- Witness of C30: after the install of the sideloaded `com.evil.app` the query returns
its record, which is flagged as quarantined. -/
theorem C30_witness :
    emptyEngine.app_cache_ = [] ∧
    (run [(sampleEnv, 1000, Op.onPackageAdded "com.evil.app")] emptyEngine).overflowed
      = false ∧
    (cacheAt evilEngine.app_cache_ "com.evil.app").is_quarantined = true ∧
    cacheAt evilEngine.app_cache_ "com.evil.app" ∈ getQuarantinedApps evilEngine :=
  ⟨rfl, by decide, by decide,
    (C30_getQuarantinedApps_by_status emptyEngine
      [(sampleEnv, 1000, Op.onPackageAdded "com.evil.app")] rfl).2.2 (by decide)
      ("com.evil.app", cacheAt evilEngine.app_cache_ "com.evil.app")
      (by decide) (by decide)⟩

open Orchestrator

/-! ## Association lists of the orchestrator -/

theorem mapFind_mapSet {κ α : Type} [DecidableEq κ] (c : List (κ × α)) (k k2 : κ) (v : α) :
    mapFind (mapSet c k v) k2 = if k = k2 then some v else mapFind c k2 := by
  induction c with
  | nil => simp [mapSet, mapFind]
  | cons hd tl ih =>
    obtain ⟨k1, w⟩ := hd
    by_cases h1 : k1 = k
    · subst h1
      by_cases h2 : k1 = k2 <;> simp [mapSet, mapFind, h2]
    · by_cases h2 : k = k2
      · subst h2
        simp [mapSet, mapFind, h1, ih]
      · simp [mapSet, mapFind, h1, h2, ih]

theorem mapCount_of_find {κ α : Type} [DecidableEq κ] {c : List (κ × α)} {k : κ} {v : α}
    (h : mapFind c k = some v) : mapCount c k = 1 := by
  simp [mapCount, h]

theorem mapCount_of_none {κ α : Type} [DecidableEq κ] {c : List (κ × α)} {k : κ}
    (h : mapFind c k = none) : mapCount c k = 0 := by
  simp [mapCount, h]

theorem mapAt_of_find {κ α : Type} [DecidableEq κ] {c : List (κ × α)} {k : κ} {v : α}
    (dflt : α) (h : mapFind c k = some v) : mapAt dflt c k = v := by
  simp [mapAt, h]

theorem mapAt_of_none {κ α : Type} [DecidableEq κ] {c : List (κ × α)} {k : κ}
    (dflt : α) (h : mapFind c k = none) : mapAt dflt c k = dflt := by
  simp [mapAt, h]

theorem mapAt_mapSet {κ α : Type} [DecidableEq κ] (dflt : α) (c : List (κ × α)) (k : κ)
    (v : α) : mapAt dflt (mapSet c k v) k = v := by
  simp [mapAt, mapFind_mapSet]

theorem mapCount_mapSet {κ α : Type} [DecidableEq κ] (c : List (κ × α)) (k : κ) (v : α) :
    mapCount (mapSet c k v) k = 1 := by
  simp [mapCount, mapFind_mapSet]

theorem mapSet_mapSet {κ α : Type} [DecidableEq κ] (c : List (κ × α)) (k : κ) (v w : α) :
    mapSet (mapSet c k v) k w = mapSet c k w := by
  induction c with
  | nil => simp [mapSet]
  | cons hd tl ih =>
    obtain ⟨k1, u⟩ := hd
    by_cases h1 : k1 = k
    · simp [mapSet, h1]
    · simp [mapSet, h1, ih]

/-! ## The event bus -/

/-- The loop of `routeEvent` calls the subscribers up to the first one that throws something
that is no `std::exception`, and returns exactly when there is none. -/
theorem routeLoop_eq (os : OsEnv) (event : Event) (subs : List Nat)
    (trace : List (Nat × Event)) :
    routeLoop os event subs trace =
      (decide (∀ cb ∈ subs, os.callback_result cb event ≠ CallbackResult.throws_other),
        trace ++ (calledSubscribers os event subs).map (fun cb => (cb, event))) := by
  induction subs generalizing trace with
  | nil => simp [routeLoop, calledSubscribers]
  | cons cb rest ih =>
    unfold routeLoop calledSubscribers
    cases hres : os.callback_result cb event <;> simp [ih, hres]

theorem calledSubscribers_all (os : OsEnv) (event : Event) (subs : List Nat)
    (h : ∀ cb ∈ subs, os.callback_result cb event ≠ CallbackResult.throws_other) :
    calledSubscribers os event subs = subs := by
  induction subs with
  | nil => rfl
  | cons cb rest ih =>
    have h1 := h cb (List.mem_cons_self _ _)
    simp [calledSubscribers, h1, ih (fun c hc => h c (List.mem_cons_of_mem _ hc))]

theorem calledSubscribers_prefix (os : OsEnv) (event : Event) (subs : List Nat) :
    calledSubscribers os event subs <+: subs := by
  induction subs with
  | nil => simp [calledSubscribers]
  | cons cb rest ih =>
    unfold calledSubscribers
    split
    · simp
    · simpa using ih

/-- The orchestrator after `routeEvent`: only the trace of the subscriber calls grows. -/
theorem routeEvent_eq (os : OsEnv) (event : Event) (o : Orchestrator) :
    routeEvent os event o =
      (decide (∀ cb ∈ mapAt [] o.subscribers_ event.type,
          os.callback_result cb event ≠ CallbackResult.throws_other),
        { o with
          deliveries := o.deliveries ++
            (calledSubscribers os event (mapAt [] o.subscribers_ event.type)).map
              (fun cb => (cb, event)) }) := by
  unfold routeEvent
  cases hfind : mapFind o.subscribers_ event.type with
  | none =>
    simp [mapCount_of_none hfind, mapAt_of_none [] hfind, calledSubscribers]
  | some subs =>
    simp [mapCount_of_find hfind, mapAt_of_find [] hfind, routeLoop_eq]

/-- C21, as amended: `routeEvent` calls the subscribers of the kind of the event, in the
order of subscription, each with that event, up to and with the first one that throws
something that is no `std::exception`, and nothing else changes; it calls every subscriber
of the kind once, and returns, exactly when no subscriber throws such a thing.  A
subscriber that throws a `std::exception` does not keep the later ones from being
called. -/
theorem C21_routeEvent_delivery (os : OsEnv) (event : Event) (o : Orchestrator) :
    (routeEvent os event o).2 =
      { o with
        deliveries := o.deliveries ++
          (calledSubscribers os event (mapAt [] o.subscribers_ event.type)).map
            (fun cb => (cb, event)) } ∧
    calledSubscribers os event (mapAt [] o.subscribers_ event.type)
      <+: mapAt [] o.subscribers_ event.type ∧
    ((routeEvent os event o).1 = true ↔
      ∀ cb ∈ mapAt [] o.subscribers_ event.type,
        os.callback_result cb event ≠ CallbackResult.throws_other) ∧
    ((∀ cb ∈ mapAt [] o.subscribers_ event.type,
        os.callback_result cb event ≠ CallbackResult.throws_other) →
      (routeEvent os event o).2.deliveries = o.deliveries ++
        (mapAt [] o.subscribers_ event.type).map (fun cb => (cb, event))) := by
  rw [routeEvent_eq]
  refine ⟨rfl, calledSubscribers_prefix _ _ _, by simp, fun h => ?_⟩
  simp only [calledSubscribers_all os event _ h]

/-- Counterexample to C21 as stated: subscribers 1, 5 and 3 of `SMS_THREAT`, in this
order; subscriber 5 throws an `int`.  `routeEvent` calls 1 and 5, does not return, and
subscriber 3 is not called. -/
theorem C21_counterexample :
    mapAt [] (subscribeToEvents EventType.SMS_THREAT 3
      (subscribeToEvents EventType.SMS_THREAT 5
        (subscribeToEvents EventType.SMS_THREAT 1 freshOrchestrator))).subscribers_
      EventType.SMS_THREAT = [1, 5, 3] ∧
    busOs.callback_result 5 (sampleEvent EventType.SMS_THREAT 1)
      = CallbackResult.throws_other ∧
    (routeEvent busOs (sampleEvent EventType.SMS_THREAT 1)
      (subscribeToEvents EventType.SMS_THREAT 3
        (subscribeToEvents EventType.SMS_THREAT 5
          (subscribeToEvents EventType.SMS_THREAT 1 freshOrchestrator)))).1 = false ∧
    (routeEvent busOs (sampleEvent EventType.SMS_THREAT 1)
      (subscribeToEvents EventType.SMS_THREAT 3
        (subscribeToEvents EventType.SMS_THREAT 5
          (subscribeToEvents EventType.SMS_THREAT 1 freshOrchestrator)))).2.deliveries
      = [(1, sampleEvent EventType.SMS_THREAT 1), (5, sampleEvent EventType.SMS_THREAT 1)] := by
  decide

/-- Witness of C21: subscribers 1, 2 and 3 of `SMS_THREAT` and 4 of `FILE_THREAT`;
subscriber 2 throws a `std::runtime_error`.  An `SMS_THREAT` event is given to 1, 2 and
3, in this order, and not to 4. -/
theorem C21_witness :
    busOs.callback_result 2 (sampleEvent EventType.SMS_THREAT 1)
      = CallbackResult.throws_exception ∧
    (routeEvent busOs (sampleEvent EventType.SMS_THREAT 1)
      (subscribeToEvents EventType.SMS_THREAT 3
        (subscribeToEvents EventType.FILE_THREAT 4
          (subscribeToEvents EventType.SMS_THREAT 2
            (subscribeToEvents EventType.SMS_THREAT 1 freshOrchestrator))))).2.deliveries
      = [] ++ [(1, sampleEvent EventType.SMS_THREAT 1),
          (2, sampleEvent EventType.SMS_THREAT 1), (3, sampleEvent EventType.SMS_THREAT 1)] :=
  ⟨by decide,
    (C21_routeEvent_delivery busOs (sampleEvent EventType.SMS_THREAT 1)
      (subscribeToEvents EventType.SMS_THREAT 3
        (subscribeToEvents EventType.FILE_THREAT 4
          (subscribeToEvents EventType.SMS_THREAT 2
            (subscribeToEvents EventType.SMS_THREAT 1 freshOrchestrator))))).2.2.2
      (by decide)⟩

/-! ## The queue of the event bus -/

theorem postsOnly_refl (o : Orchestrator) : PostsOnly o o :=
  ⟨[], by simp⟩

theorem postsOnly_trans {a b c : Orchestrator} (h1 : PostsOnly a b) (h2 : PostsOnly b c) :
    PostsOnly a c := by
  obtain ⟨e1, p1, q1, d1, t1⟩ := h1
  obtain ⟨e2, p2, q2, d2, t2⟩ := h2
  exact ⟨e1 ++ e2, by rw [p2, p1, List.append_assoc], by rw [q2, q1, List.append_assoc],
    by rw [d2, d1], by rw [t2, t1]⟩

/-- A change of the members that are no part of the bus posts nothing. -/
theorem postsOnly_of_eq {o o2 : Orchestrator} (hp : o2.posted = o.posted)
    (hq : o2.event_queue_ = o.event_queue_) (hd : o2.processed = o.processed)
    (ht : o2.stats_.total_events_processed = o.stats_.total_events_processed) :
    PostsOnly o o2 :=
  ⟨[], by simp [hp], by simp [hq], hd, ht⟩

theorem postEvent_posts (event : Event) (o : Orchestrator) :
    PostsOnly o (postEvent event o) :=
  ⟨[event], rfl, rfl, rfl, rfl⟩

theorem startService_posts (os : OsEnv) (now : Int) (name : String) (o : Orchestrator) :
    PostsOnly o (startService os now name o).2 := by
  unfold startService spawnService
  cases hdef : findDef o.service_definitions_ name with
  | none => exact postsOnly_refl o
  | some d =>
    dsimp only
    split_ifs
    · exact postsOnly_refl o
    · exact ⟨[_], rfl, rfl, rfl, rfl⟩
    · exact postsOnly_of_eq rfl rfl rfl rfl
    · exact postsOnly_of_eq rfl rfl rfl rfl

theorem stopService_posts (os : OsEnv) (now : Int) (name : String) (o : Orchestrator) :
    PostsOnly o (stopService os now name o).2 := by
  unfold stopService
  dsimp only
  split_ifs
  · exact postsOnly_refl o
  · exact ⟨[_], rfl, rfl, rfl, rfl⟩
  · exact ⟨[_], rfl, rfl, rfl, rfl⟩
  · exact postsOnly_refl o

theorem restartService_posts (os : OsEnv) (now : Int) (name : String) (o : Orchestrator) :
    PostsOnly o (restartService os now name o).2 :=
  postsOnly_trans (stopService_posts os now name o) (startService_posts os now name _)

theorem handleServiceFailure_posts (os : OsEnv) (now : Int) (name : String)
    (o : Orchestrator) : PostsOnly o (handleServiceFailure os now name o) := by
  unfold handleServiceFailure
  cases hdef : findDef o.service_definitions_ name with
  | none => exact postsOnly_refl o
  | some d =>
    dsimp only
    split_ifs
    · exact postsOnly_trans (postsOnly_of_eq rfl rfl rfl rfl)
        (startService_posts os now name _)
    · exact ⟨[_], rfl, rfl, rfl, rfl⟩
    · exact postsOnly_trans (postsOnly_of_eq rfl rfl rfl rfl)
        (startService_posts os now name _)
    · exact ⟨[_], rfl, rfl, rfl, rfl⟩

theorem checkServiceHealth_posts (os : OsEnv) (now : Int) (name : String)
    (o : Orchestrator) : PostsOnly o (checkServiceHealth os now name o) := by
  unfold checkServiceHealth
  cases hfind : mapFind o.services_ name with
  | none => exact postsOnly_refl o
  | some info =>
    dsimp only
    split_ifs
    · exact postsOnly_trans (postsOnly_of_eq rfl rfl rfl rfl)
        (handleServiceFailure_posts os now name _)
    · exact postsOnly_of_eq rfl rfl rfl rfl
    · exact postsOnly_refl o
    · exact postsOnly_refl o

theorem healthChecks_posts (os : OsEnv) (now : Int) (names : List String)
    (o : Orchestrator) : PostsOnly o (healthChecks os now names o) := by
  induction names generalizing o with
  | nil => exact postsOnly_refl o
  | cons n rest ih =>
    unfold healthChecks
    exact postsOnly_trans (checkServiceHealth_posts os now n o) (ih _)

theorem healthCheckLoop_posts (os : OsEnv) (now : Int) (o : Orchestrator) :
    PostsOnly o (healthCheckLoop os now o) := by
  unfold healthCheckLoop
  exact postsOnly_trans (healthChecks_posts os now _ o) (postsOnly_of_eq rfl rfl rfl rfl)

theorem sendToService_posts (os : OsEnv) (name message : String) (o : Orchestrator) :
    PostsOnly o (sendToService os name message o).2 := by
  unfold sendToService connectToService
  dsimp only
  split_ifs <;> exact postsOnly_refl o

theorem handleIpcMessage_posts (os : OsEnv) (now : Int) (message : String)
    (o : Orchestrator) : PostsOnly o (handleIpcMessage os now message o).2 := by
  unfold handleIpcMessage
  dsimp only
  split_ifs <;>
    first
    | exact postsOnly_refl o
    | exact sendToService_posts os _ _ o
    | exact restartService_posts os now _ o

/-- What `processEvent` leaves of the bus when it returns. -/
theorem processEvent_some (os : OsEnv) (event : Event) (o o1 : Orchestrator)
    (h : processEvent os event o = some o1) :
    o1.posted = o.posted ∧ o1.event_queue_ = o.event_queue_ ∧
      o1.processed = o.processed ++ [event] ∧
      o1.stats_.total_events_processed = o.stats_.total_events_processed := by
  unfold processEvent at h
  dsimp only at h
  rw [routeEvent_eq] at h
  dsimp only at h
  rcases o with ⟨run_, svc, socks, q, subs, appcb, stats, defs, posted, processed, deliv,
    appdeliv, spawned, restarts, signals⟩
  cases appcb <;> dsimp only at h <;> split_ifs at h <;>
    first
    | cases h
    | (cases hty : event.type <;> simp only [hty] at h <;> cases h <;>
        exact ⟨rfl, rfl, rfl, rfl⟩)

/-- When no exception leaves the subscribers and the application callback, `processEvent`
returns. -/
theorem processEvent_isSome (os : OsEnv) (hos : os.contained) (event : Event)
    (o : Orchestrator) : ∃ o1, processEvent os event o = some o1 := by
  obtain ⟨hcb, happ⟩ := hos
  rcases o with ⟨run_, svc, socks, q, subs, appcb, stats, defs, posted, processed, deliv,
    appdeliv, spawned, restarts, signals⟩
  unfold processEvent
  dsimp only
  rw [routeEvent_eq]
  dsimp only
  have h1 : decide (∀ cb ∈ mapAt [] subs event.type,
      os.callback_result cb event ≠ CallbackResult.throws_other) = true :=
    decide_eq_true (fun cb _ => hcb cb event)
  rw [h1]
  cases appcb <;> simp only [Bool.not_true, Bool.false_eq_true, if_false, happ event] <;>
    cases event.type <;> exact ⟨_, rfl⟩

/-- The queue holds the events that were posted and not yet handed to `processEvent`, and
the counter counts the events handed over: kept by every call. -/
theorem orchStep_queue (os : OsEnv) (now : Int) (op : OrchOp) (o o1 : Orchestrator)
    (h : orchStep os now op o = some o1)
    (hinv : o.posted = o.processed ++ o.event_queue_ ∧
      o.stats_.total_events_processed = (o.processed.length : Int)) :
    o1.posted = o1.processed ++ o1.event_queue_ ∧
      o1.stats_.total_events_processed = (o1.processed.length : Int) := by
  have hposts : ∀ o2, PostsOnly o o2 →
      o2.posted = o2.processed ++ o2.event_queue_ ∧
        o2.stats_.total_events_processed = (o2.processed.length : Int) := by
    intro o2 ⟨evs, hp, hq, hd, ht⟩
    exact ⟨by rw [hp, hq, hd, hinv.1, List.append_assoc], by rw [ht, hd, hinv.2]⟩
  cases op with
  | eventLoop =>
    simp only [orchStep, eventLoop] at h
    cases hq : o.event_queue_ with
    | nil =>
      simp only [hq] at h
      cases h
      exact hinv
    | cons event rest =>
      simp only [hq] at h
      cases hpe : processEvent os event { o with event_queue_ := rest } with
      | none => simp [hpe] at h
      | some o2 =>
        simp only [hpe] at h
        cases h
        obtain ⟨h1, h2, h3, h4⟩ := processEvent_some os event _ o2 hpe
        dsimp only at h1 h2 h3 h4 ⊢
        refine ⟨?_, ?_⟩
        · rw [h1, h2, h3, hinv.1, hq]
          simp
        · rw [h4, h3, hinv.2]
          simp
  | registerService n s => cases h; exact hposts _ (postsOnly_of_eq rfl rfl rfl rfl)
  | startService n => cases h; exact hposts _ (startService_posts os now n o)
  | stopService n => cases h; exact hposts _ (stopService_posts os now n o)
  | restartService n => cases h; exact hposts _ (restartService_posts os now n o)
  | checkServiceHealth n => cases h; exact hposts _ (checkServiceHealth_posts os now n o)
  | healthCheckLoop => cases h; exact hposts _ (healthCheckLoop_posts os now o)
  | handleServiceFailure n => cases h; exact hposts _ (handleServiceFailure_posts os now n o)
  | postEvent ev => cases h; exact hposts _ (postEvent_posts ev o)
  | subscribeToEvents t cb => cases h; exact hposts _ (postsOnly_of_eq rfl rfl rfl rfl)
  | unsubscribeFromEvents t => cases h; exact hposts _ (postsOnly_of_eq rfl rfl rfl rfl)
  | setAppCallback cb => cases h; exact hposts _ (postsOnly_of_eq rfl rfl rfl rfl)
  | handleIpcMessage m => cases h; exact hposts _ (handleIpcMessage_posts os now m o)

theorem orchStep_isSome (os : OsEnv) (hos : os.contained) (now : Int) (op : OrchOp)
    (o : Orchestrator) : ∃ o1, orchStep os now op o = some o1 := by
  cases op with
  | eventLoop =>
    simp only [orchStep, eventLoop]
    cases o.event_queue_ with
    | nil => exact ⟨_, rfl⟩
    | cons event rest =>
      obtain ⟨o2, h2⟩ := processEvent_isSome os hos event { o with event_queue_ := rest }
      simp only [h2]
      exact ⟨_, rfl⟩
  | _ => exact ⟨_, rfl⟩

/-- C22: start with an empty queue and counter 0.  After any sequence of calls that the
process survives (posts, iterations of the dispatcher loop, and every other operation),
the events handed to `processEvent` followed by the queue are the events posted, in the
order of the posts: the events are dispatched in that order, each at most once, and
`total_events_processed` is the number of events handed over.  The process survives every
sequence in which no exception leaves `processEvent`. -/
theorem C22_dispatch_fifo (o0 : Orchestrator) (calls : List (OsEnv × Int × OrchOp))
    (hqueue : o0.event_queue_ = []) (hposted : o0.posted = []) (hproc : o0.processed = [])
    (hcount : o0.stats_.total_events_processed = 0) :
    (∀ o, orchRun calls o0 = some o →
      o.posted = o.processed ++ o.event_queue_ ∧ o.processed <+: o.posted ∧
      o.stats_.total_events_processed = (o.processed.length : Int)) ∧
    ((∀ c ∈ calls, c.1.contained) → ∃ o, orchRun calls o0 = some o) := by
  have hinv0 : o0.posted = o0.processed ++ o0.event_queue_ ∧
      o0.stats_.total_events_processed = (o0.processed.length : Int) := by
    simp [hqueue, hposted, hproc, hcount]
  clear hqueue hposted hproc hcount
  constructor
  · intro o hrun
    have key : o.posted = o.processed ++ o.event_queue_ ∧
        o.stats_.total_events_processed = (o.processed.length : Int) := by
      induction calls generalizing o0 with
      | nil =>
        simp only [orchRun] at hrun
        cases hrun
        exact hinv0
      | cons c rest ih =>
        obtain ⟨os, now, op⟩ := c
        simp only [orchRun] at hrun
        cases hstep : orchStep os now op o0 with
        | none => simp [hstep] at hrun
        | some o1 =>
          simp only [hstep] at hrun
          exact ih o1 (orchStep_queue os now op o0 o1 hstep hinv0) hrun
    exact ⟨key.1, ⟨o.event_queue_, key.1.symm⟩, key.2⟩
  · intro hcont
    clear hinv0
    induction calls generalizing o0 with
    | nil => exact ⟨o0, rfl⟩
    | cons c rest ih =>
      obtain ⟨os, now, op⟩ := c
      obtain ⟨o1, h1⟩ := orchStep_isSome os (hcont (os, now, op) (List.mem_cons_self _ _))
        now op o0
      simp only [orchRun, h1]
      exact ih o1 (fun c hc => hcont c (List.mem_cons_of_mem _ hc))

/-- Witness of C22: three events are posted and two iterations of the dispatcher loop run
between the posts; the first two events posted were handed over, in this order, the third
waits in the queue, and the counter is 2. -/
theorem C22_witness :
    (∃ o, orchRun busCalls freshOrchestrator = some o ∧
      o.posted = [sampleEvent EventType.SMS_THREAT 1, sampleEvent EventType.FILE_THREAT 2,
        sampleEvent EventType.TRACKER_BLOCKED 3] ∧
      o.processed = [sampleEvent EventType.SMS_THREAT 1, sampleEvent EventType.FILE_THREAT 2] ∧
      o.stats_.total_events_processed = 2) ∧
    ∀ o, orchRun busCalls freshOrchestrator = some o →
      o.posted = o.processed ++ o.event_queue_ ∧ o.processed <+: o.posted ∧
      o.stats_.total_events_processed = (o.processed.length : Int) :=
  ⟨⟨_, rfl, by decide, by decide, by decide⟩,
    (C22_dispatch_fifo freshOrchestrator busCalls rfl rfl rfl rfl).1⟩

/-! ## The pid of a running service -/

theorem pidKept_refl (o : Orchestrator) : PidKept o o :=
  fun _ _ h => Or.inl h

theorem pidKept_trans {a b c : Orchestrator} (h1 : PidKept a b) (h2 : PidKept b c) :
    PidKept a c := by
  intro k info h
  rcases h2 k info h with h3 | h3
  · exact h1 k info h3
  · exact Or.inr h3

theorem pidKept_of_eq {o o2 : Orchestrator} (h : o2.services_ = o.services_) :
    PidKept o o2 := by
  intro k info hf
  rw [h] at hf
  exact Or.inl hf

/-- Writing a record with a positive pid keeps the pids. -/
theorem pidKept_set {o o2 : Orchestrator} (name : String) (info : ServiceInfo)
    (h : o2.services_ = mapSet o.services_ name info) (hpid : 0 < info.pid) :
    PidKept o o2 := by
  intro k info2 hf
  rw [h, mapFind_mapSet] at hf
  by_cases hk : name = k
  · simp only [hk, if_true, Option.some.injEq] at hf
    subst hf
    exact Or.inr hpid
  · simp only [hk, if_false] at hf
    exact Or.inl hf

theorem startService_pidKept (os : OsEnv) (now : Int) (name : String) (o : Orchestrator) :
    PidKept o (startService os now name o).2 := by
  unfold startService spawnService
  cases hdef : findDef o.service_definitions_ name with
  | none => exact pidKept_refl o
  | some d =>
    dsimp only
    split_ifs with h1 h2 h3
    · exact pidKept_refl o
    · refine pidKept_set name
        { name := name, socket_path := d.socket_path, pid := os.fork name,
          status := ServiceStatus.RUNNING, restart_count := 0, error_message := "" } ?_ h2
      simp only [postEvent, mapAt_mapSet, mapSet_mapSet]
    · refine pidKept_set name
        { name := name, socket_path := d.socket_path, pid := os.fork name,
          status := ServiceStatus.ERROR, restart_count := 0, error_message := "" } ?_ h2
      simp only [mapAt_mapSet, mapSet_mapSet]
    · exact pidKept_of_eq rfl

theorem handleServiceFailure_pidKept (os : OsEnv) (now : Int) (name : String)
    (o : Orchestrator) (info : ServiceInfo) (hfind : mapFind o.services_ name = some info)
    (hpid : 0 < info.pid) : PidKept o (handleServiceFailure os now name o) := by
  unfold handleServiceFailure
  cases hdef : findDef o.service_definitions_ name with
  | none => exact pidKept_refl o
  | some d =>
    have hc : mapCount o.services_ name ≠ 0 := by simp [mapCount_of_find hfind]
    simp only [hc, if_false, mapAt_of_find defaultService hfind]
    split_ifs
    · exact pidKept_trans (pidKept_set name { info with restart_count := info.restart_count + 1 } rfl
        hpid) (startService_pidKept os now name _)
    · exact pidKept_set name
        { info with
          status := ServiceStatus.ERROR
          error_message := "Max restart sayısına ulaşıldı" } rfl hpid

theorem checkServiceHealth_pidKept (os : OsEnv) (now : Int) (name : String)
    (o : Orchestrator) : PidKept o (checkServiceHealth os now name o) := by
  unfold checkServiceHealth
  cases hfind : mapFind o.services_ name with
  | none => exact pidKept_refl o
  | some info =>
    dsimp only
    split_ifs with h1 h2 h3
    · exact pidKept_trans (pidKept_set name { info with status := ServiceStatus.STOPPED } rfl h1)
        (handleServiceFailure_pidKept os now name _
          { info with status := ServiceStatus.STOPPED }
          (by simp only [mapFind_mapSet, if_true]) h1)
    · exact pidKept_set name { info with status := ServiceStatus.RUNNING } rfl h1
    · exact pidKept_refl o
    · exact pidKept_refl o

theorem healthChecks_pidKept (os : OsEnv) (now : Int) (names : List String)
    (o : Orchestrator) : PidKept o (healthChecks os now names o) := by
  induction names generalizing o with
  | nil => exact pidKept_refl o
  | cons n rest ih =>
    unfold healthChecks
    exact pidKept_trans (checkServiceHealth_pidKept os now n o) (ih _)

theorem healthCheckLoop_pidKept (os : OsEnv) (now : Int) (o : Orchestrator) :
    PidKept o (healthCheckLoop os now o) := by
  unfold healthCheckLoop
  exact pidKept_trans (healthChecks_pidKept os now _ o) (pidKept_of_eq rfl)

/-- What `stopService` does: nothing, returning false, for a service that is unknown or
has no positive pid; else the record of the service gets the pid 0 and the status STOPPED,
and the call returns true. -/
theorem stopService_eq (os : OsEnv) (now : Int) (name : String) (o : Orchestrator) :
    stopService os now name o = (false, o) ∨
    ∃ info, mapFind o.services_ name = some info ∧ 0 < info.pid ∧
      (stopService os now name o).1 = true ∧
      (stopService os now name o).2.services_
        = mapSet o.services_ name { info with status := ServiceStatus.STOPPED, pid := 0 } := by
  unfold stopService
  cases hfind : mapFind o.services_ name with
  | none => simp [mapCount_of_none hfind]
  | some info =>
    simp only [mapCount_of_find hfind, one_ne_zero, if_false, mapAt_of_find defaultService hfind]
    by_cases hp : info.pid > 0
    · right
      exact ⟨info, rfl, hp, by simp [hp], by simp [hp, postEvent]⟩
    · left
      simp [hp]

/-- A running service has a positive pid: kept by every call of the supervisor. -/
theorem orchStep_running_pid (os : OsEnv) (now : Int) (op : OrchOp)
    (hop : op.isSupervisorCall) (o : Orchestrator)
    (hinv : ∀ name info, mapFind o.services_ name = some info →
      info.status = ServiceStatus.RUNNING → 0 < info.pid) :
    ∃ o1, orchStep os now op o = some o1 ∧
      ∀ name info, mapFind o1.services_ name = some info →
        info.status = ServiceStatus.RUNNING → 0 < info.pid := by
  have hkept : ∀ o2 o3 : Orchestrator,
      (∀ name info, mapFind o2.services_ name = some info →
        info.status = ServiceStatus.RUNNING → 0 < info.pid) →
      PidKept o2 o3 →
      ∀ name info, mapFind o3.services_ name = some info →
        info.status = ServiceStatus.RUNNING → 0 < info.pid := by
    intro o2 o3 h2 hk name info hf hs
    rcases hk name info hf with h | h
    · exact h2 name info h hs
    · exact h
  have hstop : ∀ n, ∀ name info,
      mapFind (stopService os now n o).2.services_ name = some info →
        info.status = ServiceStatus.RUNNING → 0 < info.pid := by
    intro n name info hf hs
    rcases stopService_eq os now n o with h | ⟨i, _, _, _, h⟩
    · rw [h] at hf
      exact hinv name info hf hs
    · rw [h, mapFind_mapSet] at hf
      by_cases hk : n = name
      · simp only [hk, if_true, Option.some.injEq] at hf
        subst hf
        simp at hs
      · simp only [hk, if_false] at hf
        exact hinv name info hf hs
  cases op with
  | registerService n s =>
    refine ⟨_, rfl, ?_⟩
    intro name info hf hs
    simp only [registerService, mapFind_mapSet] at hf
    by_cases hk : n = name
    · simp only [hk, if_true, Option.some.injEq] at hf
      subst hf
      simp at hs
    · simp only [hk, if_false] at hf
      exact hinv name info hf hs
  | startService n => exact ⟨_, rfl, hkept _ _ hinv (startService_pidKept os now n o)⟩
  | stopService n => exact ⟨_, rfl, hstop n⟩
  | restartService n =>
    exact ⟨_, rfl, hkept _ _ (hstop n) (startService_pidKept os now n _)⟩
  | checkServiceHealth n =>
    exact ⟨_, rfl, hkept _ _ hinv (checkServiceHealth_pidKept os now n o)⟩
  | healthCheckLoop => exact ⟨_, rfl, hkept _ _ hinv (healthCheckLoop_pidKept os now o)⟩
  | handleServiceFailure n => exact absurd hop (by simp [OrchOp.isSupervisorCall])
  | postEvent ev => exact absurd hop (by simp [OrchOp.isSupervisorCall])
  | subscribeToEvents t cb => exact absurd hop (by simp [OrchOp.isSupervisorCall])
  | unsubscribeFromEvents t => exact absurd hop (by simp [OrchOp.isSupervisorCall])
  | setAppCallback cb => exact absurd hop (by simp [OrchOp.isSupervisorCall])
  | eventLoop => exact absurd hop (by simp [OrchOp.isSupervisorCall])
  | handleIpcMessage m => exact absurd hop (by simp [OrchOp.isSupervisorCall])

/-- C26: from an empty service table, every sequence of `registerService`, `startService`,
`stopService`, `restartService`, probes and health ticks reaches a state, and in it a
service whose status is RUNNING has a recorded pid above 0.  `startService`, the probe of a
service and the health tick leave every service record as it was or with a pid above 0;
`stopService`, when it does anything, leaves the pid 0 with the status STOPPED, and
`registerService` leaves the pid 0 with the status UNKNOWN; `restartService` is
`stopService` followed by `startService`. -/
theorem C26_running_has_pid (o0 : Orchestrator) (calls : List (OsEnv × Int × OrchOp))
    (hempty : o0.services_ = []) (hsup : ∀ c ∈ calls, c.2.2.isSupervisorCall) :
    (∃ o, orchRun calls o0 = some o ∧
      ∀ name info, mapFind o.services_ name = some info →
        info.status = ServiceStatus.RUNNING → 0 < info.pid) ∧
    (∀ os now name o, PidKept o (startService os now name o).2 ∧
      PidKept o (checkServiceHealth os now name o) ∧ PidKept o (healthCheckLoop os now o)) ∧
    (∀ os now name o, stopService os now name o = (false, o) ∨
      ∃ info, mapFind o.services_ name = some info ∧ 0 < info.pid ∧
        (stopService os now name o).1 = true ∧
        (stopService os now name o).2.services_
          = mapSet o.services_ name
              { info with status := ServiceStatus.STOPPED, pid := 0 }) ∧
    (∀ name socket_path o, ∃ info,
      mapFind (registerService name socket_path o).2.services_ name = some info ∧
        info.pid = 0 ∧ info.status = ServiceStatus.UNKNOWN) ∧
    (∀ os now name o,
      restartService os now name o = startService os now name (stopService os now name o).2) := by
  refine ⟨?_, fun os now name o => ⟨startService_pidKept os now name o,
    checkServiceHealth_pidKept os now name o, healthCheckLoop_pidKept os now o⟩,
    fun os now name o => stopService_eq os now name o, ?_, fun _ _ _ _ => rfl⟩
  · have hinv0 : ∀ name info, mapFind o0.services_ name = some info →
        info.status = ServiceStatus.RUNNING → 0 < info.pid := by
      intro name info hf
      simp [hempty, mapFind] at hf
    clear hempty
    induction calls generalizing o0 with
    | nil => exact ⟨o0, rfl, hinv0⟩
    | cons c rest ih =>
      obtain ⟨os, now, op⟩ := c
      obtain ⟨o1, h1, hinv1⟩ := orchStep_running_pid os now op
        (hsup (os, now, op) (List.mem_cons_self _ _)) o0 hinv0
      simp only [orchRun, h1]
      exact ih o1 (fun c hc => hsup c (List.mem_cons_of_mem _ hc)) hinv1
  · intro name socket_path o
    have hf : mapFind (registerService name socket_path o).2.services_ name
        = some (ServiceInfo.mk name socket_path 0 ServiceStatus.UNKNOWN 0 "") := by
      simp only [registerService, mapFind_mapSet, if_true]
    exact ⟨_, hf, rfl, rfl⟩

/-- Witness of C26: `security_core` is registered, started (child 101, alive), found alive
by a health tick, restarted (child 102) and is RUNNING with the pid 102. -/
theorem C26_witness :
    (newOrchestrator defaultDefinitions).services_ = [] ∧
    (orchRun [(aliveOs 101, 0, OrchOp.registerService "security_core" "/data/clara/s.sock"),
        (aliveOs 101, 1, OrchOp.startService "security_core"),
        (aliveOs 101, 2, OrchOp.healthCheckLoop),
        (aliveOs 102, 3, OrchOp.restartService "security_core")]
      freshOrchestrator).map (fun o => (mapFind o.services_ "security_core").map
        (fun info => (info.status, info.pid))) = some (some (ServiceStatus.RUNNING, 102)) ∧
    ∃ o, orchRun [(aliveOs 101, 0, OrchOp.registerService "security_core" "/data/clara/s.sock"),
        (aliveOs 101, 1, OrchOp.startService "security_core"),
        (aliveOs 101, 2, OrchOp.healthCheckLoop),
        (aliveOs 102, 3, OrchOp.restartService "security_core")]
      freshOrchestrator = some o ∧
      ∀ name info, mapFind o.services_ name = some info →
        info.status = ServiceStatus.RUNNING → 0 < info.pid :=
  ⟨rfl, by decide,
    (C26_running_has_pid freshOrchestrator
      [(aliveOs 101, 0, OrchOp.registerService "security_core" "/data/clara/s.sock"),
        (aliveOs 101, 1, OrchOp.startService "security_core"),
        (aliveOs 101, 2, OrchOp.healthCheckLoop),
        (aliveOs 102, 3, OrchOp.restartService "security_core")] rfl
      (by
        intro c hc
        simp only [List.mem_cons, List.mem_singleton, List.not_mem_nil, or_false] at hc
        rcases hc with rfl | rfl | rfl | rfl <;> exact trivial)).1⟩

/-! ## Starts, restarts and the error state -/

/-- The orchestrator after `startService` for a defined service that is not running, when
`fork` succeeds: the record of the service is made anew, with `restart_count = 0`. -/
theorem startService_spawn (os : OsEnv) (now : Int) (name : String) (o : Orchestrator)
    (d : ServiceDef) (hdef : findDef o.service_definitions_ name = some d)
    (hnot : ∀ info, mapFind o.services_ name = some info →
      info.status ≠ ServiceStatus.RUNNING)
    (hfork : 0 < os.fork name) :
    startService os now name o =
      if os.waitpid_settle (os.fork name) = 0 then
        (true, postEvent
          { id := now, timestamp := now, type := EventType.SERVICE_STARTED,
            source_service := "orchestrator", target := name, message := "", data := "",
            severity := 2 }
          { o with
            spawned := o.spawned ++ [name]
            services_ := mapSet o.services_ name
              { name := name, socket_path := d.socket_path, pid := os.fork name,
                status := ServiceStatus.RUNNING, restart_count := 0, error_message := "" } })
      else
        (false, { o with
          spawned := o.spawned ++ [name]
          services_ := mapSet o.services_ name
            { name := name, socket_path := d.socket_path, pid := os.fork name,
              status := ServiceStatus.ERROR, restart_count := 0, error_message := "" } }) := by
  have hrun : ¬ (mapCount o.services_ name > 0 ∧
      (mapAt defaultService o.services_ name).status = ServiceStatus.RUNNING) := by
    intro ⟨h1, h2⟩
    cases hfind : mapFind o.services_ name with
    | none => simp [mapCount_of_none hfind] at h1
    | some info =>
      rw [mapAt_of_find defaultService hfind] at h2
      exact hnot info hfind h2
  unfold startService spawnService
  simp only [hdef, hrun, if_false, gt_iff_lt, hfork, if_true, mapAt_mapSet, mapSet_mapSet]

/-- C23, the code at the failing input: `security_core` (`max_restarts = 5`) is started and
then found exited at each of seven health ticks.  `handleServiceFailure` calls
`startService` seven times; after every one of them the record of the service is new, with
`restart_count = 0`, and after the seventh the service is RUNNING, not in the error state,
and no `SERVICE_ERROR` event was posted. -/
theorem C23_restarts_exceed_budget :
    (findDef freshOrchestrator.service_definitions_ "security_core").map
      (fun d => (d.auto_restart, d.max_restarts)) = some (true, 5) ∧
    (orchRun crashLoopCalls freshOrchestrator).map (fun o => o.auto_restarts)
      = some ["security_core", "security_core", "security_core", "security_core",
          "security_core", "security_core", "security_core"] ∧
    (orchRun crashLoopCalls freshOrchestrator).map (fun o => o.spawned.length) = some 8 ∧
    (orchRun crashLoopCalls freshOrchestrator).map
      (fun o => (mapFind o.services_ "security_core").map
        (fun info => (info.status, info.pid, info.restart_count)))
      = some (some (ServiceStatus.RUNNING, 108, 0)) ∧
    (orchRun crashLoopCalls freshOrchestrator).map
      (fun o => o.posted.filter (fun ev => decide (ev.type = EventType.SERVICE_ERROR)))
      = some [] ∧
    (orchRun (crashLoopCalls.take 2) freshOrchestrator).map
      (fun o => (mapFind o.services_ "security_core").map
        (fun info => (info.status, info.pid, info.restart_count)))
      = some (some (ServiceStatus.RUNNING, 102, 0)) := by
  decide

/-- C24, as amended: when the binary of a defined service that is not running exits within
the settle time of its start, `startService` makes one `fork`, leaves the service in the
error state with `restart_count = 0`, returns false and posts no event, whatever
`max_restarts` is; a later probe of the service whose `waitpid` reports neither an exit nor
a live child changes nothing, so no restart follows. -/
theorem C24_immediate_exit (os : OsEnv) (now : Int) (name : String) (o : Orchestrator)
    (d : ServiceDef) (hdef : findDef o.service_definitions_ name = some d)
    (hnot : ∀ info, mapFind o.services_ name = some info →
      info.status ≠ ServiceStatus.RUNNING)
    (hfork : 0 < os.fork name) (hexit : os.waitpid_settle (os.fork name) ≠ 0) :
    startService os now name o =
      (false, { o with
        spawned := o.spawned ++ [name]
        services_ := mapSet o.services_ name
          { name := name, socket_path := d.socket_path, pid := os.fork name,
            status := ServiceStatus.ERROR, restart_count := 0, error_message := "" } }) ∧
    (startService os now name o).2.event_queue_ = o.event_queue_ ∧
    (startService os now name o).2.posted = o.posted ∧
    ∀ (os2 : OsEnv) (now2 : Int),
      os2.waitpid_health (os.fork name) ≠ os.fork name →
      os2.waitpid_health (os.fork name) ≠ 0 →
      checkServiceHealth os2 now2 name (startService os now name o).2
        = (startService os now name o).2 := by
  have h := startService_spawn os now name o d hdef hnot hfork
  rw [if_neg hexit] at h
  rw [h]
  refine ⟨rfl, rfl, rfl, fun os2 now2 h1 h2 => ?_⟩
  unfold checkServiceHealth
  simp only [mapFind_mapSet, if_true, gt_iff_lt, hfork, h1, h2, if_false]

/-- Counterexample to C24 as stated: the service `detector` has `max_restarts = 3`, and its
binary exits at once.  After its start and three health ticks there was one `fork`, not
three; the service is in the error state; no event was posted, so no `SERVICE_ERROR` event
of severity 8 is on the queue. -/
theorem C24_counterexample :
    (findDef (newOrchestrator detectorDefinitions).service_definitions_ "detector").map
      (fun d => d.max_restarts) = some 3 ∧
    (orchRun immediateExitCalls (newOrchestrator detectorDefinitions)).map
      (fun o => o.spawned) = some ["detector"] ∧
    (orchRun immediateExitCalls (newOrchestrator detectorDefinitions)).map
      (fun o => o.auto_restarts) = some [] ∧
    (orchRun immediateExitCalls (newOrchestrator detectorDefinitions)).map
      (fun o => (mapFind o.services_ "detector").map (fun info => info.status))
      = some (some ServiceStatus.ERROR) ∧
    (orchRun immediateExitCalls (newOrchestrator detectorDefinitions)).map
      (fun o => (o.posted, o.event_queue_)) = some ([], []) := by
  decide

/-- Witness of C24: the start of `detector`, whose child 201 has exited after the settle
time. -/
theorem C24_witness :
    0 < (exitOs 201).fork "detector" ∧
    (exitOs 201).waitpid_settle ((exitOs 201).fork "detector") ≠ 0 ∧
    (startService (exitOs 201) 0 "detector" (newOrchestrator detectorDefinitions)).1 = false ∧
    (startService (exitOs 201) 0 "detector" (newOrchestrator detectorDefinitions)).2.posted
      = [] :=
  have h := C24_immediate_exit (exitOs 201) 0 "detector" (newOrchestrator detectorDefinitions)
    { name := "detector", binary_path := "/data/clara/bin/detector",
      socket_path := "/data/clara/detector.sock",
      auto_start := true, auto_restart := true, restart_delay_ms := 10, max_restarts := 3 }
    (by decide) (by intro info hf; simp [newOrchestrator, mapFind] at hf) (by decide)
    (by decide)
  ⟨by decide, by decide, congrArg Prod.fst h.1, h.2.2.1⟩

/-- C25, as amended: the error state is left by `startService`, by `stopService` and by
a probe that finds the child alive, and kept by the other probes and by
`handleServiceFailure` with a spent budget.  For a service in the error state: a probe
changes nothing when the pid is not positive or `waitpid` reports neither an exit nor a live
child; `handleServiceFailure` leaves the error state when `auto_restart` is off or
`restart_count` has reached `max_restarts`; `startService` forks again and leaves the
service RUNNING when the child is alive after the settle time; `stopService` leaves it
STOPPED with pid 0 when its pid is positive; a probe that finds the child alive leaves it
RUNNING. -/
theorem C25_error_state_transitions (os : OsEnv) (now : Int) (name : String)
    (o : Orchestrator) (info : ServiceInfo)
    (hfind : mapFind o.services_ name = some info)
    (herr : info.status = ServiceStatus.ERROR) :
    ((info.pid ≤ 0 ∨
        (os.waitpid_health info.pid ≠ info.pid ∧ os.waitpid_health info.pid ≠ 0)) →
      checkServiceHealth os now name o = o) ∧
    (∀ d, findDef o.service_definitions_ name = some d →
      (d.auto_restart = false ∨ d.max_restarts ≤ info.restart_count) →
      mapFind (handleServiceFailure os now name o).services_ name
        = some { info with
            status := ServiceStatus.ERROR
            error_message := "Max restart sayısına ulaşıldı" }) ∧
    (∀ d, findDef o.service_definitions_ name = some d → 0 < os.fork name →
      os.waitpid_settle (os.fork name) = 0 →
      (startService os now name o).1 = true ∧
      mapFind (startService os now name o).2.services_ name
        = some
          { name := name, socket_path := d.socket_path, pid := os.fork name,
            status := ServiceStatus.RUNNING, restart_count := 0, error_message := "" }) ∧
    (0 < info.pid →
      (stopService os now name o).1 = true ∧
      mapFind (stopService os now name o).2.services_ name
        = some { info with status := ServiceStatus.STOPPED, pid := 0 }) ∧
    (0 < info.pid → os.waitpid_health info.pid = 0 →
      mapFind (checkServiceHealth os now name o).services_ name
        = some { info with status := ServiceStatus.RUNNING }) := by
  refine ⟨?_, ?_, ?_, ?_, ?_⟩
  · intro h
    unfold checkServiceHealth
    rcases h with h | ⟨h1, h2⟩
    · have hp : ¬ info.pid > 0 := by omega
      simp only [hfind, hp, if_false]
    · simp only [hfind, h1, h2, if_false, ite_self]
  · intro d hdef hbudget
    have hc : mapCount o.services_ name ≠ 0 := by simp [mapCount_of_find hfind]
    have hno : ¬ (d.auto_restart = true ∧ info.restart_count < d.max_restarts) := by
      rintro ⟨h1, h2⟩
      rcases hbudget with h | h
      · simp [h] at h1
      · omega
    unfold handleServiceFailure
    simp only [hdef, hc, if_false, mapAt_of_find defaultService hfind, hno, postEvent,
      mapFind_mapSet, if_true]
  · intro d hdef hfork halive
    have h := startService_spawn os now name o d hdef
      (by intro i hi; rw [hfind] at hi; cases hi; simp [herr]) hfork
    rw [if_pos halive] at h
    rw [h]
    exact ⟨rfl, by simp only [postEvent, mapFind_mapSet, if_true]⟩
  · intro hp
    unfold stopService
    simp only [mapCount_of_find hfind, one_ne_zero, if_false,
      mapAt_of_find defaultService hfind, gt_iff_lt, hp, if_true, postEvent, mapFind_mapSet,
      and_self]
  · intro hp halive
    unfold checkServiceHealth
    have hne : ¬ (0 : Int) = info.pid := by omega
    simp only [hfind, gt_iff_lt, hp, if_true, halive, hne, if_false, mapFind_mapSet]

/-- Counterexample to C25 as stated: `detector` is in the error state after its binary
exited at once.  A `startService` whose child 205 stays alive leaves it RUNNING, and so
does a `restartService`; a `stopService` leaves it STOPPED. -/
theorem C25_counterexample :
    (orchRun immediateExitCalls (newOrchestrator detectorDefinitions)).map
      (fun o => (mapFind o.services_ "detector").map (fun info => info.status))
      = some (some ServiceStatus.ERROR) ∧
    (orchRun (immediateExitCalls ++ [(aliveOs 205, 40, OrchOp.startService "detector")])
      (newOrchestrator detectorDefinitions)).map
      (fun o => (mapFind o.services_ "detector").map (fun info => info.status))
      = some (some ServiceStatus.RUNNING) ∧
    (orchRun (immediateExitCalls ++ [(aliveOs 205, 40, OrchOp.restartService "detector")])
      (newOrchestrator detectorDefinitions)).map
      (fun o => (mapFind o.services_ "detector").map (fun info => info.status))
      = some (some ServiceStatus.RUNNING) ∧
    (orchRun (immediateExitCalls ++ [(exitOs 205, 40, OrchOp.stopService "detector")])
      (newOrchestrator detectorDefinitions)).map
      (fun o => (mapFind o.services_ "detector").map (fun info => info.status))
      = some (some ServiceStatus.STOPPED) := by
  decide

/-- Witness of C25: `detector` in the error state with the pid 201 of its reaped child; a
health probe whose `waitpid` gives -1 changes nothing, and a start whose child stays alive
leaves the service RUNNING. -/
theorem C25_witness :
    mapFind (startService (exitOs 201) 0 "detector"
      (newOrchestrator detectorDefinitions)).2.services_ "detector"
      = some
        { name := "detector", socket_path := "/data/clara/detector.sock", pid := 201,
          status := ServiceStatus.ERROR, restart_count := 0, error_message := "" } ∧
    checkServiceHealth (exitOs 202) 10 "detector"
        (startService (exitOs 201) 0 "detector" (newOrchestrator detectorDefinitions)).2
      = (startService (exitOs 201) 0 "detector" (newOrchestrator detectorDefinitions)).2 ∧
    (startService (aliveOs 205) 40 "detector"
      (startService (exitOs 201) 0 "detector"
        (newOrchestrator detectorDefinitions)).2).1 = true :=
  have h := C25_error_state_transitions (exitOs 202) 10 "detector"
    (startService (exitOs 201) 0 "detector" (newOrchestrator detectorDefinitions)).2
    { name := "detector", socket_path := "/data/clara/detector.sock", pid := 201,
      status := ServiceStatus.ERROR, restart_count := 0, error_message := "" }
    (by decide) rfl
  have h2 := C25_error_state_transitions (aliveOs 205) 40 "detector"
    (startService (exitOs 201) 0 "detector" (newOrchestrator detectorDefinitions)).2
    { name := "detector", socket_path := "/data/clara/detector.sock", pid := 201,
      status := ServiceStatus.ERROR, restart_count := 0, error_message := "" }
    (by decide) rfl
  ⟨by decide, h.1 (Or.inr ⟨by decide, by decide⟩),
    (h2.2.2.1
      { name := "detector", binary_path := "/data/clara/bin/detector",
        socket_path := "/data/clara/detector.sock",
        auto_start := true, auto_restart := true, restart_delay_ms := 10, max_restarts := 3 }
      (by decide) (by decide) (by decide)).1⟩

/-! ## The control socket -/

/-- A request that starts with none of `status`, `services`, `scan` and `restart ` is
answered with the error object, and nothing changes. -/
theorem handleIpcMessage_unrecognised (os : OsEnv) (now : Int) (message : String)
    (o : Orchestrator)
    (h1 : "status".toList.isPrefixOf message.toList = false)
    (h2 : "services".toList.isPrefixOf message.toList = false)
    (h3 : "scan".toList.isPrefixOf message.toList = false)
    (h4 : "restart ".toList.isPrefixOf message.toList = false) :
    handleIpcMessage os now message o = ("\x7b\"error\": \"Unknown command\"\x7d\n", o) := by
  unfold handleIpcMessage
  simp only [h1, h2, h3, h4, Bool.false_eq_true, if_false]

/-- C27, the code at the failing input: a request `start <name>` or `stop <name>`, for any
name, is answered with the error object `Unknown command`, and nothing changes: no service
is started or stopped.  For `security_core`, which `startService` starts and `stopService`
stops, `start security_core` forks nothing and `stop security_core` leaves the service
RUNNING, whereas `restart security_core` is answered with the success object. -/
theorem C27_start_stop_unrecognised :
    (∀ (os : OsEnv) (now : Int) (name : String) (o : Orchestrator),
      handleIpcMessage os now ("start " ++ name) o
        = ("\x7b\"error\": \"Unknown command\"\x7d\n", o)) ∧
    (∀ (os : OsEnv) (now : Int) (name : String) (o : Orchestrator),
      handleIpcMessage os now ("stop " ++ name) o
        = ("\x7b\"error\": \"Unknown command\"\x7d\n", o)) ∧
    handleIpcMessage (aliveOs 301) 5 "start security_core" freshOrchestrator
      = ("\x7b\"error\": \"Unknown command\"\x7d\n", freshOrchestrator) ∧
    (startService (aliveOs 301) 5 "security_core" freshOrchestrator).1 = true ∧
    (handleIpcMessage (aliveOs 302) 9 "stop security_core"
      (startService (aliveOs 301) 5 "security_core" freshOrchestrator).2).1
      = "\x7b\"error\": \"Unknown command\"\x7d\n" ∧
    (mapFind (handleIpcMessage (aliveOs 302) 9 "stop security_core"
      (startService (aliveOs 301) 5 "security_core" freshOrchestrator).2).2.services_
      "security_core").map (fun info => info.status) = some ServiceStatus.RUNNING ∧
    (stopService (aliveOs 302) 9 "security_core"
      (startService (aliveOs 301) 5 "security_core" freshOrchestrator).2).1 = true ∧
    (handleIpcMessage (aliveOs 302) 9 "restart security_core"
      (startService (aliveOs 301) 5 "security_core" freshOrchestrator).2).1
      = "\x7b\"success\": true\x7d\n" := by
  refine ⟨?_, ?_, ?_, by decide, by decide, by decide, by decide, by decide⟩
  · intro os now name o
    apply handleIpcMessage_unrecognised <;>
      simp [String.toList, String.data_append, List.isPrefixOf]
  · intro os now name o
    apply handleIpcMessage_unrecognised <;>
      simp [String.toList, String.data_append, List.isPrefixOf]
  · apply handleIpcMessage_unrecognised <;> decide

/-! ## The restart count after a restart -/

/-- A probe that finds the child of a service exited, while the budget is not spent and the
new child stays alive, restarts the service and leaves its record new, with
`restart_count = 0`: the budget test of the next failure sees the count 0 again. -/
theorem checkServiceHealth_restart (os : OsEnv) (now : Int) (name : String)
    (o : Orchestrator) (info : ServiceInfo) (d : ServiceDef)
    (hfind : mapFind o.services_ name = some info) (hpid : 0 < info.pid)
    (hexit : os.waitpid_health info.pid = info.pid)
    (hdef : findDef o.service_definitions_ name = some d)
    (hauto : d.auto_restart = true) (hbudget : info.restart_count < d.max_restarts)
    (hfork : 0 < os.fork name) (halive : os.waitpid_settle (os.fork name) = 0) :
    checkServiceHealth os now name o =
      postEvent
        { id := now, timestamp := now, type := EventType.SERVICE_STARTED,
          source_service := "orchestrator", target := name, message := "", data := "",
          severity := 2 }
        { o with
          services_ := mapSet o.services_ name
            { name := name, socket_path := d.socket_path, pid := os.fork name,
              status := ServiceStatus.RUNNING, restart_count := 0, error_message := "" }
          spawned := o.spawned ++ [name]
          auto_restarts := o.auto_restarts ++ [name] } := by
  unfold checkServiceHealth
  simp only [hfind, gt_iff_lt, hpid, if_true, hexit]
  unfold handleServiceFailure
  have hc : mapCount (mapSet o.services_ name
      { info with status := ServiceStatus.STOPPED }) name ≠ 0 := by
    simp [mapCount_mapSet]
  simp only [hdef, hc, if_false, mapAt_mapSet, hauto, hbudget, and_self, if_true,
    mapSet_mapSet]
  have h := startService_spawn os now name
    { o with
      services_ := mapSet o.services_ name
        { info with
          status := ServiceStatus.STOPPED
          restart_count := info.restart_count + 1 }
      auto_restarts := o.auto_restarts ++ [name] } d hdef
    (by
      intro i hi
      simp only [mapFind_mapSet, if_true, Option.some.injEq] at hi
      subst hi
      simp) hfork
  rw [h]
  simp only [halive, if_true, mapSet_mapSet]

end Clara
